import Mathlib

/-!
# Sorting-grid learning prototype: embedding and verified properties

Shallow embedding of the sorting-grid controller (`SampleExample`,
`sample_example.hpp`), of its user interface (`SampleGUI`, `sample_gui.cpp`) and of the
shared host/device declarations (`host_device.h`).

Timing estimates, learning rates and scene coordinates are `float` in the program; they are
embedded as rationals, so arithmetic is exact and rounding, infinities and NaN are outside
the model.
-/

namespace KeyInference

/-! ## `host_device.h` -/

/-- Enumeration `SortingMode` of `host_device.h` (the ten selectable modes; the closing
enumerator `eNumSortModes` is the constant below). -/
inductive SortingMode where
  | eNoSorting
  | eHitObject
  | eOrigin
  | eReis
  | eCosta
  | eAila
  | eTwoPoint
  | eEndPointEst
  | eEndEstAdaptive
  | eInferKey
  deriving DecidableEq, Repr, Fintype

/-- Integer id of each enumerator, as written in `host_device.h`. -/
def SortingMode.id : SortingMode → Nat
  | .eNoSorting => 0
  | .eHitObject => 1
  | .eOrigin => 2
  | .eReis => 3
  | .eCosta => 4
  | .eAila => 5
  | .eTwoPoint => 6
  | .eEndPointEst => 7
  | .eEndEstAdaptive => 8
  | .eInferKey => 9

/-- Enumerator `eNumSortModes = 10` ("Number of actual Sorting Modes"). -/
def eNumSortModes : Nat := 10

/-- The enumerators in declaration order. -/
def SortingMode.all : List SortingMode :=
  [.eNoSorting, .eHitObject, .eOrigin, .eReis, .eCosta, .eAila, .eTwoPoint, .eEndPointEst,
   .eEndEstAdaptive, .eInferKey]

/-- Mode with a given integer id, if there is one. -/
def SortingMode.ofId (n : Nat) : Option SortingMode :=
  SortingMode.all.find? (fun m => m.id == n)

/-- Structure `GridCube` of `host_device.h`: one best-mode id per face. -/
structure GridCube where
  up : Int
  down : Int
  front : Int
  back : Int
  left : Int
  right : Int
  deriving DecidableEq, Repr

/-- Vector type `vec3` (`glm::vec3`), with rational components. -/
structure Vec3 where
  x : ℚ
  y : ℚ
  z : ℚ
  deriving DecidableEq, Repr

/-- Vector type `glm::ivec3`. -/
structure IVec3 where
  x : Int
  y : Int
  z : Int
  deriving DecidableEq, Repr

/-- Structure `SortingParameters` of `host_device.h`. -/
structure SortingParameters where
  numCoherenceBitsTotal : Nat
  sortAfterASTraversal : Bool
  noSort : Bool
  hitObject : Bool
  rayOrigin : Bool
  rayDirection : Bool
  estimatedEndpoint : Bool
  realEndpoint : Bool
  isFinished : Bool
  deriving DecidableEq, Repr

/-- Structure `RtxState` of `host_device.h`; the defaults are the initialiser of
`SampleExample::m_rtxState`. -/
structure RtxState where
  frame : Int := 0
  maxDepth : Int := 10
  maxSamples : Int := 1
  fireflyClampThreshold : ℚ := 1
  hdrMultiplier : ℚ := 1
  debugging_mode : Int := 0
  pbrMode : Int := 0
  _pad0 : Int := 0
  sizeX : Int := 0
  sizeY : Int := 0
  minHeatmap : Int := 0
  maxHeatmap : Int := 65000
  SceneMax : Vec3 := ⟨0, 0, 0⟩
  gridX : Int := 0
  SceneMin : Vec3 := ⟨0, 0, 0⟩
  gridY : Int := 0
  SceneCenter : Vec3 := ⟨0, 0, 0⟩
  gridZ : Int := 0
  DisplayCubeSize : ℚ := 1
  VisualizeSortingGrid : Int := 0
  numCoherenceBitsTotal : Nat := 32
  sortAfterASTraversal : Int := 0
  noSort : Int := 0
  hitObject : Int := 1
  rayOrigin : Int := 0
  rayDirection : Int := 0
  estimatedEndpoint : Int := 0
  realEndpoint : Int := 0
  isFinished : Int := 0

/-- Structure `TimingData` of `host_device.h`. `frame` and `activeMode` are `uint`, the other
fields `uint64_t`; all are embedded as natural numbers. -/
structure TimingData where
  frame : Nat := 0
  frameTime : Nat := 0
  frameTimeThreads : Nat := 0
  full_time : Nat := 0
  full_time_threads : Nat := 0
  activeMode : Nat := 0
  noSortTime : Nat := 0
  noSortThreads : Nat := 0
  hitObjectTime : Nat := 0
  hitObjectThreads : Nat := 0
  originTime : Nat := 0
  originThreads : Nat := 0
  reisTime : Nat := 0
  reisThreads : Nat := 0
  costaTime : Nat := 0
  costaThreads : Nat := 0
  ailaTime : Nat := 0
  ailaThreads : Nat := 0
  twoPointTime : Nat := 0
  twoPointThreads : Nat := 0
  endPointEstTime : Nat := 0
  endPointEstThreads : Nat := 0
  endEstAdaptiveTime : Nat := 0
  endEstAdaptiveThreads : Nat := 0

/-- Enumerators of `DebugMode` in `host_device.h` that the user interface compares with or
stores: `eHeatmap = 12` and `eTracing = 16`. -/
def eHeatmap : Int := 12

/-- Enumerator `eTracing = 16` of `DebugMode`. -/
def eTracing : Int := 16

/-! ## `sample_example.hpp`: the controller -/

/-- Enumeration `SampleExample::RndMethod`. -/
inductive RndMethod where
  | eRtxPipeline
  | eRayQuery
  | eNone
  deriving DecidableEq, Repr

/-- Enumeration `SampleExample::CubeSide`. -/
inductive CubeSide where
  | CubeUp
  | CubeDown
  | CubeLeft
  | CubeRight
  | CubeFront
  | CubeBack
  deriving DecidableEq, Repr, Fintype

/-- Face of a `GridCube` that belongs to a cube side. -/
def GridCube.face (c : GridCube) : CubeSide → Int
  | .CubeUp => c.up
  | .CubeDown => c.down
  | .CubeLeft => c.left
  | .CubeRight => c.right
  | .CubeFront => c.front
  | .CubeBack => c.back

/-- Modelled from the spec: type `CubeSideStorage` (declared in `sorting_grid.hpp`, which is
not among the sources). Per sorting mode of one face it stores the smoothed timing estimate
and the sample count of the "CellState" of the data model. -/
structure CubeSideStorage where
  estimate : SortingMode → ℚ
  sampleCount : SortingMode → Nat

/-- Modelled from the spec: type `GridSpace` (declared in `sorting_grid.hpp`, which is not
among the sources): the "CellState" of one grid cell, with the statistics of its six faces
and the adaptive learning rate `adaptiveGridLearningRate` that the user interface displays. -/
structure GridSpace where
  sides : CubeSide → CubeSideStorage
  adaptiveGridLearningRate : ℚ

/-- Modelled from the spec: the members of `RtxPipeline` (`rtx_pipeline.hpp`, not among the
sources) that the user interface reads and writes. -/
structure RtxPipeline where
  m_SERParameters : SortingParameters
  useAsyncPipelineCreation : Bool
  sortingMode : Int
  deriving DecidableEq, Repr

/-- Constant `MAXGRIDSIZE`. -/
def MAXGRIDSIZE : Int := 10

/-- Member `DELAY_FRAMES` (initialised to 4). -/
def DELAY_FRAMES : Nat := 4

/-- Data members of `SampleExample` that take part in sorting-grid learning; the defaults
are the member initialisers. -/
structure SampleExample where
  m_show_gui : Bool := true
  m_rndMethod : RndMethod := .eNone
  m_maxFrames : Int := 100000
  m_descalingLevel : Int := 1
  latest_timeData : TimingData := {}
  useBestParameters : Bool := false
  currentLookDirection : CubeSide := .CubeUp
  bestKeys : List GridCube := List.replicate (10 * 10 * 10) ⟨0, 0, 0, 0, 0, 0⟩
  bestSortMode : Int := 0
  m_rtxState : RtxState := {}
  rtx : RtxPipeline := ⟨⟨32, false, false, true, false, false, false, false, false⟩, false, 1⟩
  activateParametertesting : Bool := false
  constantGridlearningSpeed : ℚ := 1 / 5
  useConstantGridLearning : Bool := true
  performAutomaticTraining : Bool := false
  grid_x : Int := 2
  grid_y : Int := 2
  grid_z : Int := 2
  currentGridSpace : IVec3 := ⟨0, 0, 0⟩
  sortingGrid : List (List (List GridSpace)) := []

/-! ## The sorting grid: construction -/

/-- Modelled from the spec: the error kinds `InvalidDimension` and `CorruptGridFile` of the
sorting grid (the code that raises them is not among the sources). -/
inductive GridError where
  | InvalidDimension
  | CorruptGridFile
  deriving DecidableEq, Repr

/-- Modelled from the spec: the part of the adaptive learning rule for which the
specification gives no formula: the rate of a fresh cell and the way the rate of a cell
decays with its sample count. -/
structure AdaptiveRule where
  initialRate : ℚ
  decay : ℚ → Nat → ℚ

/-- Modelled from the spec: a fresh cell, with no sample for any face and mode. -/
def GridSpace.fresh (rule : AdaptiveRule) : GridSpace where
  sides := fun _ => { estimate := fun _ => 0, sampleCount := fun _ => 0 }
  adaptiveGridLearningRate := rule.initialRate

/-- Modelled from the spec: a face has a best mode "once at least one full pass of all modes
has been measured at that face". -/
def GridSpace.faceMeasured (c : GridSpace) (side : CubeSide) : Bool :=
  SortingMode.all.all (fun m => decide (0 < (c.sides side).sampleCount m))

/-- Modelled from the spec: a cell is untrained as long as none of its faces has seen a full
pass of all modes. -/
def GridSpace.untrained (c : GridSpace) : Prop :=
  ∀ side : CubeSide, c.faceMeasured side = false

/-- Modelled from the spec: the dimension check of `build` and `load`, `1 ≤ dim ≤ MAXGRIDSIZE`
on each axis (the code that performs it is not among the sources). -/
def validDimensions (nx ny nz : Int) : Bool :=
  decide (1 ≤ nx) && decide (nx ≤ MAXGRIDSIZE) && decide (1 ≤ ny) && decide (ny ≤ MAXGRIDSIZE)
    && decide (1 ≤ nz) && decide (nz ≤ MAXGRIDSIZE)

/-- Modelled from the spec: `SampleExample::buildSortingGrid` (its body is in
`sample_example.cpp`, which is not among the sources). It "validates `1 ≤ dim ≤ MAXGRIDSIZE`
per axis; allocates `dims.x·dims.y·dims.z` fresh, untrained CellState entries; fails with
`InvalidDimension` if any axis is outside range". The dimensions are the members `grid_x`,
`grid_y`, `grid_z`; the cells go to `sortingGrid`, indexed `[z][y][x]` as the user interface
indexes `gridSpaces`. -/
def buildSortingGrid (rule : AdaptiveRule) (se : SampleExample) : Except GridError SampleExample :=
  if validDimensions se.grid_x se.grid_y se.grid_z then
    .ok { se with
      sortingGrid :=
        List.replicate se.grid_z.toNat
          (List.replicate se.grid_y.toNat
            (List.replicate se.grid_x.toNat (GridSpace.fresh rule))) }
  else
    .error .InvalidDimension

/-- All cells of `sortingGrid`, in storage order. -/
def SampleExample.cells (se : SampleExample) : List GridSpace :=
  se.sortingGrid.flatten.flatten

/-! ## The sorting grid: position lookup and cell centre -/

/-- Function `glm::clamp(x, lo, hi) = min(max(x, lo), hi)`. -/
def clamp (x lo hi : ℚ) : ℚ := min (max x lo) hi

/-- Modelled from the spec: the clamping step of `locate`, which "clamps `position` into
`[sceneMin, sceneMax]`"; the bounds are `m_rtxState.SceneMin` and `m_rtxState.SceneMax`. -/
def clampToScene (se : SampleExample) (p : Vec3) : Vec3 :=
  ⟨clamp p.x se.m_rtxState.SceneMin.x se.m_rtxState.SceneMax.x,
   clamp p.y se.m_rtxState.SceneMin.y se.m_rtxState.SceneMax.y,
   clamp p.z se.m_rtxState.SceneMin.z se.m_rtxState.SceneMax.z⟩

/-- Modelled from the spec: cell index along one axis, "by linear interpolation" of the
clamped coordinate between the bounds. The upper bound itself belongs to the last cell, so
that the lookup "never indexes out of bounds". -/
def axisIndex (n : Int) (lo hi p : ℚ) : Int :=
  min ⌊(clamp p lo hi - lo) / (hi - lo) * n⌋ (n - 1)

/-- Modelled from the spec: `locate(position) → cellIndex` of the spatial grid (the lookup
that fills `currentGridSpace`; its body is in `sample_example.cpp`, which is not among the
sources). -/
def locate (se : SampleExample) (p : Vec3) : IVec3 :=
  ⟨axisIndex se.grid_x se.m_rtxState.SceneMin.x se.m_rtxState.SceneMax.x p.x,
   axisIndex se.grid_y se.m_rtxState.SceneMin.y se.m_rtxState.SceneMax.y p.y,
   axisIndex se.grid_z se.m_rtxState.SceneMin.z se.m_rtxState.SceneMax.z p.z⟩

/-- Modelled from the spec: the centre along one axis of the cell with index `i` among `n`
equal cells of `[lo, hi]`, the axis part of `calculateGridSpaceCenter`. -/
def axisCenter (n : Int) (lo hi i : ℚ) : ℚ :=
  lo + (i + 1 / 2) * ((hi - lo) / n)

/-- Modelled from the spec: `SampleExample::calculateGridSpaceCenter` (its body is in
`sample_example.cpp`, which is not among the sources), which "maps a cell index to its center
point". As in the declaration, the index is passed as a `vec3`. -/
def calculateGridSpaceCenter (se : SampleExample) (gridSpace : Vec3) : Vec3 :=
  ⟨axisCenter se.grid_x se.m_rtxState.SceneMin.x se.m_rtxState.SceneMax.x gridSpace.x,
   axisCenter se.grid_y se.m_rtxState.SceneMin.y se.m_rtxState.SceneMax.y gridSpace.y,
   axisCenter se.grid_z se.m_rtxState.SceneMin.z se.m_rtxState.SceneMax.z gridSpace.z⟩

/-- Cell index as the `vec3` that `calculateGridSpaceCenter` takes. -/
def IVec3.toVec3 (c : IVec3) : Vec3 := ⟨c.x, c.y, c.z⟩

/-- Scenario of the specification: grid 2 x 2 x 2 with scene bounds `[(-1,-1,-1), (1,1,1)]`. -/
def octantController : SampleExample :=
  { m_rtxState := { SceneMin := ⟨-1, -1, -1⟩, SceneMax := ⟨1, 1, 1⟩ } }

/-! ## The sorting grid: statistics update and best-mode selection -/

/-- Modelled from the spec: the update rule on a matched timing sample `t` for (cell,
direction, mode) (its code is in `sample_example.cpp`, which is not among the sources): "if
`useConstantGridLearning`, `estimate ← estimate + constantGridLearningSpeed · (t − estimate)`;
otherwise the cell's adaptive rate is used and decayed toward a floor as `sampleCount` grows.
Sample count increments on every accepted sample." -/
def updateEstimate (rule : AdaptiveRule) (se : SampleExample) (c : GridSpace)
    (side : CubeSide) (mode : SortingMode) (t : ℚ) : GridSpace :=
  let st := c.sides side
  let speed :=
    if se.useConstantGridLearning then se.constantGridlearningSpeed
    else c.adaptiveGridLearningRate
  let count := st.sampleCount mode + 1
  { sides := Function.update c.sides side
      { estimate :=
          Function.update st.estimate mode (st.estimate mode + speed * (t - st.estimate mode))
        sampleCount := Function.update st.sampleCount mode count }
    adaptiveGridLearningRate :=
      if se.useConstantGridLearning then c.adaptiveGridLearningRate
      else rule.decay c.adaptiveGridLearningRate count }

/-- Modelled from the spec: a finite sequence of accepted timing samples for one (cell,
direction, mode), each applied by the update rule in order of arrival. -/
def updateEstimates (rule : AdaptiveRule) (se : SampleExample) (c : GridSpace)
    (side : CubeSide) (mode : SortingMode) (samples : List ℚ) : GridSpace :=
  samples.foldl (fun cell t => updateEstimate rule se cell side mode t) c

/-- Modelled from the spec: the selection on one face, "the mode with minimum smoothed
estimate for that face; ties broken by preferring the lower-numbered mode": a scan of the
modes in enumeration order that replaces the candidate only by a strictly smaller estimate. -/
def bestModeOfSide (st : CubeSideStorage) : SortingMode :=
  SortingMode.all.foldl (fun best m => if st.estimate m < st.estimate best then m else best)
    SortingMode.eNoSorting

/-- Modelled from the spec: `SampleExample::determineBestTimesCube` (its body is in
`sample_example.cpp`, which is not among the sources). A face with a full pass of all modes
gets the id of its best mode; a face without one "falls back to a global default mode",
`bestSortMode`. -/
def determineBestTimesCube (se : SampleExample) (currentGrid : GridSpace) : GridCube :=
  let pick := fun (side : CubeSide) =>
    if currentGrid.faceMeasured side then ((bestModeOfSide (currentGrid.sides side)).id : Int)
    else se.bestSortMode
  { up := pick .CubeUp, down := pick .CubeDown, front := pick .CubeFront,
    back := pick .CubeBack, left := pick .CubeLeft, right := pick .CubeRight }

/-- An adaptive rule that keeps the rate constant, for concrete evaluations. -/
def unitRule : AdaptiveRule := ⟨1, fun r _ => r⟩

/-- Controller of the scenarios with constant learning rate 1. -/
def scenarioController : SampleExample := { constantGridlearningSpeed := 1 }

/-- Scenario of the specification: with constant learning rate 1, the face `CubeUp` of a
fresh cell receives the timings 5, 5, 5 for mode B = `eHitObject` and the timings 10, 10, 10
for mode A, which stands for each of the other modes, so that the face has a full pass. -/
def scenarioCell : GridSpace :=
  SortingMode.all.foldl
    (fun c m => updateEstimates unitRule scenarioController c .CubeUp m
      (if m = .eHitObject then [5, 5, 5] else [10, 10, 10]))
    (GridSpace.fresh unitRule)

/-! ## Persistence of the learned grid -/

/-- Modelled from the spec: the values of the "structured document (JSON in the reference
system)" that the grid file uses (`json.hpp` is not among the sources): integers, numbers,
arrays and objects with named fields. -/
inductive Json where
  | int (n : Int)
  | num (q : ℚ)
  | arr (items : List Json)
  | obj (fields : List (String × Json))

/-- Modelled from the spec: field of an object of the grid document; the first field of that
name counts. -/
def Json.field : Json → String → Option Json
  | .obj fields, key => fields.lookup key
  | _, _ => none

/-- Modelled from the spec: integer value of a field of the grid document. -/
def Json.asInt : Json → Option Int
  | .int n => some n
  | _ => none

/-- Modelled from the spec: array value of a field of the grid document. -/
def Json.asArr : Json → Option (List Json)
  | .arr items => some items
  | _ => none

/-- Modelled from the spec: document form of a `GridCube`, "the best-mode-per-face summary"
of a cell: its six fields by name. -/
def cubeToJson (c : GridCube) : Json :=
  .obj [("up", .int c.up), ("down", .int c.down), ("front", .int c.front),
        ("back", .int c.back), ("left", .int c.left), ("right", .int c.right)]

/-- Modelled from the spec: reading a `GridCube` from the grid document; a missing field or a
field of the wrong type gives `none`. -/
def cubeOfJson (j : Json) : Option GridCube := do
  let up ← (← j.field "up").asInt
  let down ← (← j.field "down").asInt
  let front ← (← j.field "front").asInt
  let back ← (← j.field "back").asInt
  let left ← (← j.field "left").asInt
  let right ← (← j.field "right").asInt
  pure ⟨up, down, front, back, left, right⟩

/-- Modelled from the spec: document form of a scene bound, a `vec3`. -/
def vecToJson (v : Vec3) : Json := .arr [.num v.x, .num v.y, .num v.z]

/-- Modelled from the spec: reading a scene bound from the grid document. -/
def vecOfJson : Json → Option Vec3
  | .arr [.num x, .num y, .num z] => some ⟨x, y, z⟩
  | _ => none

/-- Modelled from the spec: number of cells of the grid, `grid_x * grid_y * grid_z`. -/
def SampleExample.cellCount (se : SampleExample) : Nat :=
  (se.grid_x * se.grid_y * se.grid_z).toNat

/-- Modelled from the spec: the `GridCube` of each cell, taken to be the leading
`grid_x * grid_y * grid_z` entries of the array `bestKeys` (the code that indexes `bestKeys` is
not among the sources). -/
def SampleExample.cellCubes (se : SampleExample) : List GridCube :=
  se.bestKeys.take se.cellCount

/-- Modelled from the spec: `SampleExample::fillJsonWithBestResult` (its body is in
`sample_example.cpp`, which is not among the sources). It adds to the document `j` the "grid
dimensions, scene bounds, and, per cell, the best-mode-per-face summary". -/
def fillJsonWithBestResult (se : SampleExample) (j : Json) : Json :=
  let old := match j with
    | .obj fields => fields
    | _ => []
  .obj ([("grid_x", .int se.grid_x), ("grid_y", .int se.grid_y), ("grid_z", .int se.grid_z),
         ("sceneMin", vecToJson se.m_rtxState.SceneMin),
         ("sceneMax", vecToJson se.m_rtxState.SceneMax),
         ("bestKeys", .arr (se.cellCubes.map cubeToJson))] ++ old)

/-- Modelled from the spec: `SampleExample::SaveSortingGrid` (its body is in
`sample_example.cpp`, which is not among the sources), `save(grid) → document`; the result is
the document that the function writes to the file. -/
def SaveSortingGrid (se : SampleExample) : Json :=
  fillJsonWithBestResult se (.obj [])

/-- Modelled from the spec: contents of a grid document, if it has the expected structure
("wrong field types" and "missing cells" give `none`). -/
def parseGridDocument (doc : Json) : Option (Int × Int × Int × Vec3 × Vec3 × List GridCube) := do
  let nx ← (← doc.field "grid_x").asInt
  let ny ← (← doc.field "grid_y").asInt
  let nz ← (← doc.field "grid_z").asInt
  let sceneMin ← vecOfJson (← doc.field "sceneMin")
  let sceneMax ← vecOfJson (← doc.field "sceneMax")
  let cubes ← (← (← doc.field "bestKeys").asArr).mapM cubeOfJson
  pure (nx, ny, nz, sceneMin, sceneMax, cubes)

/-- Modelled from the spec: `SampleExample::loadSortingGrid` (its body is in
`sample_example.cpp`, which is not among the sources), `load(document) → grid`, applied to the
document read from the file. It "validates dimensions match `[1, MAXGRIDSIZE]` per axis; on any
structural mismatch (wrong field types, missing cells, dimension mismatch against current
scene bounds) fails with `CorruptGridFile`"; otherwise it overwrites the dimensions and the
`GridCube` summary of the controller. -/
def loadSortingGrid (se : SampleExample) (doc : Json) : Except GridError SampleExample :=
  match parseGridDocument doc with
  | some (nx, ny, nz, sceneMin, sceneMax, cubes) =>
    if validDimensions nx ny nz
        && decide (sceneMin = se.m_rtxState.SceneMin)
        && decide (sceneMax = se.m_rtxState.SceneMax)
        && decide (cubes.length = (nx * ny * nz).toNat) then
      .ok { se with grid_x := nx, grid_y := ny, grid_z := nz,
                    bestKeys := cubes ++ se.bestKeys.drop cubes.length }
    else
      .error .CorruptGridFile
  | none => .error .CorruptGridFile

/-- A partially trained 2 x 2 x 2 controller for concrete evaluations: two cells have learned
best modes, the others still hold zeros. -/
def partiallyTrained : SampleExample :=
  { bestKeys := ⟨1, 2, 3, 4, 5, 6⟩ :: ⟨0, 0, 3, 0, 0, 9⟩ :: List.replicate 998 ⟨0, 0, 0, 0, 0, 0⟩ }

/-! ## Delayed attribution of timing records -/

/-- Modelled from the spec: the (cell, direction, mode) tuple that the training controller
selects for a frame. -/
structure TrainingTuple where
  cell : IVec3
  direction : CubeSide
  mode : SortingMode
  deriving DecidableEq, Repr

/-- Modelled from the spec: an entry of the delayed-timing ring buffer, the tuple together
with the frame in which it was selected. -/
structure PendingEntry where
  frame : Nat
  tuple : TrainingTuple
  deriving DecidableEq, Repr

/-- Modelled from the spec: the delayed-timing ring buffer of the training session,
"`DELAY_FRAMES` deep", with the frame counter that indexes it. -/
structure DelayRing where
  frame : Nat
  slots : List (Option PendingEntry)
  deriving DecidableEq, Repr

/-- Modelled from the spec: the ring buffer at the start of training, frame 0 and every slot
empty. -/
def DelayRing.empty : DelayRing := ⟨0, List.replicate DELAY_FRAMES none⟩

/-- Modelled from the spec: a timing sample together with the entry it is attributed to. -/
structure Attribution where
  entry : PendingEntry
  sample : ℚ
  deriving DecidableEq, Repr

/-- Modelled from the spec: one frame of measurement attribution (its code is in
`sample_example.cpp`, which is not among the sources). The ring index "wraps modulo
`DELAY_FRAMES`"; the incoming timing record "is matched against the oldest pending entry",
the one in the slot of this frame, after which the slot takes the tuple selected in this
frame. While the slot is still empty the record is dropped. -/
def DelayRing.step (r : DelayRing) (selected : TrainingTuple) (sample : ℚ) :
    DelayRing × Option Attribution :=
  let slot := r.frame % DELAY_FRAMES
  let oldest := (r.slots[slot]?).getD none
  ({ frame := r.frame + 1, slots := r.slots.set slot (some ⟨r.frame, selected⟩) },
   oldest.map (fun e => ⟨e, sample⟩))

/-- Modelled from the spec: the ring buffer at the beginning of frame `f`, for a sequence of
frames that gives the tuple selected and the timing sample arriving in each frame. -/
def ringAt (frames : Nat → TrainingTuple × ℚ) : Nat → DelayRing
  | 0 => DelayRing.empty
  | f + 1 => ((ringAt frames f).step (frames f).1 (frames f).2).1

/-- Modelled from the spec: attribution of the timing record that arrives on frame `f`. -/
def attributionAt (frames : Nat → TrainingTuple × ℚ) (f : Nat) : Option Attribution :=
  ((ringAt frames f).step (frames f).1 (frames f).2).2

/-- A sequence of frames for concrete evaluations: frame `n` selects the cell `(n, 0, 0)` and
receives the sample `n`. -/
def sweepFrames (n : Nat) : TrainingTuple × ℚ :=
  (⟨⟨n, 0, 0⟩, .CubeUp, .eNoSorting⟩, n)

/-! ## `sample_gui.hpp`: the user-interface state -/

/-- Modelled from the spec: the part of `nvh::Profiler::TimerInfo` (`nvh/profiler.hpp`, which
is not among the sources) that the profiler panel reads, the GPU and CPU averages. -/
structure TimerInfo where
  gpuAverage : ℚ := 0
  cpuAverage : ℚ := 0
  deriving DecidableEq, Repr

/-- Data members of `SampleGUI`; the defaults are the member initialisers. `bAnyHit` and
`bProfiling` are the function-static variables of `guiRayTracing`. -/
structure SampleGUI where
  bAnyHit : Bool := true
  bProfiling : Bool := false
  stored_timers : List TimerInfo := List.replicate 5 {}
  VisualizeSortingGrid : Bool := false
  gridX : Int := 2
  gridY : Int := 2
  gridZ : Int := 2
  stored_frames : List Int := [0, 0, 0, 0]
  m_pMode : Int := 1
  histogramFlags : Int := 0
  inferSortingKey : Bool := false
  showHistogram : Bool := false
  manualSorting : Int := 1
  constantGridlearningSpeed : ℚ := 1 / 5
  deriving DecidableEq, Repr

/-! ## `sample_gui.cpp`: the manual sorting-mode selection -/

/-- Item list handed to `GuiH::Selection("Sorting Mode", ...)` in `SampleGUI::guiRayTracing`,
in source order. -/
def sortingModeItems : List String :=
  ["No Sorting",
   "HitObject",
   "Sort by Origin",
   "Sort by Origin&Direction",
   "Sort by Origin&Direction reversed",
   "Sort by Origin&Direction interleaved",
   "Twopoint sorting",
   "Endpoint Estimation",
   "Adaptive Endpoint Estimation",
   "Infer Sorting Key"]

/-- Effect of `GuiH::Selection` on `*rtx->getSortingMode()`: choosing the entry at position
`i` of the item list stores the integer `i`, which is read back as a `SortingMode`; a
position outside the list selects nothing. -/
def selectSortingMode (i : Nat) : Option SortingMode :=
  if i < sortingModeItems.length then SortingMode.ofId i else none

/-! ## `sample_gui.cpp`: the sorting-grid panel and the frame -/

/-- Controller and pipeline methods that the user interface invokes; their bodies are not
among the sources. -/
inductive Call where
  | buildSortingGrid
  | beginSortingGridTraining
  | SaveSortingGrid
  | createSortingParameters
  | reloadRender
  | resetFrame
  | setRenderRegion
  | doCycle
  | vkDeviceWaitIdle
  | activateAsyncPipelineCreation
  | setNewPipeline
  | useAnyHit
  | enableProfiling
  deriving DecidableEq, Repr

/-- Effect on the controller of each method that the user interface invokes. The bodies are
in `sample_example.cpp` and `rtx_pipeline.cpp`, which are not among the sources, so the
effects are parameters of the model. -/
structure Externals where
  buildSortingGrid : SampleExample → SampleExample
  beginSortingGridTraining : SampleExample → SampleExample
  SaveSortingGrid : SampleExample → SampleExample
  createSortingParameters : SampleExample → SortingParameters × SampleExample
  reloadRender : SampleExample → SampleExample
  resetFrame : SampleExample → SampleExample
  setRenderRegion : SampleExample → SampleExample
  doCycle : SampleExample → SampleExample
  vkDeviceWaitIdle : SampleExample → SampleExample
  activateAsyncPipelineCreation : SampleExample → SampleExample
  setNewPipeline : SampleExample → SampleExample
  useAnyHit : Bool → SampleExample → SampleExample
  enableProfiling : Bool → SampleExample → SampleExample

/-- State of one frame of the user interface: the controller `_se`, the members of
`SampleGUI`, and the record of the methods invoked so far, oldest first. -/
structure World where
  se : SampleExample
  gui : SampleGUI
  calls : List Call

/-- Invocation of a controller method: its effect is applied and the call is recorded. -/
def World.invoke (w : World) (c : Call) (effect : SampleExample → SampleExample) : World :=
  { w with se := effect w.se, calls := w.calls ++ [c] }

/-- What the widgets of the "SortingGrid Learning" panel report in one frame. A slider reports
`some v` when it changed its variable to `v`; a checkbox reports `true` when it was toggled;
a button reports `true` when it was pressed. A widget that the code does not reach in a frame
is not consulted. -/
structure SortingGridInput where
  sliderGridX : Option Int := none
  sliderGridY : Option Int := none
  sliderGridZ : Option Int := none
  checkboxUseConstant : Bool := false
  sliderLearningSpeed : Option ℚ := none
  checkboxAsync : Bool := false
  buttonSave : Bool := false
  buttonNewAsyncPipeline : Bool := false
  checkboxVisualize : Bool := false
  sliderDisplayCubeSize : Option ℚ := none
  buttonRandomize : Bool := false
  checkboxTraining : Bool := false
  checkboxInference : Bool := false
  checkboxUseBest : Bool := false

/-- The three grid sliders, joined by `||`: a slider is evaluated only if the ones before it
reported no change. Returns the panel state and whether a slider reported a change. -/
def gridSliders (inp : SortingGridInput) (gui : SampleGUI) : SampleGUI × Bool :=
  match inp.sliderGridX with
  | some v => ({ gui with gridX := v }, true)
  | none =>
    match inp.sliderGridY with
    | some v => ({ gui with gridY := v }, true)
    | none =>
      match inp.sliderGridZ with
      | some v => ({ gui with gridZ := v }, true)
      | none => (gui, false)

/-- First statement of `guiSortingGrid`: the grid sliders and the rebuild of the grid. -/
def gridDimensionControls (ext : Externals) (inp : SortingGridInput) (w : World) : World × Bool :=
  let (gui, moved) := gridSliders inp w.gui
  let w := { w with gui := gui }
  if moved then
    if !w.se.performAutomaticTraining then
      let w := { w with se := { w.se with grid_x := w.gui.gridX, grid_y := w.gui.gridY,
                                          grid_z := w.gui.gridZ } }
      (w.invoke .buildSortingGrid ext.buildSortingGrid, true)
    else
      ({ w with gui := { w.gui with gridX := w.se.grid_x, gridY := w.se.grid_y,
                                    gridZ := w.se.grid_z } }, false)
  else
    (w, false)

/-- Checkbox "Use Constant Grid Learning Speed" and slider "Constant Learning Speed". -/
def learningControls (inp : SortingGridInput) (w : World) : World :=
  let se := if inp.checkboxUseConstant then
      { w.se with useConstantGridLearning := !w.se.useConstantGridLearning }
    else w.se
  let se := if se.useConstantGridLearning then
      match inp.sliderLearningSpeed with
      | some v => { se with constantGridlearningSpeed := v }
      | none => se
    else se
  { w with se := se }

/-- Checkbox "Activate Async Pipeline Creation" and the buttons "save SortingGrid to File" and
"NewAsyncPipeline". -/
def pipelineControls (ext : Externals) (inp : SortingGridInput) (w : World) : World :=
  let w := if inp.checkboxAsync then
      let w := { w with se := { w.se with rtx := { w.se.rtx with
        useAsyncPipelineCreation := !w.se.rtx.useAsyncPipelineCreation } } }
      if w.se.rtx.useAsyncPipelineCreation then
        w.invoke .activateAsyncPipelineCreation ext.activateAsyncPipelineCreation
      else w
    else w
  let w := if inp.buttonSave then w.invoke .SaveSortingGrid ext.SaveSortingGrid else w
  if inp.buttonNewAsyncPipeline then
    (w.invoke .vkDeviceWaitIdle ext.vkDeviceWaitIdle).invoke .setNewPipeline ext.setNewPipeline
  else w

/-- Checkbox "Visualize Sorting method" and slider "size of display cubes". -/
def visualizeControls (inp : SortingGridInput) (w : World) : World × Bool :=
  let (w, changed) := if inp.checkboxVisualize then
      let gui := { w.gui with VisualizeSortingGrid := !w.gui.VisualizeSortingGrid }
      let viz : Int := if gui.VisualizeSortingGrid then 1 else 0
      ({ w with gui := gui,
                se := { w.se with m_rtxState := { w.se.m_rtxState with
                  VisualizeSortingGrid := viz } } }, true)
    else (w, false)
  if w.gui.VisualizeSortingGrid then
    match inp.sliderDisplayCubeSize with
    | some v =>
      ({ w with se := { w.se with m_rtxState := { w.se.m_rtxState with
          DisplayCubeSize := v } } }, true)
    | none => (w, changed)
  else (w, changed)

/-- Button "randomize Parameters". -/
def randomizeButton (ext : Externals) (inp : SortingGridInput) (w : World) : World :=
  if inp.buttonRandomize then
    let (params, se) := ext.createSortingParameters w.se
    let w := { w with se := { se with rtx := { se.rtx with m_SERParameters := params } },
                      calls := w.calls ++ [Call.createSortingParameters] }
    w.invoke .reloadRender ext.reloadRender
  else w

/-- Checkbox "perform automatic training" with its handler. -/
def trainingCheckbox (ext : Externals) (inp : SortingGridInput) (w : World) : World :=
  if inp.checkboxTraining then
    let w := { w with se := { w.se with
      performAutomaticTraining := !w.se.performAutomaticTraining } }
    if w.se.performAutomaticTraining then
      w.invoke .beginSortingGridTraining ext.beginSortingGridTraining
    else w
  else w

/-- Checkbox "activate Inference", shown only while training is off. -/
def inferenceCheckbox (inp : SortingGridInput) (w : World) : World :=
  if !w.se.performAutomaticTraining then
    if inp.checkboxInference then
      { w with se := { w.se with activateParametertesting := !w.se.activateParametertesting } }
    else w
  else w

/-- Checkbox "always use best Parameters found", shown only while neither inference nor
training is on. -/
def bestParametersCheckbox (inp : SortingGridInput) (w : World) : World :=
  if !(w.se.activateParametertesting || w.se.performAutomaticTraining) then
    if inp.checkboxUseBest then
      { w with se := { w.se with useBestParameters := !w.se.useBestParameters } }
    else w
  else w

/-- Function `SampleGUI::guiSortingGrid`: the statements in source order; the result is the
`changed` flag. -/
def guiSortingGrid (ext : Externals) (inp : SortingGridInput) (w : World) : World × Bool :=
  let (w, changed₁) := gridDimensionControls ext inp w
  let w := learningControls inp w
  let w := pipelineControls ext inp w
  let (w, changed₂) := visualizeControls inp w
  let w := randomizeButton ext inp w
  let w := trainingCheckbox ext inp w
  let w := inferenceCheckbox inp w
  let w := bestParametersCheckbox inp w
  (w, changed₁ || changed₂)

/-- A panel other than "SortingGrid Learning" (`guiCamera`, `guiRayTracing`, `guiTonemapper`,
`guiEnvironment`, `guiStatistics`, `guiProfiler`, `guiGpuMeasures`): it acts on the controller
and on the members of `SampleGUI` and returns its `changed` flag. None of them contains a
call of `doCycle`. -/
abbrev Panel := SampleExample → SampleGUI → SampleExample × SampleGUI × Bool

/-- The panels of `SampleGUI::render` other than the sorting-grid panel, as parameters. -/
structure Panels where
  guiCamera : Panel
  guiRayTracing : Panel
  guiTonemapper : Panel
  guiEnvironment : Panel
  guiStatistics : Panel
  guiProfiler : Panel
  guiGpuMeasures : Panel

/-- What the frame of `SampleGUI::render` receives from ImGui: which collapsing headers and
groups are open, and the widget reports of the sorting-grid panel. -/
structure FrameInput where
  headerCamera : Bool := false
  headerRayTracing : Bool := false
  headerSortingGrid : Bool := false
  headerTonemapper : Bool := false
  headerEnvironment : Bool := false
  headerStats : Bool := false
  groupSceneInfo : Bool := false
  groupProfiler : Bool := false
  groupPlot : Bool := false
  sortingGrid : SortingGridInput := {}

/-- Run a panel on the frame state. -/
def World.runPanel (w : World) (p : Panel) : World × Bool :=
  let (se, gui, changed) := p w.se w.gui
  ({ w with se := se, gui := gui }, changed)

/-- A panel under a collapsing header: `changed |= panel()` if the header is open. -/
def underHeader (isOpen : Bool) (run : World → World × Bool) (acc : World × Bool) : World × Bool :=
  if isOpen then
    let (w, changed) := run acc.1
    (w, acc.2 || changed)
  else acc

/-- A panel inside a `Gui::Group` of the "Stats" header: its result is discarded. -/
def inGroup (isOpen : Bool) (p : Panel) (w : World) : World :=
  if isOpen then (w.runPanel p).1 else w

/-- Function `SampleGUI::render` up to its last statement: the side panel, if shown, and the
choice of the render region. This is the GUI handling of the frame. -/
def renderGui (ext : Externals) (panels : Panels) (inp : FrameInput) (w : World) : World :=
  let w :=
    if w.se.m_show_gui then
      let acc : World × Bool := (w, false)
      let acc := underHeader inp.headerCamera (fun w => w.runPanel panels.guiCamera) acc
      let acc := underHeader inp.headerRayTracing (fun w => w.runPanel panels.guiRayTracing) acc
      let acc := underHeader inp.headerSortingGrid (guiSortingGrid ext inp.sortingGrid) acc
      let acc := underHeader inp.headerTonemapper (fun w => w.runPanel panels.guiTonemapper) acc
      let acc := underHeader inp.headerEnvironment (fun w => w.runPanel panels.guiEnvironment) acc
      let w := acc.1
      let w :=
        if inp.headerStats then
          let w := inGroup inp.groupSceneInfo panels.guiStatistics w
          let w := inGroup inp.groupProfiler panels.guiProfiler w
          inGroup inp.groupPlot panels.guiGpuMeasures w
        else w
      if acc.2 then w.invoke .resetFrame ext.resetFrame else w
    else w
  w.invoke .setRenderRegion ext.setRenderRegion

/-- Function `SampleGUI::render`: the GUI handling, then `doCycle` if inference or automatic
training is active. -/
def render (ext : Externals) (panels : Panels) (inp : FrameInput) (w : World) : World :=
  let w := renderGui ext panels inp w
  if w.se.activateParametertesting || w.se.performAutomaticTraining then
    w.invoke .doCycle ext.doCycle
  else w

/-! ## Frames of the sorting-grid panel: assumptions and reachable states -/

/-- The invoked methods leave a quantity `f` of the controller as it is. It is the assumption
under which a statement about the assignments of the user interface extends to a whole
frame, the bodies of the methods being absent. -/
def Externals.Preserves {α : Type} (ext : Externals) (f : SampleExample → α) : Prop :=
  (∀ se, f (ext.buildSortingGrid se) = f se)
  ∧ (∀ se, f (ext.beginSortingGridTraining se) = f se)
  ∧ (∀ se, f (ext.SaveSortingGrid se) = f se)
  ∧ (∀ se, f (ext.createSortingParameters se).2 = f se)
  ∧ (∀ se, f (ext.reloadRender se) = f se)
  ∧ (∀ se, f (ext.resetFrame se) = f se)
  ∧ (∀ se, f (ext.setRenderRegion se) = f se)
  ∧ (∀ se, f (ext.doCycle se) = f se)
  ∧ (∀ se, f (ext.vkDeviceWaitIdle se) = f se)
  ∧ (∀ se, f (ext.activateAsyncPipelineCreation se) = f se)
  ∧ (∀ se, f (ext.setNewPipeline se) = f se)
  ∧ (∀ b se, f (ext.useAnyHit b se) = f se)
  ∧ (∀ b se, f (ext.enableProfiling b se) = f se)

/-- Methods without effect on the modelled members, for concrete evaluations;
`createSortingParameters` returns the current parameters. -/
def Externals.inert : Externals where
  buildSortingGrid := id
  beginSortingGridTraining := id
  SaveSortingGrid := id
  createSortingParameters := fun se => (se.rtx.m_SERParameters, se)
  reloadRender := id
  resetFrame := id
  setRenderRegion := id
  doCycle := id
  vkDeviceWaitIdle := id
  activateAsyncPipelineCreation := id
  setNewPipeline := id
  useAnyHit := fun _ => id
  enableProfiling := fun _ => id

/-- Initial state of the user interface: every member has its initialiser, except that the
ray-tracing pipeline has been created (`m_rndMethod = eRtxPipeline`), which the panels
require; no method has been invoked. -/
def World.initial : World :=
  { se := { m_rndMethod := .eRtxPipeline }, gui := {}, calls := [] }

/-- The grid dimensions of the controller. -/
def SampleExample.dimensions (se : SampleExample) : Int × Int × Int :=
  (se.grid_x, se.grid_y, se.grid_z)

/-- The grid dimensions shown by the user interface. -/
def SampleGUI.dimensions (gui : SampleGUI) : Int × Int × Int :=
  (gui.gridX, gui.gridY, gui.gridZ)

/-- The three mode flags `performAutomaticTraining`, `activateParametertesting` and
`useBestParameters`. -/
def SampleExample.flags (se : SampleExample) : Bool × Bool × Bool :=
  (se.performAutomaticTraining, se.activateParametertesting, se.useBestParameters)

/-- Number of mode flags that are set. -/
def SampleExample.activeModes (se : SampleExample) : Nat :=
  se.performAutomaticTraining.toNat + se.activateParametertesting.toNat
    + se.useBestParameters.toNat

/-- Number of mode flags that are clear in `before` and set in `after`. -/
def switchedOn (before after : SampleExample) : Nat :=
  (!before.performAutomaticTraining && after.performAutomaticTraining).toNat
    + (!before.activateParametertesting && after.activateParametertesting).toNat
    + (!before.useBestParameters && after.useBestParameters).toNat

/-- Each slider of the sorting-grid panel that reports a change reports a value inside the
range it was given: `1..10` for "Grid X" and "Grid Y", `1..MAXGRIDSIZE` for "Grid Z",
`0.01f..1.0f` for "Constant Learning Speed", `0.1..2.0` for "size of display cubes". The
lower limit `0.01f` is the single-precision number `5368709 / 2 ^ 29`, slightly below
`1 / 100`. -/
def SortingGridInput.slidersInRange (inp : SortingGridInput) : Prop :=
  (∀ v, inp.sliderGridX = some v → 1 ≤ v ∧ v ≤ 10)
  ∧ (∀ v, inp.sliderGridY = some v → 1 ≤ v ∧ v ≤ 10)
  ∧ (∀ v, inp.sliderGridZ = some v → 1 ≤ v ∧ v ≤ MAXGRIDSIZE)
  ∧ (∀ v, inp.sliderLearningSpeed = some v → 5368709 / 536870912 ≤ v ∧ v ≤ 1)
  ∧ (∀ v, inp.sliderDisplayCubeSize = some v → 1 / 10 ≤ v ∧ v ≤ 2)

/-- The dimension triple that the first statement of `guiSortingGrid` stores in `grid_x`,
`grid_y`, `grid_z` and passes on to `buildSortingGrid` in this frame, if it does so: the
dimensions shown after the sliders, provided a slider moved and training is off. -/
def storedDimensions (inp : SortingGridInput) (w : World) : Option (Int × Int × Int) :=
  if (gridSliders inp w.gui).2 && !w.se.performAutomaticTraining then
    some (gridSliders inp w.gui).1.dimensions
  else
    none

/-- The statements of `guiSortingGrid` that precede the checkbox "perform automatic
training". -/
def panelBeforeTraining (ext : Externals) (inp : SortingGridInput) (w : World) : World :=
  randomizeButton ext inp
    (visualizeControls inp
      (pipelineControls ext inp (learningControls inp (gridDimensionControls ext inp w).1))).1

/-- States of the user interface that are reachable from the initial state through calls of
`guiSortingGrid` in which the sliders stay inside their ranges. -/
inductive Reachable (ext : Externals) : World → Prop where
  | initial : Reachable ext World.initial
  | frame (w : World) (inp : SortingGridInput) :
      Reachable ext w → inp.slidersInRange → Reachable ext (guiSortingGrid ext inp w).1

/-- Input of a frame in which only the slider "Grid X" moves, to 5. -/
def gridXMoved : SortingGridInput := { sliderGridX := some 5 }

/-- The initial state with automatic training switched on. -/
def trainingWorld : World :=
  { World.initial with se := { World.initial.se with performAutomaticTraining := true } }

/-! ## `sample_gui.cpp`: the profiler panel -/

/-- An average as `guiProfiler` computes it: `time / glm::max(threads, one)` with `one = 1`,
on unsigned 64-bit values, where neither the maximum nor the quotient can overflow. -/
def average (time threads : Nat) : Nat := time / max threads 1

/-- The eleven averages that `guiProfiler` prints from `latest_timeData`, in source order:
"gpu time", "frame time" and the times of the nine measured modes. -/
def profilerAverages (d : TimingData) : List Nat :=
  [average d.full_time d.full_time_threads,
   average d.frameTime d.frameTimeThreads,
   average d.noSortTime d.noSortThreads,
   average d.hitObjectTime d.hitObjectThreads,
   average d.originTime d.originThreads,
   average d.reisTime d.reisThreads,
   average d.costaTime d.costaThreads,
   average d.ailaTime d.ailaThreads,
   average d.twoPointTime d.twoPointThreads,
   average d.endPointEstTime d.endPointEstThreads,
   average d.endEstAdaptiveTime d.endEstAdaptiveThreads]

/-- Slot that `guiProfiler` writes, `current_index = frame % 5`; `%` on `int` truncates. -/
def profilerWriteIndex (frame : Int) : Int := frame.tmod 5

/-- Slot that `guiProfiler` reads for the line "Frame", `(frame - 4) % 5`. -/
def profilerReadIndex (frame : Int) : Int := (frame - 4).tmod 5

/-- Store into a C array: defined only for an index inside the array. -/
def arrayStore {α : Type} (xs : List α) (i : Int) (v : α) : Option (List α) :=
  if 0 ≤ i ∧ i < xs.length then some (xs.set i.toNat v) else none

/-- Load from a C array: defined only for an index inside the array. -/
def arrayLoad {α : Type} (xs : List α) (i : Int) : Option α :=
  if 0 ≤ i then xs[i.toNat]? else none

/-- What `guiProfiler` prints from the controller and from its frame history. -/
structure ProfilerDisplay where
  averages : List Nat
  frame : Int
  frameGpu : Nat

/-- Function `SampleGUI::guiProfiler`, for the timer record `info` that the profiler returns
for "Render": the frame and the record are stored in slot `frame % 5`, the averages of
`latest_timeData` and the frame found in slot `(frame - 4) % 5` are printed. The result is
`none` when an index lies outside its array. The running means of the timer values
(`collect`, `display`) only feed the printed text and are left out; the function returns
`false`. -/
def guiProfiler (info : TimerInfo) (se : SampleExample) (gui : SampleGUI) :
    Option (SampleGUI × ProfilerDisplay) := do
  let current_index := profilerWriteIndex se.m_rtxState.frame
  let frames ← arrayStore gui.stored_frames current_index se.m_rtxState.frame
  let timers ← arrayStore gui.stored_timers current_index info
  let shown ← arrayLoad frames (profilerReadIndex se.m_rtxState.frame)
  pure ({ gui with stored_frames := frames, stored_timers := timers },
        { averages := profilerAverages se.latest_timeData
          frame := max shown 0
          frameGpu := se.latest_timeData.frame })

/-- Controller on frame 5 with two recorded timings, for concrete evaluations: 900 time units
with a thread count of 0, and 1000 time units on 32 threads. -/
def profiledController : SampleExample :=
  { m_rtxState := { frame := 5 }
    latest_timeData :=
      { full_time := 900, full_time_threads := 0, frameTime := 1000, frameTimeThreads := 32 } }

/-- Input of a frame in which only the checkbox "perform automatic training" is toggled. -/
def trainingToggled : SortingGridInput := { checkboxTraining := true }

/-- Input of a frame in which only the checkbox "activate Inference" is toggled. -/
def inferenceToggled : SortingGridInput := { checkboxInference := true }

/-- Input of a frame in which only the checkbox "always use best Parameters found" is
toggled. -/
def bestToggled : SortingGridInput := { checkboxUseBest := true }

/-- State after two frames from the initial state: first "always use best Parameters found"
is ticked, then "activate Inference". -/
def twoModes : World :=
  (guiSortingGrid Externals.inert inferenceToggled
    (guiSortingGrid Externals.inert bestToggled World.initial).1).1

/-- Input of a frame in which only the slider "Constant Learning Speed" moves, to its
maximum 1.0. -/
def speedToMaximum : SortingGridInput := { sliderLearningSpeed := some 1 }

/-! ## `sample_gui.cpp`: the ray-tracing panel -/

/-- What the widgets of the "Ray Tracing" panel report in one frame. A slider, drag or
selection reports `some v` when it changed its variable to `v`; a checkbox reports `true`
when it was toggled; a button or the radio button "Manual" reports `true` when it was
pressed; a group of radio buttons reports `some v` when the button with value `v` was
pressed; a `Gui::Group` reports whether it is open. -/
structure RayTracingInput where
  sliderMaxDepth : Option Int := none
  sliderMaxSamples : Option Int := none
  sliderMaxFrames : Option Int := none
  sliderDescaling : Option Int := none
  selectionPbrMode : Option Int := none
  checkboxAnyHit : Bool := false
  checkboxProfiling : Bool := false
  radioManual : Bool := false
  selectionSortingMode : Option Int := none
  sliderCoherenceBits : Option Nat := none
  groupProfiling : Bool := false
  radioProfilingMode : Option Int := none
  checkboxShowHistogram : Bool := false
  radioHistogramFlags : Option Int := none
  groupDebugging : Bool := false
  selectionDebugMode : Option Int := none
  dragMinHeatmap : Option Int := none
  dragMaxHeatmap : Option Int := none
  buttonReloadShaders : Bool := false

/-- The sliders "Max Ray Depth", "Samples Per Frame", "Max Iteration", "De-scaling" and the
selection "Pbr Mode", each joined to `changed` by `|=`. -/
def rayTracingSliders (inp : RayTracingInput) (w : World) : World × Bool :=
  let rtx := w.se.m_rtxState
  let rtx := match inp.sliderMaxDepth with
    | some v => { rtx with maxDepth := v }
    | none => rtx
  let rtx := match inp.sliderMaxSamples with
    | some v => { rtx with maxSamples := v }
    | none => rtx
  let se := { w.se with m_rtxState := rtx }
  let se := match inp.sliderMaxFrames with
    | some v => { se with m_maxFrames := v }
    | none => se
  let se := match inp.sliderDescaling with
    | some v => { se with m_descalingLevel := v }
    | none => se
  let se := match inp.selectionPbrMode with
    | some v => { se with m_rtxState := { se.m_rtxState with pbrMode := v } }
    | none => se
  ({ w with se := se },
   inp.sliderMaxDepth.isSome || inp.sliderMaxSamples.isSome || inp.sliderMaxFrames.isSome
     || inp.sliderDescaling.isSome || inp.selectionPbrMode.isSome)

/-- Checkbox "Enable AnyHit". -/
def anyHitCheckbox (ext : Externals) (inp : RayTracingInput) (w : World) : World × Bool :=
  if inp.checkboxAnyHit then
    let w := { w with gui := { w.gui with bAnyHit := !w.gui.bAnyHit } }
    let w := w.invoke .vkDeviceWaitIdle ext.vkDeviceWaitIdle
    (w.invoke .useAnyHit (ext.useAnyHit w.gui.bAnyHit), true)
  else (w, false)

/-- Checkbox "Enable Profiling". -/
def profilingCheckbox (ext : Externals) (inp : RayTracingInput) (w : World) : World × Bool :=
  if inp.checkboxProfiling then
    let w := { w with gui := { w.gui with bProfiling := !w.gui.bProfiling } }
    let w := w.invoke .vkDeviceWaitIdle ext.vkDeviceWaitIdle
    (w.invoke .enableProfiling (ext.enableProfiling w.gui.bProfiling), true)
  else (w, false)

/-- Radio button "Manual" and, while `manualSorting > 0`, the selection "Sorting Mode". -/
def sortingModeSelection (ext : Externals) (inp : RayTracingInput) (w : World) : World × Bool :=
  let w := if inp.radioManual then { w with gui := { w.gui with manualSorting := 1 } } else w
  if 0 < w.gui.manualSorting then
    match inp.selectionSortingMode with
    | some v =>
      let w := { w with se := { w.se with rtx := { w.se.rtx with sortingMode := v } } }
      let w := w.invoke .vkDeviceWaitIdle ext.vkDeviceWaitIdle
      (w.invoke .reloadRender ext.reloadRender, true)
    | none => (w, false)
  else (w, false)

/-- Slider "Number Coherence Bits", which writes `rtx->m_SERParameters.numCoherenceBitsTotal`;
its result is not used. -/
def coherenceBitsSlider (inp : RayTracingInput) (w : World) : World :=
  match inp.sliderCoherenceBits with
  | some v =>
    { w with se := { w.se with rtx := { w.se.rtx with
        m_SERParameters := { w.se.rtx.m_SERParameters with numCoherenceBitsTotal := v } } } }
  | none => w

/-- The widgets shown when `m_rndMethod == eRtxPipeline`. -/
def pipelineWidgets (ext : Externals) (inp : RayTracingInput) (w : World) : World × Bool :=
  if w.se.m_rndMethod = .eRtxPipeline then
    let (w, c₁) := anyHitCheckbox ext inp w
    let (w, c₂) := profilingCheckbox ext inp w
    let (w, c₃) := sortingModeSelection ext inp w
    (coherenceBitsSlider inp w, c₁ || c₂ || c₃)
  else (w, false)

/-- Group "Profiling": the radio buttons of `m_pMode` (values `eShade = 1`, `eSort = 0`,
`eRayTraversal = 2`, `eTracing`), the checkbox "show Histogram" and, while it is ticked, the
radio buttons of `histogramFlags`. The histogram plot only reads. -/
def profilingGroup (inp : RayTracingInput) (w : World) : World :=
  if inp.groupProfiling then
    let gui := match inp.radioProfilingMode with
      | some v => { w.gui with m_pMode := v }
      | none => w.gui
    let gui := if inp.checkboxShowHistogram then { gui with showHistogram := !gui.showHistogram }
      else gui
    let gui := if gui.showHistogram then
        match inp.radioHistogramFlags with
        | some v => { gui with histogramFlags := v }
        | none => gui
      else gui
    { w with gui := gui }
  else w

/-- Group "Debugging": the selection "Debug Mode" and, in heat-map mode, the two drags. -/
def debuggingGroup (inp : RayTracingInput) (w : World) : World × Bool :=
  if inp.groupDebugging then
    let rtx := w.se.m_rtxState
    let (rtx, c₁) := match inp.selectionDebugMode with
      | some v => ({ rtx with debugging_mode := v }, true)
      | none => (rtx, false)
    if rtx.debugging_mode = eHeatmap then
      let (rtx, c₂) := match inp.dragMinHeatmap with
        | some v => ({ rtx with minHeatmap := v }, true)
        | none => (rtx, false)
      let (rtx, c₃) := match inp.dragMaxHeatmap with
        | some v => ({ rtx with maxHeatmap := v }, true)
        | none => (rtx, false)
      ({ w with se := { w.se with m_rtxState := rtx } }, c₁ || c₂ || c₃)
    else
      ({ w with se := { w.se with m_rtxState := rtx } }, c₁)
  else (w, false)

/-- Button "Reload Shaders". -/
def reloadShadersButton (ext : Externals) (inp : RayTracingInput) (w : World) : World × Bool :=
  if inp.buttonReloadShaders then (w.invoke .reloadRender ext.reloadRender, true) else (w, false)

/-- Function `SampleGUI::guiRayTracing`: the statements in source order; the result is the
`changed` flag. -/
def guiRayTracing (ext : Externals) (inp : RayTracingInput) (w : World) : World × Bool :=
  let (w, c₁) := rayTracingSliders inp w
  let (w, c₂) := pipelineWidgets ext inp w
  let w := profilingGroup inp w
  let (w, c₃) := debuggingGroup inp w
  let (w, c₄) := reloadShadersButton ext inp w
  (w, c₁ || c₂ || c₃ || c₄)

/-- Input of a frame in which only the slider "Number Coherence Bits" moves, to 16. -/
def coherenceBitsMoved : RayTracingInput := { sliderCoherenceBits := some 16 }

/-! ## `sample_example.hpp`: the look directions of training -/

/-- Integer value of each enumerator of `CubeSide`, in declaration order. -/
def CubeSide.id : CubeSide → Nat
  | .CubeUp => 0
  | .CubeDown => 1
  | .CubeLeft => 2
  | .CubeRight => 3
  | .CubeFront => 4
  | .CubeBack => 5

/-- Member `lookDirections`, in the order of its initialiser. -/
def lookDirections : List Vec3 :=
  [⟨0, 1, 1 / 10⟩, ⟨0, -1, -(1 / 10)⟩, ⟨-1, 0, 0⟩, ⟨1, 0, 0⟩, ⟨0, 0, 1⟩, ⟨0, 0, -1⟩]

/-- A coordinate axis with a sign. -/
inductive SignedAxis where
  | posX
  | negX
  | posY
  | negY
  | posZ
  | negZ
  deriving DecidableEq, Repr

/-- The component of largest magnitude of a vector, with its sign, if one component is
strictly larger in magnitude than the other two. -/
def dominantAxis (v : Vec3) : Option SignedAxis :=
  if |v.y| < |v.x| ∧ |v.z| < |v.x| then
    some (if 0 < v.x then .posX else .negX)
  else if |v.x| < |v.y| ∧ |v.z| < |v.y| then
    some (if 0 < v.y then .posY else .negY)
  else if |v.x| < |v.z| ∧ |v.y| < |v.z| then
    some (if 0 < v.z then .posZ else .negZ)
  else none

/-- Each slider or drag of the ray-tracing panel that reports a change reports a value inside
the range it was given: `1..40` for "Max Ray Depth", `1..10` for "Samples Per Frame",
`1..1000` for "Max Iteration", `1..8` for "De-scaling", `0u..64u` for "Number Coherence
Bits", `0..1000000` for the two heat-map drags. -/
def RayTracingInput.slidersInRange (inp : RayTracingInput) : Prop :=
  (∀ v, inp.sliderMaxDepth = some v → 1 ≤ v ∧ v ≤ 40)
  ∧ (∀ v, inp.sliderMaxSamples = some v → 1 ≤ v ∧ v ≤ 10)
  ∧ (∀ v, inp.sliderMaxFrames = some v → 1 ≤ v ∧ v ≤ 1000)
  ∧ (∀ v, inp.sliderDescaling = some v → 1 ≤ v ∧ v ≤ 8)
  ∧ (∀ v, inp.sliderCoherenceBits = some v → 0 ≤ v ∧ v ≤ 64)
  ∧ (∀ v, inp.dragMinHeatmap = some v → 0 ≤ v ∧ v ≤ 1000000)
  ∧ (∀ v, inp.dragMaxHeatmap = some v → 0 ≤ v ∧ v ≤ 1000000)

/-- Input of a frame in which only the slider "Number Coherence Bits" moves, to 40. -/
def coherenceBitsHigh : RayTracingInput := { sliderCoherenceBits := some 40 }

/-- Controller on a given frame, for concrete evaluations of the profiler panel. -/
def controllerOnFrame (frame : Int) : SampleExample := { m_rtxState := { frame := frame } }

/-- The "Collecting data" part of `guiProfiler` that changes the frame history: the frame and
the timer record are stored in slot `frame % 5` of `stored_frames` and `stored_timers`. -/
def recordFrame (info : TimerInfo) (frame : Int) (gui : SampleGUI) : Option SampleGUI := do
  let frames ← arrayStore gui.stored_frames (profilerWriteIndex frame) frame
  let timers ← arrayStore gui.stored_timers (profilerWriteIndex frame) info
  pure { gui with stored_frames := frames, stored_timers := timers }

/-- States of the user interface that are reachable from the initial state through calls of
`guiSortingGrid`, whatever the widgets report. -/
inductive ReachableAnyInput (ext : Externals) : World → Prop where
  | initial : ReachableAnyInput ext World.initial
  | frame (w : World) (inp : SortingGridInput) :
      ReachableAnyInput ext w → ReachableAnyInput ext (guiSortingGrid ext inp w).1

/-- Input of a frame in which only the checkbox "Visualize Sorting method" is toggled. -/
def visualizeToggled : SortingGridInput := { checkboxVisualize := true }

/-- State of the frame after `guiSortingGrid` has handled the checkbox "perform automatic
training". -/
def afterTrainingCheckbox (ext : Externals) (inp : SortingGridInput) (w : World) : World :=
  trainingCheckbox ext inp (panelBeforeTraining ext inp w)

/-- The frame history after the "Collecting data" stores of `guiProfiler` on the given
frames in turn, each with an empty timer record; `none` when a store leaves its array. -/
def recordFrames (frames : List Int) (gui : SampleGUI) : Option SampleGUI :=
  frames.foldlM (fun g frame => recordFrame {} frame g) gui

/-- State after one frame from the initial state in which "activate Inference" is ticked. -/
def inferringWorld : World :=
  (guiSortingGrid Externals.inert inferenceToggled World.initial).1

/-- Input of a frame in which the checkboxes "activate Inference" and "always use best
Parameters found" both report a toggle. -/
def inferenceAndBestToggled : SortingGridInput :=
  { checkboxInference := true, checkboxUseBest := true }

/-! ## Theorems -/

/-- C9: the `SortingMode` enumeration has exactly ten modes, with ids 0..9 in the order
NoSorting, HitObject, Origin, Reis, Costa, Aila, TwoPoint, EndPointEst, EndEstAdaptive,
InferKey; the ids are pairwise distinct; `eNumSortModes = 10`; and the manual "Sorting Mode"
selection offers exactly ten entries, the entry at position `i` selecting the mode with
id `i`, listed in the enumeration's order. -/
theorem sortingMode_closed_ordered :
    SortingMode.all.map SortingMode.id = List.range 10
    ∧ (∀ m : SortingMode, m ∈ SortingMode.all)
    ∧ Fintype.card SortingMode = 10
    ∧ Function.Injective SortingMode.id
    ∧ eNumSortModes = 10
    ∧ sortingModeItems.length = eNumSortModes
    ∧ (List.range sortingModeItems.length).map selectSortingMode
        = SortingMode.all.map some
    ∧ (∀ i, sortingModeItems.length ≤ i → selectSortingMode i = none)
    ∧ List.zip SortingMode.all sortingModeItems =
        [(.eNoSorting, "No Sorting"),
         (.eHitObject, "HitObject"),
         (.eOrigin, "Sort by Origin"),
         (.eReis, "Sort by Origin&Direction"),
         (.eCosta, "Sort by Origin&Direction reversed"),
         (.eAila, "Sort by Origin&Direction interleaved"),
         (.eTwoPoint, "Twopoint sorting"),
         (.eEndPointEst, "Endpoint Estimation"),
         (.eEndEstAdaptive, "Adaptive Endpoint Estimation"),
         (.eInferKey, "Infer Sorting Key")] := by
  refine ⟨by decide, ?_, by decide, ?_, rfl, by decide, by decide, ?_, rfl⟩
  · intro m; cases m <;> decide
  · intro a b h; cases a <;> cases b <;> first | rfl | exact absurd h (by decide)
  · intro i hi
    simp [selectSortingMode, Nat.not_lt.mpr hi]

/-! ### Construction of the grid -/

theorem length_flatten_replicate {α : Type} (n : Nat) (l : List α) :
    (List.replicate n l).flatten.length = n * l.length := by
  simp [List.length_flatten]

theorem fresh_untrained (rule : AdaptiveRule) : (GridSpace.fresh rule).untrained := by
  intro side
  simp [GridSpace.faceMeasured, GridSpace.fresh, SortingMode.all]

/-- C1: for every dimension triple with `1 ≤ grid_x, grid_y, grid_z ≤ MAXGRIDSIZE`,
`buildSortingGrid` succeeds, keeps the dimensions, and yields exactly
`grid_x * grid_y * grid_z` cells (`grid_z` layers of `grid_y` rows of `grid_x` cells), each of
them fresh (no sample for any face and mode) and hence untrained. -/
theorem buildSortingGrid_cells (rule : AdaptiveRule) (se : SampleExample)
    (hx : 1 ≤ se.grid_x ∧ se.grid_x ≤ MAXGRIDSIZE)
    (hy : 1 ≤ se.grid_y ∧ se.grid_y ≤ MAXGRIDSIZE)
    (hz : 1 ≤ se.grid_z ∧ se.grid_z ≤ MAXGRIDSIZE) :
    ∃ se', buildSortingGrid rule se = .ok se'
      ∧ se'.grid_x = se.grid_x ∧ se'.grid_y = se.grid_y ∧ se'.grid_z = se.grid_z
      ∧ (se'.cells.length : Int) = se.grid_x * se.grid_y * se.grid_z
      ∧ (se'.sortingGrid.length : Int) = se.grid_z
      ∧ (∀ layer ∈ se'.sortingGrid, (layer.length : Int) = se.grid_y
          ∧ ∀ row ∈ layer, (row.length : Int) = se.grid_x)
      ∧ ∀ c ∈ se'.cells, c.untrained ∧ ∀ side m, (c.sides side).sampleCount m = 0 := by
  have hv : validDimensions se.grid_x se.grid_y se.grid_z = true := by
    simp [validDimensions, hx.1, hx.2, hy.1, hy.2, hz.1, hz.2]
  have ex : ((se.grid_x.toNat : Nat) : Int) = se.grid_x := Int.toNat_of_nonneg (by omega)
  have ey : ((se.grid_y.toNat : Nat) : Int) = se.grid_y := Int.toNat_of_nonneg (by omega)
  have ez : ((se.grid_z.toNat : Nat) : Int) = se.grid_z := Int.toNat_of_nonneg (by omega)
  refine ⟨{ se with
      sortingGrid :=
        List.replicate se.grid_z.toNat
          (List.replicate se.grid_y.toNat
            (List.replicate se.grid_x.toNat (GridSpace.fresh rule))) },
    by simp only [buildSortingGrid, hv, if_true], rfl, rfl, rfl, ?_, ?_, ?_, ?_⟩
  · simp only [SampleExample.cells, length_flatten_replicate, List.flatten_replicate_replicate,
      List.length_replicate]
    push_cast
    rw [ex, ey, ez]
    ring
  · simp only [List.length_replicate, ez]
  · intro layer hl
    obtain ⟨-, rfl⟩ := List.mem_replicate.mp hl
    refine ⟨by simp only [List.length_replicate, ey], ?_⟩
    intro row hr
    obtain ⟨-, rfl⟩ := List.mem_replicate.mp hr
    simp only [List.length_replicate, ex]
  · intro c hc
    simp only [SampleExample.cells, List.mem_flatten] at hc
    obtain ⟨row, ⟨layer, hl, hr⟩, hcr⟩ := hc
    obtain ⟨-, rfl⟩ := List.mem_replicate.mp hl
    obtain ⟨-, rfl⟩ := List.mem_replicate.mp hr
    obtain ⟨-, rfl⟩ := List.mem_replicate.mp hcr
    exact ⟨fresh_untrained rule, fun _ _ => rfl⟩

/-- Witness for C1: the initial 2 x 2 x 2 controller. -/
theorem buildSortingGrid_cells_witness :
    ∃ se', buildSortingGrid ⟨1, fun r _ => r⟩ ({} : SampleExample) = .ok se'
      ∧ se'.grid_x = 2 ∧ se'.grid_y = 2 ∧ se'.grid_z = 2
      ∧ (se'.cells.length : Int) = 2 * 2 * 2
      ∧ (se'.sortingGrid.length : Int) = 2
      ∧ (∀ layer ∈ se'.sortingGrid, (layer.length : Int) = 2
          ∧ ∀ row ∈ layer, (row.length : Int) = 2)
      ∧ ∀ c ∈ se'.cells, c.untrained ∧ ∀ side m, (c.sides side).sampleCount m = 0 :=
  buildSortingGrid_cells ⟨1, fun r _ => r⟩ {} (by decide) (by decide) (by decide)

/-! ### Exponential smoothing -/

theorem updateEstimate_estimate (rule : AdaptiveRule) (se : SampleExample) (c : GridSpace)
    (side : CubeSide) (mode : SortingMode) (t : ℚ) (h : se.useConstantGridLearning = true) :
    ((updateEstimate rule se c side mode t).sides side).estimate mode
      = (c.sides side).estimate mode
        + se.constantGridlearningSpeed * (t - (c.sides side).estimate mode) := by
  simp [updateEstimate, h]

theorem updateEstimate_sampleCount (rule : AdaptiveRule) (se : SampleExample) (c : GridSpace)
    (side : CubeSide) (mode : SortingMode) (t : ℚ) :
    ((updateEstimate rule se c side mode t).sides side).sampleCount mode
      = (c.sides side).sampleCount mode + 1 := by
  simp [updateEstimate]

theorem updateEstimates_sampleCount (rule : AdaptiveRule) (se : SampleExample)
    (side : CubeSide) (mode : SortingMode) (samples : List ℚ) (c : GridSpace) :
    ((updateEstimates rule se c side mode samples).sides side).sampleCount mode
      = (c.sides side).sampleCount mode + samples.length := by
  induction samples generalizing c with
  | nil => simp [updateEstimates]
  | cons t ts ih =>
    have := ih (updateEstimate rule se c side mode t)
    simp only [updateEstimates, List.foldl_cons, List.length_cons] at this ⊢
    rw [this, updateEstimate_sampleCount]
    omega

theorem updateEstimate_speed_zero (rule : AdaptiveRule) (se : SampleExample) (c : GridSpace)
    (side : CubeSide) (mode : SortingMode) (t : ℚ) (h : se.useConstantGridLearning = true)
    (h0 : se.constantGridlearningSpeed = 0) (side' : CubeSide) (mode' : SortingMode) :
    ((updateEstimate rule se c side mode t).sides side').estimate mode'
      = (c.sides side').estimate mode' := by
  by_cases hs : side' = side
  · subst hs
    by_cases hm : mode' = mode
    · subst hm
      rw [updateEstimate_estimate rule se c _ _ t h, h0]
      ring
    · simp [updateEstimate, hm]
  · simp [updateEstimate, hs]

/-- C3: with `useConstantGridLearning` set and `constantGridlearningSpeed = 0`, any finite
sequence of accepted timing samples for a (cell, direction, mode) leaves the smoothed
estimate of that tuple, and every other estimate of the cell, unchanged, while each sample
is counted. -/
theorem updateEstimates_speed_zero (rule : AdaptiveRule) (se : SampleExample)
    (side : CubeSide) (mode : SortingMode) (samples : List ℚ) (c : GridSpace)
    (h : se.useConstantGridLearning = true) (h0 : se.constantGridlearningSpeed = 0) :
    ((updateEstimates rule se c side mode samples).sides side).estimate mode
        = (c.sides side).estimate mode
      ∧ (∀ side' mode', ((updateEstimates rule se c side mode samples).sides side').estimate mode'
          = (c.sides side').estimate mode')
      ∧ ((updateEstimates rule se c side mode samples).sides side).sampleCount mode
          = (c.sides side).sampleCount mode + samples.length := by
  have key : ∀ (samples : List ℚ) (c : GridSpace) side' mode',
      ((updateEstimates rule se c side mode samples).sides side').estimate mode'
        = (c.sides side').estimate mode' := by
    intro samples
    induction samples with
    | nil => intro c side' mode'; rfl
    | cons t ts ih =>
      intro c side' mode'
      have := ih (updateEstimate rule se c side mode t) side' mode'
      simp only [updateEstimates, List.foldl_cons] at this ⊢
      rw [this, updateEstimate_speed_zero rule se c side mode t h h0]
  exact ⟨key samples c side mode, key samples c, updateEstimates_sampleCount rule se side mode samples c⟩

/-- Witness for C3: three samples on a cell whose estimate for (up, Reis) is 7. -/
theorem updateEstimates_speed_zero_witness :
    ((updateEstimates ⟨1, fun r _ => r⟩ { constantGridlearningSpeed := 0 }
        (updateEstimate ⟨1, fun r _ => r⟩ { constantGridlearningSpeed := 1 }
          (GridSpace.fresh ⟨1, fun r _ => r⟩) .CubeUp .eReis 7)
        .CubeUp .eReis [10, 3, 25]).sides .CubeUp).estimate .eReis = 7 := by
  have h := (updateEstimates_speed_zero ⟨1, fun r _ => r⟩ { constantGridlearningSpeed := 0 }
    .CubeUp .eReis [10, 3, 25]
    (updateEstimate ⟨1, fun r _ => r⟩ { constantGridlearningSpeed := 1 }
      (GridSpace.fresh ⟨1, fun r _ => r⟩) .CubeUp .eReis 7) rfl rfl).1
  rw [h]
  simp [updateEstimate, GridSpace.fresh]

theorem updateEstimates_last (rule : AdaptiveRule) (se : SampleExample)
    (side : CubeSide) (mode : SortingMode) (samples : List ℚ) (c : GridSpace)
    (h : se.useConstantGridLearning = true) (h1 : se.constantGridlearningSpeed = 1)
    (hne : samples ≠ []) :
    ((updateEstimates rule se c side mode samples).sides side).estimate mode
      = samples.getLast hne := by
  induction samples generalizing c with
  | nil => exact absurd rfl hne
  | cons t ts ih =>
    cases ts with
    | nil =>
      simp only [updateEstimates, List.foldl_cons, List.foldl_nil, List.getLast_singleton]
      rw [updateEstimate_estimate rule se c side mode t h, h1]
      ring
    | cons u us =>
      have := ih (updateEstimate rule se c side mode t) (List.cons_ne_nil u us)
      simp only [updateEstimates, List.foldl_cons] at this ⊢
      rw [this]
      rfl

/-- C4: with `useConstantGridLearning` set and `constantGridlearningSpeed = 1`, after any
non-empty sequence of accepted timing samples for a (cell, direction, mode) the smoothed
estimate equals the most recent sample, whatever the previous estimate was. -/
theorem updateEstimates_speed_one (rule : AdaptiveRule) (se : SampleExample)
    (side : CubeSide) (mode : SortingMode) (samples : List ℚ) (c : GridSpace)
    (h : se.useConstantGridLearning = true) (h1 : se.constantGridlearningSpeed = 1)
    (hne : samples ≠ []) :
    ((updateEstimates rule se c side mode samples).sides side).estimate mode
      = samples.getLast hne :=
  updateEstimates_last rule se side mode samples c h h1 hne

/-- Witness for C4: samples 10, 3, 25 leave the estimate 25. -/
theorem updateEstimates_speed_one_witness :
    ((updateEstimates ⟨1, fun r _ => r⟩ { constantGridlearningSpeed := 1 }
        (GridSpace.fresh ⟨1, fun r _ => r⟩) .CubeUp .eReis [10, 3, 25]).sides .CubeUp).estimate
        .eReis = 25 :=
  updateEstimates_speed_one ⟨1, fun r _ => r⟩ { constantGridlearningSpeed := 1 }
    .CubeUp .eReis [10, 3, 25] (GridSpace.fresh ⟨1, fun r _ => r⟩) rfl rfl (by simp)

/-! ### Best-mode selection -/

/-- Invariant of the scan in `bestModeOfSide`: over a list of modes with increasing ids, the
candidate is a minimiser of the estimate among the modes seen, with the lowest id among the
minimisers. -/
theorem scan_min (est : SortingMode → ℚ) (rest seen : List SortingMode) (best : SortingMode)
    (hbest : best ∈ seen)
    (hmin : ∀ x ∈ seen, est best ≤ est x ∧ (est x = est best → best.id ≤ x.id))
    (hord : ∀ x ∈ seen, ∀ y ∈ rest, x.id < y.id)
    (hsorted : rest.Pairwise (fun a b => a.id < b.id)) :
    let r := rest.foldl (fun best m => if est m < est best then m else best) best
    r ∈ seen ++ rest
      ∧ ∀ x ∈ seen ++ rest, est r ≤ est x ∧ (est x = est r → r.id ≤ x.id) := by
  induction rest generalizing seen best with
  | nil => simpa using ⟨hbest, hmin⟩
  | cons m ms ih =>
    have hms : ms.Pairwise (fun a b => a.id < b.id) := (List.pairwise_cons.mp hsorted).2
    have hm_lt : ∀ y ∈ ms, m.id < y.id := (List.pairwise_cons.mp hsorted).1
    have hord' : ∀ x ∈ seen ++ [m], ∀ y ∈ ms, x.id < y.id := by
      intro x hx y hy
      rcases List.mem_append.mp hx with hx | hx
      · exact hord x hx y (List.mem_cons_of_mem _ hy)
      · rw [List.mem_singleton.mp hx]; exact hm_lt y hy
    simp only [List.foldl_cons]
    have step := ih (seen ++ [m]) (if est m < est best then m else best) ?_ ?_ hord' hms
    · simpa [List.append_assoc] using step
    · by_cases hlt : est m < est best
      · simp [hlt]
      · simp [hlt, hbest]
    · intro x hx
      by_cases hlt : est m < est best
      · simp only [hlt, if_true]
        rcases List.mem_append.mp hx with hx | hx
        · have := (hmin x hx).1
          exact ⟨by linarith, fun he => absurd he (ne_of_gt (by linarith))⟩
        · rw [List.mem_singleton.mp hx]; exact ⟨le_refl _, fun _ => le_refl _⟩
      · simp only [hlt, if_false]
        rcases List.mem_append.mp hx with hx | hx
        · exact hmin x hx
        · rw [List.mem_singleton.mp hx]
          exact ⟨not_lt.mp hlt, fun _ => (hord best hbest m (List.mem_cons_self _ _)).le⟩

theorem bestModeOfSide_eq (st : CubeSideStorage) :
    bestModeOfSide st
      = SortingMode.all.tail.foldl
          (fun best m => if st.estimate m < st.estimate best then m else best)
          SortingMode.eNoSorting := by
  unfold bestModeOfSide
  rw [show SortingMode.all = SortingMode.eNoSorting :: SortingMode.all.tail from rfl,
    List.foldl_cons, if_neg (lt_irrefl _)]
  rfl

theorem bestModeOfSide_min (st : CubeSideStorage) (m : SortingMode) :
    st.estimate (bestModeOfSide st) ≤ st.estimate m
      ∧ (st.estimate m = st.estimate (bestModeOfSide st) → (bestModeOfSide st).id ≤ m.id) := by
  have h := scan_min st.estimate SortingMode.all.tail [SortingMode.eNoSorting]
    SortingMode.eNoSorting (by simp) (by intro x hx; rw [List.mem_singleton.mp hx]; simp)
    (by
      intro x hx y hy
      rw [List.mem_singleton.mp hx]
      simp only [SortingMode.all, List.tail_cons, List.mem_cons, List.mem_singleton,
        List.not_mem_nil, or_false] at hy
      rcases hy with h | h | h | h | h | h | h | h | h <;> subst h <;> decide)
    (by simp [SortingMode.all, SortingMode.id])
  have hm : m ∈ [SortingMode.eNoSorting] ++ SortingMode.all.tail := by cases m <;> decide
  rw [bestModeOfSide_eq]
  exact h.2 m hm

theorem determineBestTimesCube_face (se : SampleExample) (c : GridSpace) (side : CubeSide)
    (h : c.faceMeasured side = true) :
    (determineBestTimesCube se c).face side = ((bestModeOfSide (c.sides side)).id : Int) := by
  cases side <;> simp [determineBestTimesCube, GridCube.face, h]

/-- C5: for every cell and every face whose modes have all been measured,
`determineBestTimesCube` assigns that face the id of a mode whose smoothed estimate is
minimal among all modes, and among the modes that share the minimum it is the one with the
lowest id. -/
theorem determineBestTimesCube_min (se : SampleExample) (c : GridSpace) (side : CubeSide)
    (h : c.faceMeasured side = true) :
    ∃ best : SortingMode, (determineBestTimesCube se c).face side = (best.id : Int)
      ∧ (∀ m : SortingMode, (c.sides side).estimate best ≤ (c.sides side).estimate m)
      ∧ ∀ m : SortingMode, (c.sides side).estimate m = (c.sides side).estimate best →
          best.id ≤ m.id :=
  ⟨bestModeOfSide (c.sides side), determineBestTimesCube_face se c side h,
    fun m => (bestModeOfSide_min (c.sides side) m).1,
    fun m => (bestModeOfSide_min (c.sides side) m).2⟩

theorem updateEstimate_other (rule : AdaptiveRule) (se : SampleExample) (c : GridSpace)
    (side : CubeSide) (mode : SortingMode) (t : ℚ) (side' : CubeSide) (mode' : SortingMode)
    (h : mode' ≠ mode) :
    ((updateEstimate rule se c side mode t).sides side').estimate mode'
        = (c.sides side').estimate mode'
      ∧ ((updateEstimate rule se c side mode t).sides side').sampleCount mode'
        = (c.sides side').sampleCount mode' := by
  by_cases hs : side' = side
  · subst hs; simp [updateEstimate, h]
  · simp [updateEstimate, hs]

theorem updateEstimates_other (rule : AdaptiveRule) (se : SampleExample)
    (side : CubeSide) (mode : SortingMode) (side' : CubeSide) (mode' : SortingMode)
    (h : mode' ≠ mode) (samples : List ℚ) (c : GridSpace) :
    ((updateEstimates rule se c side mode samples).sides side').estimate mode'
        = (c.sides side').estimate mode'
      ∧ ((updateEstimates rule se c side mode samples).sides side').sampleCount mode'
        = (c.sides side').sampleCount mode' := by
  induction samples generalizing c with
  | nil => exact ⟨rfl, rfl⟩
  | cons t ts ih =>
    have h1 := ih (updateEstimate rule se c side mode t)
    have h2 := updateEstimate_other rule se c side mode t side' mode' h
    simp only [updateEstimates, List.foldl_cons] at h1 ⊢
    exact ⟨h1.1.trans h2.1, h1.2.trans h2.2⟩

theorem scenarioCell_estimate (m : SortingMode) :
    (scenarioCell.sides .CubeUp).estimate m = if m = .eHitObject then 5 else 10 := by
  have hc : scenarioController.useConstantGridLearning = true := rfl
  have hs : scenarioController.constantGridlearningSpeed = 1 := rfl
  have last : ∀ (mode : SortingMode) (samples : List ℚ) (c : GridSpace) (hne : samples ≠ []),
      ((updateEstimates unitRule scenarioController c .CubeUp mode samples).sides .CubeUp).estimate
        mode = samples.getLast hne :=
    fun mode samples c hne => updateEstimates_last unitRule scenarioController .CubeUp mode samples c hc hs hne
  have other : ∀ (mode mode' : SortingMode) (samples : List ℚ) (c : GridSpace), mode' ≠ mode →
      ((updateEstimates unitRule scenarioController c .CubeUp mode samples).sides .CubeUp).estimate
        mode' = (c.sides .CubeUp).estimate mode' :=
    fun mode mode' samples c h =>
      (updateEstimates_other unitRule scenarioController .CubeUp mode .CubeUp mode' h samples c).1
  cases m <;>
    simp only [scenarioCell, SortingMode.all, List.foldl_cons, List.foldl_nil] <;>
    (try simp (disch := decide) only [other]) <;>
    rw [last _ _ _ (by simp)] <;>
    simp

theorem scenarioCell_sampleCount (m : SortingMode) :
    (scenarioCell.sides .CubeUp).sampleCount m = 3 := by
  have own : ∀ (mode : SortingMode) (samples : List ℚ) (c : GridSpace),
      ((updateEstimates unitRule scenarioController c .CubeUp mode samples).sides
        .CubeUp).sampleCount mode = (c.sides .CubeUp).sampleCount mode + samples.length :=
    fun mode samples c => updateEstimates_sampleCount unitRule scenarioController .CubeUp mode samples c
  have other : ∀ (mode mode' : SortingMode) (samples : List ℚ) (c : GridSpace), mode' ≠ mode →
      ((updateEstimates unitRule scenarioController c .CubeUp mode samples).sides
        .CubeUp).sampleCount mode' = (c.sides .CubeUp).sampleCount mode' :=
    fun mode mode' samples c h =>
      (updateEstimates_other unitRule scenarioController .CubeUp mode .CubeUp mode' h samples c).2
  cases m <;>
    simp only [scenarioCell, SortingMode.all, List.foldl_cons, List.foldl_nil] <;>
    (try simp (disch := decide) only [other]) <;>
    rw [own] <;>
    (try simp (disch := decide) only [other]) <;>
    simp [GridSpace.fresh]

theorem scenarioCell_faceMeasured : scenarioCell.faceMeasured .CubeUp = true := by
  simp [GridSpace.faceMeasured, scenarioCell_sampleCount]

theorem scan_keep (est : SortingMode → ℚ) (l : List SortingMode) (b : SortingMode)
    (h : ∀ m ∈ l, ¬ est m < est b) :
    l.foldl (fun best m => if est m < est best then m else best) b = b := by
  induction l with
  | nil => rfl
  | cons m ms ih =>
    rw [List.foldl_cons, if_neg (h m (List.mem_cons_self _ _))]
    exact ih (fun x hx => h x (List.mem_cons_of_mem _ hx))

theorem scenarioCell_best : bestModeOfSide (scenarioCell.sides .CubeUp) = .eHitObject := by
  have h2 : (scenarioCell.sides .CubeUp).estimate .eHitObject
      < (scenarioCell.sides .CubeUp).estimate .eNoSorting := by
    rw [scenarioCell_estimate, scenarioCell_estimate, if_pos rfl, if_neg (by decide)]
    norm_num
  unfold bestModeOfSide
  rw [show SortingMode.all
      = SortingMode.eNoSorting :: SortingMode.eHitObject :: SortingMode.all.tail.tail from rfl,
    List.foldl_cons, List.foldl_cons, if_neg (lt_irrefl _), if_pos h2]
  apply scan_keep
  intro m _
  rw [scenarioCell_estimate, scenarioCell_estimate, if_pos rfl]
  split_ifs <;> norm_num

/-- Witness for C5: in the scenario of the specification (timings 10, 10, 10 for mode A and
5, 5, 5 for mode B at learning rate 1) the face is fully measured and its best mode is B,
`eHitObject` with id 1, with estimate 5. -/
theorem determineBestTimesCube_min_witness :
    (scenarioCell.sides .CubeUp).estimate .eNoSorting = 10
      ∧ (scenarioCell.sides .CubeUp).estimate .eHitObject = 5
      ∧ (determineBestTimesCube {} scenarioCell).face .CubeUp = 1
      ∧ ∃ best : SortingMode, (determineBestTimesCube {} scenarioCell).face .CubeUp = (best.id : Int)
          ∧ (∀ m : SortingMode,
              (scenarioCell.sides .CubeUp).estimate best ≤ (scenarioCell.sides .CubeUp).estimate m)
          ∧ ∀ m : SortingMode,
              (scenarioCell.sides .CubeUp).estimate m = (scenarioCell.sides .CubeUp).estimate best →
                best.id ≤ m.id :=
  ⟨by simp [scenarioCell_estimate], by simp [scenarioCell_estimate],
   by simp [determineBestTimesCube, GridCube.face, scenarioCell_faceMeasured, scenarioCell_best,
        SortingMode.id],
   determineBestTimesCube_min {} scenarioCell .CubeUp scenarioCell_faceMeasured⟩

/-! ### Position lookup -/

theorem clamp_idem (x lo hi : ℚ) : clamp (clamp x lo hi) lo hi = clamp x lo hi := by
  unfold clamp
  rcases le_total lo hi with h | h
  · have h1 : lo ≤ min (max x lo) hi := le_min (le_max_right _ _) h
    rw [max_eq_left h1, min_eq_left (min_le_right _ _)]
  · have h1 : min (max x lo) hi = hi := min_eq_right (h.trans (le_max_right _ _))
    rw [h1, max_eq_right h, min_eq_right h]

theorem axisIndex_clamp (n : Int) (lo hi p : ℚ) :
    axisIndex n lo hi (clamp p lo hi) = axisIndex n lo hi p := by
  unfold axisIndex
  rw [clamp_idem]

theorem axisIndex_range (n : Int) (lo hi p : ℚ) (hn : 1 ≤ n) :
    0 ≤ axisIndex n lo hi p ∧ axisIndex n lo hi p < n := by
  have hratio : 0 ≤ (clamp p lo hi - lo) / (hi - lo) := by
    rcases le_total lo hi with h | h
    · apply div_nonneg
      · have : lo ≤ clamp p lo hi := le_min (le_max_right _ _) h
        linarith
      · linarith
    · have : clamp p lo hi = hi := min_eq_right (h.trans (le_max_right _ _))
      rw [this]
      exact div_nonneg_of_nonpos (by linarith) (by linarith)
  have hnq : (0 : ℚ) ≤ (n : ℚ) := by exact_mod_cast (by omega : (0 : Int) ≤ n)
  have hfloor : 0 ≤ ⌊(clamp p lo hi - lo) / (hi - lo) * n⌋ :=
    Int.floor_nonneg.mpr (mul_nonneg hratio hnq)
  unfold axisIndex
  constructor
  · exact le_min hfloor (by omega)
  · exact lt_of_le_of_lt (min_le_right _ _) (by omega)

/-- C2: `locate` is total and clamped. For every grid with valid dimensions and every
position `p`, inside the scene bounds or not, `locate p` is a cell index with
`0 ≤ i < grid_x`, `0 ≤ j < grid_y`, `0 ≤ k < grid_z`, and clamping `p` into the scene bounds
first does not change the result. -/
theorem locate_total_clamped (se : SampleExample) (p : Vec3)
    (hx : 1 ≤ se.grid_x) (hy : 1 ≤ se.grid_y) (hz : 1 ≤ se.grid_z) :
    (0 ≤ (locate se p).x ∧ (locate se p).x < se.grid_x)
      ∧ (0 ≤ (locate se p).y ∧ (locate se p).y < se.grid_y)
      ∧ (0 ≤ (locate se p).z ∧ (locate se p).z < se.grid_z)
      ∧ locate se (clampToScene se p) = locate se p := by
  refine ⟨axisIndex_range _ _ _ _ hx, axisIndex_range _ _ _ _ hy, axisIndex_range _ _ _ _ hz, ?_⟩
  simp only [locate, clampToScene, axisIndex_clamp]

theorem axisIndex_octant : axisIndex 2 (-1) 1 (1 / 2) = 1 := by
  have hc : clamp (1 / 2) (-1) 1 = 1 / 2 := by
    unfold clamp
    rw [max_eq_left (by norm_num), min_eq_left (by norm_num)]
  have hf : ⌊((1 / 2 : ℚ) - -1) / (1 - -1) * ((2 : Int) : ℚ)⌋ = 1 := by
    rw [Int.floor_eq_iff]
    norm_num
  unfold axisIndex
  rw [hc, hf]
  rfl

/-- Witness for C2: in the grid 2 x 2 x 2 with bounds `[(-1,-1,-1), (1,1,1)]` the position
`(0.5, 0.5, 0.5)` lies in the cell `(1, 1, 1)`, the cell of the `(+,+,+)` octant. -/
theorem locate_total_clamped_witness :
    locate octantController ⟨1 / 2, 1 / 2, 1 / 2⟩ = ⟨1, 1, 1⟩
      ∧ ((0 ≤ (locate octantController ⟨1 / 2, 1 / 2, 1 / 2⟩).x
          ∧ (locate octantController ⟨1 / 2, 1 / 2, 1 / 2⟩).x < octantController.grid_x)
        ∧ (0 ≤ (locate octantController ⟨1 / 2, 1 / 2, 1 / 2⟩).y
          ∧ (locate octantController ⟨1 / 2, 1 / 2, 1 / 2⟩).y < octantController.grid_y)
        ∧ (0 ≤ (locate octantController ⟨1 / 2, 1 / 2, 1 / 2⟩).z
          ∧ (locate octantController ⟨1 / 2, 1 / 2, 1 / 2⟩).z < octantController.grid_z)
        ∧ locate octantController (clampToScene octantController ⟨1 / 2, 1 / 2, 1 / 2⟩)
            = locate octantController ⟨1 / 2, 1 / 2, 1 / 2⟩) :=
  ⟨by
      show (⟨axisIndex 2 (-1) 1 (1 / 2), axisIndex 2 (-1) 1 (1 / 2),
        axisIndex 2 (-1) 1 (1 / 2)⟩ : IVec3) = ⟨1, 1, 1⟩
      rw [axisIndex_octant],
    locate_total_clamped octantController ⟨1 / 2, 1 / 2, 1 / 2⟩
      (by decide) (by decide) (by decide)⟩

/-! ### Cell centre -/

theorem axisIndex_axisCenter (n : Int) (lo hi : ℚ) (i : Int) (hn : 1 ≤ n) (hlo : lo < hi)
    (hi0 : 0 ≤ i) (hin : i < n) :
    axisIndex n lo hi (axisCenter n lo hi i) = i := by
  have hnq : (0 : ℚ) < (n : ℚ) := by exact_mod_cast (by omega : (0 : Int) < n)
  have hiq : (0 : ℚ) ≤ (i : ℚ) := by exact_mod_cast hi0
  have hinq : (i : ℚ) + 1 ≤ (n : ℚ) := by exact_mod_cast (by omega : i + 1 ≤ n)
  have hd : 0 < hi - lo := by linarith
  have hstep : 0 < (hi - lo) / n := div_pos hd hnq
  have hge : lo ≤ axisCenter n lo hi i := by
    unfold axisCenter
    have : 0 ≤ ((i : ℚ) + 1 / 2) * ((hi - lo) / n) := mul_nonneg (by linarith) hstep.le
    linarith
  have hle : axisCenter n lo hi i ≤ hi := by
    unfold axisCenter
    have h1 : ((i : ℚ) + 1 / 2) * ((hi - lo) / n) ≤ (n : ℚ) * ((hi - lo) / n) :=
      mul_le_mul_of_nonneg_right (by linarith) hstep.le
    have h2 : (n : ℚ) * ((hi - lo) / n) = hi - lo := by field_simp
    linarith
  have hc : clamp (axisCenter n lo hi i) lo hi = axisCenter n lo hi i := by
    unfold clamp
    rw [max_eq_left hge, min_eq_left hle]
  have hval : (axisCenter n lo hi i - lo) / (hi - lo) * n = (i : ℚ) + 1 / 2 := by
    unfold axisCenter
    have hn0 : (n : ℚ) ≠ 0 := hnq.ne'
    have hd0 : hi - lo ≠ 0 := hd.ne'
    field_simp
    ring
  have hf : ⌊(axisCenter n lo hi i - lo) / (hi - lo) * n⌋ = i := by
    rw [hval, Int.floor_eq_iff]
    constructor <;> linarith
  unfold axisIndex
  rw [hc, hf]
  exact min_eq_left (by omega)

/-- C8: `calculateGridSpaceCenter` inverts the partition. For every grid with valid dimensions
and `SceneMin < SceneMax` on each axis, and every cell index `c` in range, the centre of `c`
is located in `c`; and the centre is a function of `c`, the dimensions and the bounds alone:
two controllers that agree on these give the same centre. -/
theorem locate_calculateGridSpaceCenter (se : SampleExample) (c : IVec3)
    (hx : 1 ≤ se.grid_x) (hy : 1 ≤ se.grid_y) (hz : 1 ≤ se.grid_z)
    (hbx : se.m_rtxState.SceneMin.x < se.m_rtxState.SceneMax.x)
    (hby : se.m_rtxState.SceneMin.y < se.m_rtxState.SceneMax.y)
    (hbz : se.m_rtxState.SceneMin.z < se.m_rtxState.SceneMax.z)
    (hcx : 0 ≤ c.x ∧ c.x < se.grid_x) (hcy : 0 ≤ c.y ∧ c.y < se.grid_y)
    (hcz : 0 ≤ c.z ∧ c.z < se.grid_z) :
    locate se (calculateGridSpaceCenter se c.toVec3) = c
      ∧ ∀ se' : SampleExample,
          se'.grid_x = se.grid_x → se'.grid_y = se.grid_y → se'.grid_z = se.grid_z →
          se'.m_rtxState.SceneMin = se.m_rtxState.SceneMin →
          se'.m_rtxState.SceneMax = se.m_rtxState.SceneMax →
          calculateGridSpaceCenter se' c.toVec3 = calculateGridSpaceCenter se c.toVec3 := by
  constructor
  · obtain ⟨cx, cy, cz⟩ := c
    simp only [locate, calculateGridSpaceCenter, IVec3.toVec3]
    rw [axisIndex_axisCenter _ _ _ _ hx hbx hcx.1 hcx.2,
      axisIndex_axisCenter _ _ _ _ hy hby hcy.1 hcy.2,
      axisIndex_axisCenter _ _ _ _ hz hbz hcz.1 hcz.2]
  · intro se' ex ey ez emin emax
    simp only [calculateGridSpaceCenter, ex, ey, ez, emin, emax]

/-- Witness for C8: the cell `(1, 0, 1)` of the grid 2 x 2 x 2 with bounds
`[(-1,-1,-1), (1,1,1)]`. -/
theorem locate_calculateGridSpaceCenter_witness :
    locate octantController (calculateGridSpaceCenter octantController (IVec3.toVec3 ⟨1, 0, 1⟩))
        = ⟨1, 0, 1⟩
      ∧ ∀ se' : SampleExample,
          se'.grid_x = octantController.grid_x → se'.grid_y = octantController.grid_y →
          se'.grid_z = octantController.grid_z →
          se'.m_rtxState.SceneMin = octantController.m_rtxState.SceneMin →
          se'.m_rtxState.SceneMax = octantController.m_rtxState.SceneMax →
          calculateGridSpaceCenter se' (IVec3.toVec3 ⟨1, 0, 1⟩)
            = calculateGridSpaceCenter octantController (IVec3.toVec3 ⟨1, 0, 1⟩) :=
  locate_calculateGridSpaceCenter octantController ⟨1, 0, 1⟩ (by decide) (by decide) (by decide)
    (by decide) (by decide) (by decide) (by decide) (by decide) (by decide)

/-! ### The frame: `render` and `doCycle` -/

theorem count_invoke (w : World) (c : Call) (effect : SampleExample → SampleExample) :
    (w.invoke c effect).calls.count Call.doCycle
      = w.calls.count Call.doCycle + (if c = Call.doCycle then 1 else 0) := by
  simp only [World.invoke, List.count_append, List.count_cons, List.count_nil]
  by_cases h : c = Call.doCycle
  · simp [h]
  · have : (c == Call.doCycle) = false := by simpa using h
    simp [h, this]

theorem count_runPanel (w : World) (p : Panel) :
    (w.runPanel p).1.calls.count Call.doCycle = w.calls.count Call.doCycle := rfl

theorem count_gridDimensionControls (ext : Externals) (inp : SortingGridInput) (w : World) :
    (gridDimensionControls ext inp w).1.calls.count Call.doCycle = w.calls.count Call.doCycle := by
  unfold gridDimensionControls
  simp only
  split_ifs <;> simp [count_invoke]

theorem count_learningControls (inp : SortingGridInput) (w : World) :
    (learningControls inp w).calls.count Call.doCycle = w.calls.count Call.doCycle := rfl

theorem count_pipelineControls (ext : Externals) (inp : SortingGridInput) (w : World) :
    (pipelineControls ext inp w).calls.count Call.doCycle = w.calls.count Call.doCycle := by
  unfold pipelineControls
  simp only
  split_ifs <;> simp [count_invoke]

theorem count_visualizeControls (inp : SortingGridInput) (w : World) :
    (visualizeControls inp w).1.calls.count Call.doCycle = w.calls.count Call.doCycle := by
  unfold visualizeControls
  cases inp.checkboxVisualize <;> cases inp.sliderDisplayCubeSize <;> simp <;> split_ifs <;> rfl

theorem count_randomizeButton (ext : Externals) (inp : SortingGridInput) (w : World) :
    (randomizeButton ext inp w).calls.count Call.doCycle = w.calls.count Call.doCycle := by
  unfold randomizeButton
  split_ifs
  · simp [count_invoke]
  · rfl

theorem count_trainingCheckbox (ext : Externals) (inp : SortingGridInput) (w : World) :
    (trainingCheckbox ext inp w).calls.count Call.doCycle = w.calls.count Call.doCycle := by
  unfold trainingCheckbox
  simp only
  split_ifs <;> simp [count_invoke]

theorem count_inferenceCheckbox (inp : SortingGridInput) (w : World) :
    (inferenceCheckbox inp w).calls.count Call.doCycle = w.calls.count Call.doCycle := by
  unfold inferenceCheckbox
  split_ifs <;> rfl

theorem count_bestParametersCheckbox (inp : SortingGridInput) (w : World) :
    (bestParametersCheckbox inp w).calls.count Call.doCycle = w.calls.count Call.doCycle := by
  unfold bestParametersCheckbox
  split_ifs <;> rfl

theorem count_guiSortingGrid (ext : Externals) (inp : SortingGridInput) (w : World) :
    (guiSortingGrid ext inp w).1.calls.count Call.doCycle = w.calls.count Call.doCycle := by
  simp only [guiSortingGrid, count_bestParametersCheckbox, count_inferenceCheckbox,
    count_trainingCheckbox, count_randomizeButton, count_visualizeControls,
    count_pipelineControls, count_learningControls, count_gridDimensionControls]

theorem count_underHeader (isOpen : Bool) (run : World → World × Bool) (acc : World × Bool)
    (h : ∀ w, (run w).1.calls.count Call.doCycle = w.calls.count Call.doCycle) :
    (underHeader isOpen run acc).1.calls.count Call.doCycle = acc.1.calls.count Call.doCycle := by
  unfold underHeader
  split_ifs
  · exact h acc.1
  · rfl

theorem count_inGroup (isOpen : Bool) (p : Panel) (w : World) :
    (inGroup isOpen p w).calls.count Call.doCycle = w.calls.count Call.doCycle := by
  unfold inGroup
  split_ifs <;> rfl

theorem count_invoke_other (w : World) (c : Call) (effect : SampleExample → SampleExample)
    (h : c ≠ Call.doCycle) :
    (w.invoke c effect).calls.count Call.doCycle = w.calls.count Call.doCycle := by
  rw [count_invoke, if_neg h, Nat.add_zero]

theorem count_sidePanel (ext : Externals) (panels : Panels) (inp : FrameInput) (w : World) :
    (underHeader inp.headerEnvironment (fun w => w.runPanel panels.guiEnvironment)
      (underHeader inp.headerTonemapper (fun w => w.runPanel panels.guiTonemapper)
        (underHeader inp.headerSortingGrid (guiSortingGrid ext inp.sortingGrid)
          (underHeader inp.headerRayTracing (fun w => w.runPanel panels.guiRayTracing)
            (underHeader inp.headerCamera (fun w => w.runPanel panels.guiCamera)
              (w, false)))))).1.calls.count Call.doCycle
      = w.calls.count Call.doCycle := by
  rw [count_underHeader _ _ _ (fun w => count_runPanel w _),
    count_underHeader _ _ _ (fun w => count_runPanel w _),
    count_underHeader _ _ _ (fun w => count_guiSortingGrid ext _ w),
    count_underHeader _ _ _ (fun w => count_runPanel w _),
    count_underHeader _ _ _ (fun w => count_runPanel w _)]

theorem count_renderGui (ext : Externals) (panels : Panels) (inp : FrameInput) (w : World) :
    (renderGui ext panels inp w).calls.count Call.doCycle = w.calls.count Call.doCycle := by
  dsimp only [renderGui]
  rw [count_invoke_other _ _ _ (by decide)]
  split_ifs
  · rw [count_invoke_other _ _ _ (by decide), count_inGroup, count_inGroup, count_inGroup,
      count_sidePanel]
  · rw [count_invoke_other _ _ _ (by decide), count_sidePanel]
  · rw [count_inGroup, count_inGroup, count_inGroup, count_sidePanel]
  · rw [count_sidePanel]
  · rfl

/-- C10: in every call of `SampleGUI::render`, `doCycle` is invoked exactly once if
`activateParametertesting` or `performAutomaticTraining` is true in the state left by the GUI
handling of the frame, and not at all if both are false; the invocation acts on that state. -/
theorem render_doCycle_once (ext : Externals) (panels : Panels) (inp : FrameInput) (w : World) :
    (render ext panels inp w).calls.count Call.doCycle
        = w.calls.count Call.doCycle
          + (if (renderGui ext panels inp w).se.activateParametertesting
                || (renderGui ext panels inp w).se.performAutomaticTraining then 1 else 0)
      ∧ (render ext panels inp w).se
        = (if (renderGui ext panels inp w).se.activateParametertesting
                || (renderGui ext panels inp w).se.performAutomaticTraining
            then ext.doCycle (renderGui ext panels inp w).se
            else (renderGui ext panels inp w).se) := by
  unfold render
  simp only
  split_ifs with h
  · exact ⟨by rw [count_invoke, count_renderGui]; simp, rfl⟩
  · exact ⟨by rw [count_renderGui]; simp, rfl⟩

/-! ### Delay compensation -/

theorem ringAt_inv (frames : Nat → TrainingTuple × ℚ) (k : Nat) :
    (ringAt frames k).frame = k
      ∧ (ringAt frames k).slots.length = DELAY_FRAMES
      ∧ (∀ g, g < k → k ≤ g + DELAY_FRAMES →
          (ringAt frames k).slots[g % DELAY_FRAMES]? = some (some ⟨g, (frames g).1⟩))
      ∧ (∀ j, k ≤ j → j < DELAY_FRAMES → (ringAt frames k).slots[j]? = some none) := by
  induction k with
  | zero =>
    refine ⟨rfl, by simp [ringAt, DelayRing.empty], fun g hg => absurd hg (Nat.not_lt_zero g), ?_⟩
    intro j _ hj
    simp [ringAt, DelayRing.empty, hj]
  | succ k ih =>
    obtain ⟨hf, hl, hs, hn⟩ := ih
    have hlt : k % DELAY_FRAMES < (ringAt frames k).slots.length := by
      rw [hl]; exact Nat.mod_lt _ (by decide)
    refine ⟨by simp [ringAt, DelayRing.step, hf], by simp [ringAt, DelayRing.step, hl], ?_, ?_⟩
    · intro g hg hk
      simp only [ringAt, DelayRing.step, hf]
      by_cases hgk : g = k
      · subst hgk
        rw [List.getElem?_set_self hlt]
      · have hne : k % DELAY_FRAMES ≠ g % DELAY_FRAMES := by
          unfold DELAY_FRAMES at hk ⊢
          omega
        rw [List.getElem?_set_ne hne]
        exact hs g (by omega) (by omega)
    · intro j hj hj4
      simp only [ringAt, DelayRing.step, hf]
      have hne : k % DELAY_FRAMES ≠ j := by
        unfold DELAY_FRAMES at hj4 ⊢
        omega
      rw [List.getElem?_set_ne hne]
      exact hn j (by omega) hj4

/-- C7: delay compensation. For every sequence of frames and every frame `f ≥ DELAY_FRAMES`,
the timing record that arrives on frame `f` is attributed to the (cell, direction, mode)
tuple selected on frame `f - DELAY_FRAMES`; the entry it is matched with was recorded on that
earlier frame, never on frame `f` itself. -/
theorem attribution_delayed (frames : Nat → TrainingTuple × ℚ) (f : Nat)
    (hf : DELAY_FRAMES ≤ f) :
    attributionAt frames f
        = some ⟨⟨f - DELAY_FRAMES, (frames (f - DELAY_FRAMES)).1⟩, (frames f).2⟩
      ∧ ∀ a, attributionAt frames f = some a → a.entry.frame ≠ f := by
  obtain ⟨hfr, -, hs, -⟩ := ringAt_inv frames f
  have hslot : f % DELAY_FRAMES = (f - DELAY_FRAMES) % DELAY_FRAMES := by
    unfold DELAY_FRAMES at hf ⊢
    omega
  have hpos : 0 < DELAY_FRAMES := by decide
  have key : attributionAt frames f
      = some ⟨⟨f - DELAY_FRAMES, (frames (f - DELAY_FRAMES)).1⟩, (frames f).2⟩ := by
    simp only [attributionAt, DelayRing.step, hfr]
    rw [hslot, hs (f - DELAY_FRAMES) (by omega) (by omega)]
    rfl
  refine ⟨key, ?_⟩
  intro a ha
  rw [key] at ha
  cases ha
  show f - DELAY_FRAMES ≠ f
  omega

/-- Witness for C7: the record of frame 6 goes to the tuple selected on frame 2. -/
theorem attribution_delayed_witness :
    attributionAt sweepFrames 6 = some ⟨⟨2, (sweepFrames 2).1⟩, (sweepFrames 6).2⟩
      ∧ ∀ a, attributionAt sweepFrames 6 = some a → a.entry.frame ≠ 6 :=
  attribution_delayed sweepFrames 6 (by decide)

/-! ### Persistence round trip -/

theorem cubeOfJson_cubeToJson (c : GridCube) : cubeOfJson (cubeToJson c) = some c := by
  cases c
  rfl

theorem mapM_cubeOfJson (cubes : List GridCube) :
    (cubes.map cubeToJson).mapM cubeOfJson = some cubes := by
  induction cubes with
  | nil => rfl
  | cons c cs ih =>
    simp only [List.map_cons, List.mapM_cons, cubeOfJson_cubeToJson, ih]
    rfl

theorem vecOfJson_vecToJson (v : Vec3) : vecOfJson (vecToJson v) = some v := by
  cases v
  rfl

theorem parseGridDocument_SaveSortingGrid (g : SampleExample) :
    parseGridDocument (SaveSortingGrid g)
      = some (g.grid_x, g.grid_y, g.grid_z, g.m_rtxState.SceneMin, g.m_rtxState.SceneMax,
          g.cellCubes) := by
  have h1 : (SaveSortingGrid g).field "grid_x" = some (.int g.grid_x) := rfl
  have h2 : (SaveSortingGrid g).field "grid_y" = some (.int g.grid_y) := rfl
  have h3 : (SaveSortingGrid g).field "grid_z" = some (.int g.grid_z) := rfl
  have h4 : (SaveSortingGrid g).field "sceneMin" = some (vecToJson g.m_rtxState.SceneMin) := rfl
  have h5 : (SaveSortingGrid g).field "sceneMax" = some (vecToJson g.m_rtxState.SceneMax) := rfl
  have h6 : (SaveSortingGrid g).field "bestKeys" = some (.arr (g.cellCubes.map cubeToJson)) := rfl
  simp only [parseGridDocument, h1, h2, h3, h4, h5, h6, Json.asInt, Json.asArr,
    vecOfJson_vecToJson, mapM_cubeOfJson, Option.bind_eq_bind, Option.some_bind, Option.pure_def]

theorem cellCount_le (g : SampleExample)
    (hv : validDimensions g.grid_x g.grid_y g.grid_z = true) : g.cellCount ≤ 10 * 10 * 10 := by
  simp only [validDimensions, MAXGRIDSIZE, Bool.and_eq_true, decide_eq_true_eq] at hv
  obtain ⟨⟨⟨⟨⟨hx1, hx2⟩, hy1⟩, hy2⟩, hz1⟩, hz2⟩ := hv
  have hxy : g.grid_x * g.grid_y ≤ 10 * 10 := mul_le_mul hx2 hy2 (by omega) (by omega)
  have hxyz : g.grid_x * g.grid_y * g.grid_z ≤ 10 * 10 * 10 :=
    mul_le_mul hxy hz2 (by omega) (by omega)
  unfold SampleExample.cellCount
  omega

/-- C6: round trip of persistence. For every grid `g` with valid dimensions (its `bestKeys`
being the array of 10·10·10 entries), trained or partially trained, loading the document that
`SaveSortingGrid` produces for `g`, into a controller `se` of the same scene, succeeds and
gives a grid whose dimensions and per-cell `GridCube` fields equal those of `g`. -/
theorem loadSortingGrid_SaveSortingGrid (g se : SampleExample)
    (hv : validDimensions g.grid_x g.grid_y g.grid_z = true)
    (hk : g.bestKeys.length = 10 * 10 * 10)
    (hmin : se.m_rtxState.SceneMin = g.m_rtxState.SceneMin)
    (hmax : se.m_rtxState.SceneMax = g.m_rtxState.SceneMax) :
    ∃ se', loadSortingGrid se (SaveSortingGrid g) = .ok se'
      ∧ se'.grid_x = g.grid_x ∧ se'.grid_y = g.grid_y ∧ se'.grid_z = g.grid_z
      ∧ se'.cellCubes = g.cellCubes := by
  have hlen : g.cellCubes.length = (g.grid_x * g.grid_y * g.grid_z).toNat := by
    have := cellCount_le g hv
    simp only [SampleExample.cellCubes, List.length_take, hk]
    exact min_eq_left this
  refine ⟨{ se with grid_x := g.grid_x, grid_y := g.grid_y, grid_z := g.grid_z,
                    bestKeys := g.cellCubes ++ se.bestKeys.drop g.cellCubes.length },
    ?_, rfl, rfl, rfl, ?_⟩
  · simp only [loadSortingGrid, parseGridDocument_SaveSortingGrid, hv, hmin, hmax, hlen,
      decide_True, Bool.and_self, if_true]
  · simp only [SampleExample.cellCubes, SampleExample.cellCount]
    rw [← hlen]
    simp [SampleExample.cellCubes, SampleExample.cellCount]

/-- Witness for C6: the partially trained 2 x 2 x 2 controller, loaded into a fresh one. -/
theorem loadSortingGrid_SaveSortingGrid_witness :
    ∃ se', loadSortingGrid {} (SaveSortingGrid partiallyTrained) = .ok se'
      ∧ se'.grid_x = partiallyTrained.grid_x ∧ se'.grid_y = partiallyTrained.grid_y
      ∧ se'.grid_z = partiallyTrained.grid_z
      ∧ se'.cellCubes = partiallyTrained.cellCubes :=
  loadSortingGrid_SaveSortingGrid partiallyTrained {} (by decide)
    (by simp only [partiallyTrained, List.length_cons, List.length_replicate])
    rfl rfl

/-! ### The sorting-grid panel statement by statement -/

theorem guiSortingGrid_world (ext : Externals) (inp : SortingGridInput) (w : World) :
    (guiSortingGrid ext inp w).1
      = bestParametersCheckbox inp (inferenceCheckbox inp (trainingCheckbox ext inp
          (panelBeforeTraining ext inp w))) := rfl

theorem guiSortingGrid_changed (ext : Externals) (inp : SortingGridInput) (w : World) :
    (guiSortingGrid ext inp w).2
      = ((gridDimensionControls ext inp w).2
        || (visualizeControls inp (pipelineControls ext inp
              (learningControls inp (gridDimensionControls ext inp w).1))).2) := rfl

theorem count_invoke_any (w : World) (c c' : Call) (effect : SampleExample → SampleExample) :
    (w.invoke c effect).calls.count c' = w.calls.count c' + (if c = c' then 1 else 0) := by
  simp only [World.invoke, List.count_append, List.count_cons, List.count_nil]
  by_cases h : c = c'
  · simp [h]
  · have : (c == c') = false := by simpa using h
    simp [h, this]

theorem learningControls_keeps {α : Type} (f : SampleExample → α)
    (h1 : ∀ se b, f { se with useConstantGridLearning := b } = f se)
    (h2 : ∀ se v, f { se with constantGridlearningSpeed := v } = f se)
    (inp : SortingGridInput) (w : World) :
    f (learningControls inp w).se = f w.se := by
  have step1 : ∀ se : SampleExample,
      f (if inp.checkboxUseConstant then
          { se with useConstantGridLearning := !se.useConstantGridLearning } else se) = f se := by
    intro se
    split_ifs
    · exact h1 _ _
    · rfl
  have step2 : ∀ se : SampleExample,
      f (if se.useConstantGridLearning then
          (match inp.sliderLearningSpeed with
            | some v => { se with constantGridlearningSpeed := v }
            | none => se)
          else se) = f se := by
    intro se
    split_ifs
    · cases inp.sliderLearningSpeed
      · rfl
      · exact h2 _ _
    · rfl
  exact (step2 _).trans (step1 _)

theorem invoke_keeps {α : Type} (f : SampleExample → α) (c : Call)
    (effect : SampleExample → SampleExample) (h : ∀ se, f (effect se) = f se) (w : World) :
    f (w.invoke c effect).se = f w.se := h w.se

theorem pipelineControls_keeps {α : Type} (f : SampleExample → α) (ext : Externals)
    (hext : ext.Preserves f)
    (h1 : ∀ se b, f { se with rtx := { se.rtx with useAsyncPipelineCreation := b } } = f se)
    (inp : SortingGridInput) (w : World) :
    f (pipelineControls ext inp w).se = f w.se := by
  obtain ⟨-, -, hsave, -, -, -, -, -, hwait, hasync, hnew, -, -⟩ := hext
  have step1 : ∀ w : World,
      f (if inp.checkboxAsync then
          (if (!w.se.rtx.useAsyncPipelineCreation) = true then
            World.invoke { w with se := { w.se with rtx := { w.se.rtx with
              useAsyncPipelineCreation := !w.se.rtx.useAsyncPipelineCreation } } }
              Call.activateAsyncPipelineCreation ext.activateAsyncPipelineCreation
          else { w with se := { w.se with rtx := { w.se.rtx with
              useAsyncPipelineCreation := !w.se.rtx.useAsyncPipelineCreation } } })
        else w).se = f w.se := by
    intro w
    split_ifs
    · exact (hasync _).trans (h1 _ _)
    · exact h1 _ _
    · rfl
  have step2 : ∀ w : World,
      f (if inp.buttonSave then w.invoke Call.SaveSortingGrid ext.SaveSortingGrid else w).se
        = f w.se := by
    intro w
    split_ifs
    · exact hsave _
    · rfl
  have step3 : ∀ w : World,
      f (if inp.buttonNewAsyncPipeline then
          (w.invoke Call.vkDeviceWaitIdle ext.vkDeviceWaitIdle).invoke Call.setNewPipeline
            ext.setNewPipeline
        else w).se = f w.se := by
    intro w
    split_ifs
    · exact (hnew _).trans (hwait _)
    · rfl
  exact ((step3 _).trans (step2 _)).trans (step1 w)

theorem visualizeControls_keeps {α : Type} (f : SampleExample → α)
    (h1 : ∀ se v, f { se with m_rtxState := { se.m_rtxState with VisualizeSortingGrid := v } }
      = f se)
    (h2 : ∀ se v, f { se with m_rtxState := { se.m_rtxState with DisplayCubeSize := v } } = f se)
    (inp : SortingGridInput) (w : World) :
    f (visualizeControls inp w).1.se = f w.se := by
  have step2 : ∀ (w : World) (changed : Bool),
      f (if w.gui.VisualizeSortingGrid then
          (match inp.sliderDisplayCubeSize with
            | some v =>
              (({ w with se := { w.se with m_rtxState := { w.se.m_rtxState with
                  DisplayCubeSize := v } } }, true) : World × Bool)
            | none => (w, changed))
        else (w, changed)).1.se = f w.se := by
    intro w changed
    split_ifs
    · cases inp.sliderDisplayCubeSize
      · rfl
      · exact h2 _ _
    · rfl
  unfold visualizeControls
  cases inp.checkboxVisualize
  · exact step2 w false
  · exact (step2 _ true).trans (h1 _ _)

theorem randomizeButton_keeps {α : Type} (f : SampleExample → α) (ext : Externals)
    (hext : ext.Preserves f)
    (h1 : ∀ se p, f { se with rtx := { se.rtx with m_SERParameters := p } } = f se)
    (inp : SortingGridInput) (w : World) :
    f (randomizeButton ext inp w).se = f w.se := by
  obtain ⟨-, -, -, hcreate, hreload, -, -, -, -, -, -, -, -⟩ := hext
  unfold randomizeButton
  split_ifs
  · exact ((hreload _).trans (h1 _ _)).trans (hcreate _)
  · rfl

theorem trainingCheckbox_keeps {α : Type} (f : SampleExample → α) (ext : Externals)
    (hext : ext.Preserves f)
    (h1 : ∀ se b, f { se with performAutomaticTraining := b } = f se)
    (inp : SortingGridInput) (w : World) :
    f (trainingCheckbox ext inp w).se = f w.se := by
  obtain ⟨-, hbegin, -, -, -, -, -, -, -, -, -, -, -⟩ := hext
  unfold trainingCheckbox
  cases inp.checkboxTraining
  · rfl
  · cases hflag : w.se.performAutomaticTraining
    · simp only [hflag, if_true, Bool.not_false]
      exact (hbegin _).trans (h1 _ _)
    · simp only [hflag, if_true, Bool.not_true]
      exact h1 _ _

theorem inferenceCheckbox_keeps {α : Type} (f : SampleExample → α)
    (h1 : ∀ se b, f { se with activateParametertesting := b } = f se)
    (inp : SortingGridInput) (w : World) :
    f (inferenceCheckbox inp w).se = f w.se := by
  unfold inferenceCheckbox
  split_ifs
  · exact h1 _ _
  · rfl
  · rfl

theorem bestParametersCheckbox_keeps {α : Type} (f : SampleExample → α)
    (h1 : ∀ se b, f { se with useBestParameters := b } = f se)
    (inp : SortingGridInput) (w : World) :
    f (bestParametersCheckbox inp w).se = f w.se := by
  unfold bestParametersCheckbox
  split_ifs
  · exact h1 _ _
  · rfl
  · rfl

/-! ### Grid dimensions in the sorting-grid panel -/

theorem afterGridControls_dimensions (ext : Externals)
    (hext : ext.Preserves SampleExample.dimensions) (inp : SortingGridInput) (w : World) :
    (guiSortingGrid ext inp w).1.se.dimensions
      = (gridDimensionControls ext inp w).1.se.dimensions := by
  rw [guiSortingGrid_world, panelBeforeTraining,
    bestParametersCheckbox_keeps SampleExample.dimensions (fun _ _ => rfl),
    inferenceCheckbox_keeps SampleExample.dimensions (fun _ _ => rfl),
    trainingCheckbox_keeps SampleExample.dimensions ext hext (fun _ _ => rfl),
    randomizeButton_keeps SampleExample.dimensions ext hext (fun _ _ => rfl),
    visualizeControls_keeps SampleExample.dimensions (fun _ _ => rfl) (fun _ _ => rfl),
    pipelineControls_keeps SampleExample.dimensions ext hext (fun _ _ => rfl),
    learningControls_keeps SampleExample.dimensions (fun _ _ => rfl) (fun _ _ => rfl)]

theorem pipelineControls_gui (ext : Externals) (inp : SortingGridInput) (w : World) :
    (pipelineControls ext inp w).gui = w.gui := by
  unfold pipelineControls
  simp only []
  split_ifs <;> rfl

theorem visualizeControls_gui_dimensions (inp : SortingGridInput) (w : World) :
    (visualizeControls inp w).1.gui.dimensions = w.gui.dimensions := by
  unfold visualizeControls
  cases inp.checkboxVisualize <;> cases inp.sliderDisplayCubeSize <;> simp only [] <;>
    split_ifs <;> rfl

theorem randomizeButton_gui (ext : Externals) (inp : SortingGridInput) (w : World) :
    (randomizeButton ext inp w).gui = w.gui := by
  unfold randomizeButton
  split_ifs <;> rfl

theorem trainingCheckbox_gui (ext : Externals) (inp : SortingGridInput) (w : World) :
    (trainingCheckbox ext inp w).gui = w.gui := by
  unfold trainingCheckbox
  simp only []
  split_ifs <;> rfl

theorem inferenceCheckbox_gui (inp : SortingGridInput) (w : World) :
    (inferenceCheckbox inp w).gui = w.gui := by
  unfold inferenceCheckbox
  split_ifs <;> rfl

theorem bestParametersCheckbox_gui (inp : SortingGridInput) (w : World) :
    (bestParametersCheckbox inp w).gui = w.gui := by
  unfold bestParametersCheckbox
  split_ifs <;> rfl

theorem afterGridControls_gui_dimensions (ext : Externals) (inp : SortingGridInput) (w : World) :
    (guiSortingGrid ext inp w).1.gui.dimensions
      = (gridDimensionControls ext inp w).1.gui.dimensions := by
  rw [guiSortingGrid_world, panelBeforeTraining, bestParametersCheckbox_gui,
    inferenceCheckbox_gui, trainingCheckbox_gui, randomizeButton_gui,
    visualizeControls_gui_dimensions, pipelineControls_gui]
  rfl

theorem afterGridControls_count (ext : Externals) (inp : SortingGridInput) (w : World) :
    (guiSortingGrid ext inp w).1.calls.count Call.buildSortingGrid
      = (gridDimensionControls ext inp w).1.calls.count Call.buildSortingGrid := by
  have hpipe : ∀ w : World, (pipelineControls ext inp w).calls.count Call.buildSortingGrid
      = w.calls.count Call.buildSortingGrid := by
    intro w
    unfold pipelineControls
    simp only []
    split_ifs <;> simp [count_invoke_any]
  have hviz : ∀ w : World, (visualizeControls inp w).1.calls = w.calls := by
    intro w
    unfold visualizeControls
    cases inp.checkboxVisualize <;> cases inp.sliderDisplayCubeSize <;> simp only [] <;>
      split_ifs <;> rfl
  have hrand : ∀ w : World, (randomizeButton ext inp w).calls.count Call.buildSortingGrid
      = w.calls.count Call.buildSortingGrid := by
    intro w
    unfold randomizeButton
    split_ifs
    · simp [count_invoke_any]
    · rfl
  have htrain : ∀ w : World, (trainingCheckbox ext inp w).calls.count Call.buildSortingGrid
      = w.calls.count Call.buildSortingGrid := by
    intro w
    unfold trainingCheckbox
    simp only []
    split_ifs <;> simp [count_invoke_any]
  have hinf : ∀ w : World, (inferenceCheckbox inp w).calls = w.calls := by
    intro w
    unfold inferenceCheckbox
    split_ifs <;> rfl
  have hbest : ∀ w : World, (bestParametersCheckbox inp w).calls = w.calls := by
    intro w
    unfold bestParametersCheckbox
    split_ifs <;> rfl
  rw [guiSortingGrid_world, panelBeforeTraining, hbest, hinf, htrain, hrand, hviz, hpipe]
  rfl

theorem gridSliders_moved (inp : SortingGridInput) (gui : SampleGUI) :
    (gridSliders inp gui).2
      = (inp.sliderGridX.isSome || inp.sliderGridY.isSome || inp.sliderGridZ.isSome) := by
  unfold gridSliders
  cases inp.sliderGridX <;> cases inp.sliderGridY <;> cases inp.sliderGridZ <;> rfl

theorem gridDimensionControls_training (ext : Externals) (inp : SortingGridInput) (w : World)
    (htrain : w.se.performAutomaticTraining = true) (hmoved : (gridSliders inp w.gui).2 = true) :
    gridDimensionControls ext inp w
      = ({ w with gui := { (gridSliders inp w.gui).1 with
            gridX := w.se.grid_x, gridY := w.se.grid_y, gridZ := w.se.grid_z } }, false) := by
  unfold gridDimensionControls
  simp only [hmoved, htrain, if_true, Bool.not_true]
  rfl

theorem gridDimensionControls_build (ext : Externals) (inp : SortingGridInput) (w : World)
    (htrain : w.se.performAutomaticTraining = false) (hmoved : (gridSliders inp w.gui).2 = true) :
    gridDimensionControls ext inp w
      = ({ se := ext.buildSortingGrid { w.se with
              grid_x := (gridSliders inp w.gui).1.gridX,
              grid_y := (gridSliders inp w.gui).1.gridY,
              grid_z := (gridSliders inp w.gui).1.gridZ },
           gui := (gridSliders inp w.gui).1,
           calls := w.calls ++ [Call.buildSortingGrid] }, true) := by
  unfold gridDimensionControls
  simp only [hmoved, htrain, if_true, Bool.not_false]
  rfl

theorem gridDimensionControls_still (ext : Externals) (inp : SortingGridInput) (w : World)
    (hmoved : (gridSliders inp w.gui).2 = false) :
    gridDimensionControls ext inp w = ({ w with gui := (gridSliders inp w.gui).1 }, false) := by
  unfold gridDimensionControls
  simp only [hmoved]
  rfl

theorem inert_preserves {α : Type} (f : SampleExample → α) : Externals.inert.Preserves f :=
  ⟨fun _ => rfl, fun _ => rfl, fun _ => rfl, fun _ => rfl, fun _ => rfl, fun _ => rfl,
    fun _ => rfl, fun _ => rfl, fun _ => rfl, fun _ => rfl, fun _ => rfl, fun _ _ => rfl,
    fun _ _ => rfl⟩

/-- C11: while `performAutomaticTraining` is true the user interface cannot rebuild the grid.
If a grid-dimension slider reports a change, the slider statement of `guiSortingGrid` leaves
the controller as it is, invokes nothing and reports no change; over the whole call
`buildSortingGrid` is not invoked and the shown `gridX`, `gridY`, `gridZ` end up equal to the
dimensions of the controller at entry; and `grid_x`, `grid_y`, `grid_z` keep their values
provided the methods invoked by the other widgets leave them alone. -/
theorem guiSortingGrid_training_keeps_grid (ext : Externals) (inp : SortingGridInput)
    (w : World) (htrain : w.se.performAutomaticTraining = true)
    (hmoved : (inp.sliderGridX.isSome || inp.sliderGridY.isSome || inp.sliderGridZ.isSome)
      = true) :
    (gridDimensionControls ext inp w).1.se = w.se
      ∧ (gridDimensionControls ext inp w).1.calls = w.calls
      ∧ (gridDimensionControls ext inp w).2 = false
      ∧ (guiSortingGrid ext inp w).1.calls.count Call.buildSortingGrid
          = w.calls.count Call.buildSortingGrid
      ∧ (guiSortingGrid ext inp w).1.gui.gridX = w.se.grid_x
      ∧ (guiSortingGrid ext inp w).1.gui.gridY = w.se.grid_y
      ∧ (guiSortingGrid ext inp w).1.gui.gridZ = w.se.grid_z
      ∧ (ext.Preserves SampleExample.dimensions →
          (guiSortingGrid ext inp w).1.se.grid_x = w.se.grid_x
            ∧ (guiSortingGrid ext inp w).1.se.grid_y = w.se.grid_y
            ∧ (guiSortingGrid ext inp w).1.se.grid_z = w.se.grid_z) := by
  have hm : (gridSliders inp w.gui).2 = true := by rw [gridSliders_moved]; exact hmoved
  have hstmt := gridDimensionControls_training ext inp w htrain hm
  have hgui := afterGridControls_gui_dimensions ext inp w
  rw [hstmt] at hgui
  simp only [SampleGUI.dimensions, Prod.mk.injEq] at hgui
  refine ⟨by rw [hstmt], by rw [hstmt], by rw [hstmt], ?_, hgui.1, hgui.2.1, hgui.2.2, ?_⟩
  · rw [afterGridControls_count, hstmt]
  · intro hext
    have hse := afterGridControls_dimensions ext hext inp w
    rw [hstmt] at hse
    simp only [SampleExample.dimensions, Prod.mk.injEq] at hse
    exact hse

/-- Witness for C11: during training the slider "Grid X" is moved to 5; the panel shows
2, 2, 2 again and nothing is rebuilt. -/
theorem guiSortingGrid_training_keeps_grid_witness :
    (gridDimensionControls Externals.inert gridXMoved trainingWorld).1.se = trainingWorld.se
      ∧ (gridDimensionControls Externals.inert gridXMoved trainingWorld).1.calls
          = trainingWorld.calls
      ∧ (gridDimensionControls Externals.inert gridXMoved trainingWorld).2 = false
      ∧ (guiSortingGrid Externals.inert gridXMoved trainingWorld).1.calls.count
            Call.buildSortingGrid
          = trainingWorld.calls.count Call.buildSortingGrid
      ∧ (guiSortingGrid Externals.inert gridXMoved trainingWorld).1.gui.gridX
          = trainingWorld.se.grid_x
      ∧ (guiSortingGrid Externals.inert gridXMoved trainingWorld).1.gui.gridY
          = trainingWorld.se.grid_y
      ∧ (guiSortingGrid Externals.inert gridXMoved trainingWorld).1.gui.gridZ
          = trainingWorld.se.grid_z
      ∧ ((guiSortingGrid Externals.inert gridXMoved trainingWorld).1.se.grid_x
              = trainingWorld.se.grid_x
            ∧ (guiSortingGrid Externals.inert gridXMoved trainingWorld).1.se.grid_y
              = trainingWorld.se.grid_y
            ∧ (guiSortingGrid Externals.inert gridXMoved trainingWorld).1.se.grid_z
              = trainingWorld.se.grid_z) := by
  obtain ⟨h1, h2, h3, h4, h5, h6, h7, h8⟩ :=
    guiSortingGrid_training_keeps_grid Externals.inert gridXMoved trainingWorld rfl rfl
  exact ⟨h1, h2, h3, h4, h5, h6, h7, h8 (inert_preserves _)⟩

/-- C12: when `performAutomaticTraining` is false and a grid-dimension slider reports a
change, the slider statement of `guiSortingGrid` copies the shown `gridX`, `gridY`, `gridZ`
into `grid_x`, `grid_y`, `grid_z`, invokes `buildSortingGrid` on that state, so that the
cells are those that `buildSortingGrid` returns, and sets `changed`; over the whole call
`buildSortingGrid` is invoked exactly once and the result is `changed = true`. -/
theorem guiSortingGrid_rebuilds_grid (ext : Externals) (inp : SortingGridInput) (w : World)
    (htrain : w.se.performAutomaticTraining = false)
    (hmoved : (inp.sliderGridX.isSome || inp.sliderGridY.isSome || inp.sliderGridZ.isSome)
      = true) :
    (gridDimensionControls ext inp w).1.se
        = ext.buildSortingGrid { w.se with
            grid_x := (gridSliders inp w.gui).1.gridX,
            grid_y := (gridSliders inp w.gui).1.gridY,
            grid_z := (gridSliders inp w.gui).1.gridZ }
      ∧ (gridDimensionControls ext inp w).1.gui = (gridSliders inp w.gui).1
      ∧ (gridDimensionControls ext inp w).1.calls = w.calls ++ [Call.buildSortingGrid]
      ∧ (guiSortingGrid ext inp w).1.calls.count Call.buildSortingGrid
          = w.calls.count Call.buildSortingGrid + 1
      ∧ (guiSortingGrid ext inp w).2 = true := by
  have hm : (gridSliders inp w.gui).2 = true := by rw [gridSliders_moved]; exact hmoved
  have hstmt := gridDimensionControls_build ext inp w htrain hm
  refine ⟨by rw [hstmt], by rw [hstmt], by rw [hstmt], ?_, ?_⟩
  · rw [afterGridControls_count, hstmt]
    simp
  · rw [guiSortingGrid_changed, hstmt]
    rfl

/-- Witness for C12: with training off the slider "Grid X" is moved to 5. -/
theorem guiSortingGrid_rebuilds_grid_witness :
    (gridDimensionControls Externals.inert gridXMoved World.initial).1.se
        = Externals.inert.buildSortingGrid { World.initial.se with
            grid_x := (gridSliders gridXMoved World.initial.gui).1.gridX,
            grid_y := (gridSliders gridXMoved World.initial.gui).1.gridY,
            grid_z := (gridSliders gridXMoved World.initial.gui).1.gridZ }
      ∧ (gridDimensionControls Externals.inert gridXMoved World.initial).1.gui
          = (gridSliders gridXMoved World.initial.gui).1
      ∧ (gridDimensionControls Externals.inert gridXMoved World.initial).1.calls
          = World.initial.calls ++ [Call.buildSortingGrid]
      ∧ (guiSortingGrid Externals.inert gridXMoved World.initial).1.calls.count
            Call.buildSortingGrid
          = World.initial.calls.count Call.buildSortingGrid + 1
      ∧ (guiSortingGrid Externals.inert gridXMoved World.initial).2 = true :=
  guiSortingGrid_rebuilds_grid Externals.inert gridXMoved World.initial rfl rfl

/-! ### Range of the grid dimensions -/

theorem validDimensions_iff (x y z : Int) :
    validDimensions x y z = true
      ↔ (1 ≤ x ∧ x ≤ 10) ∧ (1 ≤ y ∧ y ≤ 10) ∧ (1 ≤ z ∧ z ≤ 10) := by
  simp only [validDimensions, MAXGRIDSIZE, Bool.and_eq_true, decide_eq_true_eq]
  tauto

theorem gridSliders_valid (inp : SortingGridInput) (gui : SampleGUI)
    (hin : inp.slidersInRange)
    (hgui : validDimensions gui.gridX gui.gridY gui.gridZ = true) :
    validDimensions (gridSliders inp gui).1.gridX (gridSliders inp gui).1.gridY
      (gridSliders inp gui).1.gridZ = true := by
  obtain ⟨hx, hy, hz, -, -⟩ := hin
  rw [validDimensions_iff] at hgui ⊢
  unfold gridSliders
  unfold MAXGRIDSIZE at hz
  cases hsx : inp.sliderGridX with
  | some v => exact ⟨hx v hsx, hgui.2.1, hgui.2.2⟩
  | none =>
    cases hsy : inp.sliderGridY with
    | some v => exact ⟨hgui.1, hy v hsy, hgui.2.2⟩
    | none =>
      cases hsz : inp.sliderGridZ with
      | some v => exact ⟨hgui.1, hgui.2.1, hz v hsz⟩
      | none => exact hgui

theorem gridDimensionControls_valid (ext : Externals)
    (hext : ext.Preserves SampleExample.dimensions) (inp : SortingGridInput) (w : World)
    (hin : inp.slidersInRange)
    (hse : validDimensions w.se.grid_x w.se.grid_y w.se.grid_z = true)
    (hgui : validDimensions w.gui.gridX w.gui.gridY w.gui.gridZ = true) :
    validDimensions (gridDimensionControls ext inp w).1.se.grid_x
        (gridDimensionControls ext inp w).1.se.grid_y
        (gridDimensionControls ext inp w).1.se.grid_z = true
      ∧ validDimensions (gridDimensionControls ext inp w).1.gui.gridX
        (gridDimensionControls ext inp w).1.gui.gridY
        (gridDimensionControls ext inp w).1.gui.gridZ = true := by
  have hs := gridSliders_valid inp w.gui hin hgui
  cases hm : (gridSliders inp w.gui).2
  · rw [gridDimensionControls_still ext inp w hm]
    exact ⟨hse, hs⟩
  · cases ht : w.se.performAutomaticTraining
    · rw [gridDimensionControls_build ext inp w ht hm]
      have hb := hext.1 { w.se with
        grid_x := (gridSliders inp w.gui).1.gridX,
        grid_y := (gridSliders inp w.gui).1.gridY,
        grid_z := (gridSliders inp w.gui).1.gridZ }
      simp only [SampleExample.dimensions, Prod.mk.injEq] at hb
      refine ⟨?_, hs⟩
      show validDimensions (ext.buildSortingGrid _).grid_x (ext.buildSortingGrid _).grid_y
        (ext.buildSortingGrid _).grid_z = true
      rw [hb.1, hb.2.1, hb.2.2]
      exact hs
    · rw [gridDimensionControls_training ext inp w ht hm]
      exact ⟨hse, hse⟩

theorem reachable_valid (ext : Externals) (hext : ext.Preserves SampleExample.dimensions)
    (w : World) (hw : Reachable ext w) :
    validDimensions w.se.grid_x w.se.grid_y w.se.grid_z = true
      ∧ validDimensions w.gui.gridX w.gui.gridY w.gui.gridZ = true := by
  induction hw with
  | initial => exact ⟨by decide, by decide⟩
  | frame w inp _ hin ih =>
    have h := gridDimensionControls_valid ext hext inp w hin ih.1 ih.2
    have hse := afterGridControls_dimensions ext hext inp w
    have hgui := afterGridControls_gui_dimensions ext inp w
    simp only [SampleExample.dimensions, SampleGUI.dimensions, Prod.mk.injEq] at hse hgui
    rw [hse.1, hse.2.1, hse.2.2, hgui.1, hgui.2.1, hgui.2.2]
    exact h

/-- C13: starting from the initial 2 x 2 x 2 grid, with every slider reporting a value inside
its range and `grid_x`, `grid_y`, `grid_z` changed by no invoked method, in every reachable
state the dimensions of the controller and the shown dimensions satisfy
`1 ≤ d ≤ MAXGRIDSIZE` on each axis, and so does every triple that the slider statement of
`guiSortingGrid` stores in `grid_x`, `grid_y`, `grid_z` and passes to `buildSortingGrid`. -/
theorem stored_dimensions_valid (ext : Externals)
    (hext : ext.Preserves SampleExample.dimensions) (w : World) (hw : Reachable ext w)
    (inp : SortingGridInput) (hin : inp.slidersInRange) :
    validDimensions w.se.grid_x w.se.grid_y w.se.grid_z = true
      ∧ validDimensions w.gui.gridX w.gui.gridY w.gui.gridZ = true
      ∧ (∀ x y z, storedDimensions inp w = some (x, y, z) →
          (1 ≤ x ∧ x ≤ MAXGRIDSIZE) ∧ (1 ≤ y ∧ y ≤ MAXGRIDSIZE) ∧ (1 ≤ z ∧ z ≤ MAXGRIDSIZE)
            ∧ (gridDimensionControls ext inp w).1.se
                = ext.buildSortingGrid { w.se with grid_x := x, grid_y := y, grid_z := z })
      ∧ (storedDimensions inp w = none →
          (gridDimensionControls ext inp w).1.se = w.se
            ∧ (gridDimensionControls ext inp w).1.calls = w.calls) := by
  obtain ⟨hse, hgui⟩ := reachable_valid ext hext w hw
  have hs := (validDimensions_iff _ _ _).mp (gridSliders_valid inp w.gui hin hgui)
  refine ⟨hse, hgui, ?_, ?_⟩
  · intro x y z hst
    unfold storedDimensions at hst
    split_ifs at hst with hc
    simp only [SampleGUI.dimensions, Option.some.injEq, Prod.mk.injEq] at hst
    obtain ⟨rfl, rfl, rfl⟩ := hst
    simp only [Bool.and_eq_true, Bool.not_eq_true'] at hc
    rw [gridDimensionControls_build ext inp w hc.2 hc.1]
    exact ⟨hs.1, hs.2.1, hs.2.2, rfl⟩
  · intro hst
    unfold storedDimensions at hst
    split_ifs at hst with hc
    cases hm : (gridSliders inp w.gui).2
    · rw [gridDimensionControls_still ext inp w hm]
      exact ⟨rfl, rfl⟩
    · have ht : w.se.performAutomaticTraining = true := by
        cases h : w.se.performAutomaticTraining
        · exact absurd (by simp [hm, h]) hc
        · rfl
      rw [gridDimensionControls_training ext inp w ht hm]
      exact ⟨rfl, rfl⟩

theorem gridXMoved_inRange : gridXMoved.slidersInRange := by
  refine ⟨?_, ?_, ?_, ?_, ?_⟩ <;> intro v hv <;> simp [gridXMoved] at hv
  subst hv
  decide

/-- Witness for C13: from the initial state the slider "Grid X" is moved to 5; the triple
stored and passed to `buildSortingGrid` is `(5, 2, 2)`. -/
theorem stored_dimensions_valid_witness :
    storedDimensions gridXMoved World.initial = some (5, 2, 2)
      ∧ validDimensions World.initial.se.grid_x World.initial.se.grid_y
          World.initial.se.grid_z = true
      ∧ validDimensions World.initial.gui.gridX World.initial.gui.gridY
          World.initial.gui.gridZ = true
      ∧ (∀ x y z, storedDimensions gridXMoved World.initial = some (x, y, z) →
          (1 ≤ x ∧ x ≤ MAXGRIDSIZE) ∧ (1 ≤ y ∧ y ≤ MAXGRIDSIZE) ∧ (1 ≤ z ∧ z ≤ MAXGRIDSIZE)
            ∧ (gridDimensionControls Externals.inert gridXMoved World.initial).1.se
                = Externals.inert.buildSortingGrid { World.initial.se with
                    grid_x := x, grid_y := y, grid_z := z })
      ∧ (storedDimensions gridXMoved World.initial = none →
          (gridDimensionControls Externals.inert gridXMoved World.initial).1.se
              = World.initial.se
            ∧ (gridDimensionControls Externals.inert gridXMoved World.initial).1.calls
              = World.initial.calls) :=
  ⟨rfl, stored_dimensions_valid Externals.inert (inert_preserves _) World.initial
    Reachable.initial gridXMoved gridXMoved_inRange⟩

/-! ### The profiler panel -/

/-- C14: for every `TimingData` record, each of the eleven averages that `guiProfiler`
computes (full, frame, and the nine per-mode times) is `time / max(threads, 1)` in integer
division. The divisor is never zero, the quotient does not exceed the time, and for a thread
count of 0 the result is the raw time. -/
theorem profilerAverages_guarded (d : TimingData) :
    profilerAverages d
        = [d.full_time / max d.full_time_threads 1,
           d.frameTime / max d.frameTimeThreads 1,
           d.noSortTime / max d.noSortThreads 1,
           d.hitObjectTime / max d.hitObjectThreads 1,
           d.originTime / max d.originThreads 1,
           d.reisTime / max d.reisThreads 1,
           d.costaTime / max d.costaThreads 1,
           d.ailaTime / max d.ailaThreads 1,
           d.twoPointTime / max d.twoPointThreads 1,
           d.endPointEstTime / max d.endPointEstThreads 1,
           d.endEstAdaptiveTime / max d.endEstAdaptiveThreads 1]
      ∧ (∀ (info : TimerInfo) (se : SampleExample) (gui : SampleGUI) (out : SampleGUI × ProfilerDisplay),
          guiProfiler info se gui = some out →
            out.2.averages = profilerAverages se.latest_timeData)
      ∧ (∀ time threads : Nat,
          max threads 1 ≠ 0
            ∧ average time threads = time / max threads 1
            ∧ average time threads ≤ time
            ∧ (time < 2 ^ 64 → average time threads < 2 ^ 64)
            ∧ average time 0 = time) := by
  refine ⟨rfl, ?_, ?_⟩
  · intro info se gui out h
    simp only [guiProfiler, Option.bind_eq_bind, Option.pure_def, Option.bind_eq_some,
      Option.some.injEq] at h
    obtain ⟨_, _, _, _, _, _, rfl⟩ := h
    rfl
  · intro time threads
    have hpos : 0 < max threads 1 := lt_of_lt_of_le Nat.zero_lt_one (le_max_right _ _)
    have hle : average time threads ≤ time := Nat.div_le_self _ _
    refine ⟨hpos.ne', rfl, hle, fun h => lt_of_le_of_lt hle h, ?_⟩
    simp [average]

/-- Witness for C14: on frame 5, 900 time units with thread count 0 give 900, and 1000 time
units on 32 threads give 31. -/
theorem profilerAverages_guarded_witness :
    (∃ out, guiProfiler {} profiledController {} = some out
        ∧ out.2.averages = [900, 31, 0, 0, 0, 0, 0, 0, 0, 0, 0])
      ∧ average 900 0 = 900 := by
  obtain ⟨-, hrun, havg⟩ := profilerAverages_guarded profiledController.latest_timeData
  refine ⟨⟨_, rfl, ?_⟩, (havg 900 0).2.2.2.2⟩
  rw [hrun {} profiledController {} _ rfl]
  decide

/-! ### Slot of the frame history -/

/-- Counterexample for C20: on frame 4 `guiProfiler` writes slot 4, which is neither
`4 mod DELAY_FRAMES = 0` nor below `DELAY_FRAMES`. -/
theorem profilerWriteIndex_not_mod_delay :
    ¬ (profilerWriteIndex 4 = 4 % (DELAY_FRAMES : Int)
        ∧ profilerWriteIndex 4 < (DELAY_FRAMES : Int)) := by
  decide

/-- C20, amended: the slot used to record a frame is the frame counter modulo 5, which is
`DELAY_FRAMES + 1`: for every frame `f ≥ 0` the slot index written by `guiProfiler` equals
`f mod 5` and lies in `0 .. DELAY_FRAMES`; and whenever `guiProfiler` completes, the frame is
found in that slot of `stored_frames`. -/
theorem profilerWriteIndex_mod_five (f : Int) (hf : 0 ≤ f) :
    profilerWriteIndex f = f % 5
      ∧ (5 : Int) = DELAY_FRAMES + 1
      ∧ 0 ≤ profilerWriteIndex f
      ∧ profilerWriteIndex f ≤ DELAY_FRAMES
      ∧ ∀ (info : TimerInfo) (se : SampleExample) (gui : SampleGUI)
          (out : SampleGUI × ProfilerDisplay),
          se.m_rtxState.frame = f → guiProfiler info se gui = some out →
            out.1.stored_frames = gui.stored_frames.set (profilerWriteIndex f).toNat f := by
  have hmod : profilerWriteIndex f = f % 5 := Int.tmod_eq_emod hf (by norm_num)
  refine ⟨hmod, rfl, ?_, ?_, ?_⟩
  · rw [hmod]; omega
  · rw [hmod]; unfold DELAY_FRAMES; omega
  · intro info se gui out hframe h
    simp only [guiProfiler, Option.bind_eq_bind, Option.pure_def, Option.bind_eq_some,
      Option.some.injEq] at h
    obtain ⟨frames, hfr, _, _, _, _, rfl⟩ := h
    unfold arrayStore at hfr
    split_ifs at hfr
    simp only [Option.some.injEq] at hfr
    rw [← hfr, hframe]

/-- Witness for C20, amended: frame 5 is recorded in slot 0, and `guiProfiler` leaves
`stored_frames = [5, 0, 0, 0]`. -/
theorem profilerWriteIndex_mod_five_witness :
    profilerWriteIndex 5 = 0
      ∧ ∃ out, guiProfiler {} profiledController {} = some out
          ∧ out.1.stored_frames = [5, 0, 0, 0] := by
  obtain ⟨h1, -, -, -, hrun⟩ := profilerWriteIndex_mod_five 5 (by decide)
  refine ⟨h1, _, rfl, ?_⟩
  rw [hrun {} profiledController {} _ rfl rfl]
  rfl

/-! ### The checkbox "perform automatic training" -/

theorem afterTraining_calls (inp : SortingGridInput) (w : World) :
    (bestParametersCheckbox inp (inferenceCheckbox inp w)).calls = w.calls := by
  have hinf : (inferenceCheckbox inp w).calls = w.calls := by
    unfold inferenceCheckbox
    split_ifs <;> rfl
  have hbest : ∀ w : World, (bestParametersCheckbox inp w).calls = w.calls := by
    intro w
    unfold bestParametersCheckbox
    split_ifs <;> rfl
  rw [hbest, hinf]

theorem panelBeforeTraining_count (ext : Externals) (inp : SortingGridInput) (w : World) :
    (panelBeforeTraining ext inp w).calls.count Call.beginSortingGridTraining
      = w.calls.count Call.beginSortingGridTraining := by
  have hgrid : (gridDimensionControls ext inp w).1.calls.count Call.beginSortingGridTraining
      = w.calls.count Call.beginSortingGridTraining := by
    unfold gridDimensionControls
    simp only
    split_ifs <;> simp [count_invoke_any]
  have hpipe : ∀ w : World,
      (pipelineControls ext inp w).calls.count Call.beginSortingGridTraining
        = w.calls.count Call.beginSortingGridTraining := by
    intro w
    unfold pipelineControls
    simp only []
    split_ifs <;> simp [count_invoke_any]
  have hviz : ∀ w : World, (visualizeControls inp w).1.calls = w.calls := by
    intro w
    unfold visualizeControls
    cases inp.checkboxVisualize <;> cases inp.sliderDisplayCubeSize <;> simp only [] <;>
      split_ifs <;> rfl
  have hrand : ∀ w : World,
      (randomizeButton ext inp w).calls.count Call.beginSortingGridTraining
        = w.calls.count Call.beginSortingGridTraining := by
    intro w
    unfold randomizeButton
    split_ifs
    · simp [count_invoke_any]
    · rfl
  rw [panelBeforeTraining, hrand, hviz, hpipe]
  exact hgrid

theorem trainingCheckbox_eq (ext : Externals) (inp : SortingGridInput) (w : World) :
    trainingCheckbox ext inp w
      = if inp.checkboxTraining then
          (if w.se.performAutomaticTraining then
            { w with se := { w.se with performAutomaticTraining := false } }
          else
            { se := ext.beginSortingGridTraining { w.se with performAutomaticTraining := true }
              gui := w.gui
              calls := w.calls ++ [Call.beginSortingGridTraining] })
        else w := by
  unfold trainingCheckbox
  cases inp.checkboxTraining
  · rfl
  · cases h : w.se.performAutomaticTraining <;> simp [h, World.invoke]

/-- C15: `guiSortingGrid` calls `beginSortingGridTraining` in a frame exactly when the
checkbox "perform automatic training" changes `performAutomaticTraining` in that frame and
the new value is true, that is, when the checkbox is toggled while the flag is false. It is
called at most once per frame, and on a state in which `performAutomaticTraining` is true. -/
theorem beginSortingGridTraining_called (ext : Externals) (inp : SortingGridInput) (w : World) :
    (guiSortingGrid ext inp w).1
        = bestParametersCheckbox inp (inferenceCheckbox inp
            (trainingCheckbox ext inp (panelBeforeTraining ext inp w)))
      ∧ (guiSortingGrid ext inp w).1.calls.count Call.beginSortingGridTraining
        = w.calls.count Call.beginSortingGridTraining
          + (if inp.checkboxTraining
                && !(panelBeforeTraining ext inp w).se.performAutomaticTraining then 1 else 0)
      ∧ (∀ v : World, trainingCheckbox ext inp v
          = if inp.checkboxTraining then
              (if v.se.performAutomaticTraining then
                { v with se := { v.se with performAutomaticTraining := false } }
              else
                { se := ext.beginSortingGridTraining
                    { v.se with performAutomaticTraining := true }
                  gui := v.gui
                  calls := v.calls ++ [Call.beginSortingGridTraining] })
            else v) := by
  refine ⟨rfl, ?_, trainingCheckbox_eq ext inp⟩
  rw [guiSortingGrid_world, afterTraining_calls, trainingCheckbox_eq,
    ← panelBeforeTraining_count ext inp w]
  cases inp.checkboxTraining
  · simp
  · cases (panelBeforeTraining ext inp w).se.performAutomaticTraining <;> simp

/-- C16: stopping training needs no rollback. When the checkbox switches
`performAutomaticTraining` from true to false, its handler changes nothing else: no method is
invoked, the members of the user interface stay, and every other member of the controller
(grid dimensions, grid cells, `bestKeys`, `bestSortMode`, learning settings, the other
flags) keeps its value. -/
theorem trainingCheckbox_stop (ext : Externals) (inp : SortingGridInput) (w : World)
    (hbox : inp.checkboxTraining = true) (htrain : w.se.performAutomaticTraining = true) :
    trainingCheckbox ext inp w
        = { w with se := { w.se with performAutomaticTraining := false } }
      ∧ (trainingCheckbox ext inp w).calls = w.calls
      ∧ (trainingCheckbox ext inp w).gui = w.gui
      ∧ (trainingCheckbox ext inp w).se.performAutomaticTraining = false
      ∧ (trainingCheckbox ext inp w).se.dimensions = w.se.dimensions
      ∧ (trainingCheckbox ext inp w).se.sortingGrid = w.se.sortingGrid
      ∧ (trainingCheckbox ext inp w).se.bestKeys = w.se.bestKeys
      ∧ (trainingCheckbox ext inp w).se.bestSortMode = w.se.bestSortMode
      ∧ (trainingCheckbox ext inp w).se.useConstantGridLearning = w.se.useConstantGridLearning
      ∧ (trainingCheckbox ext inp w).se.constantGridlearningSpeed
          = w.se.constantGridlearningSpeed
      ∧ (trainingCheckbox ext inp w).se.activateParametertesting
          = w.se.activateParametertesting
      ∧ (trainingCheckbox ext inp w).se.useBestParameters = w.se.useBestParameters := by
  have h : trainingCheckbox ext inp w
      = { w with se := { w.se with performAutomaticTraining := false } } := by
    rw [trainingCheckbox_eq, hbox, htrain]
    rfl
  rw [h]
  exact ⟨rfl, rfl, rfl, rfl, rfl, rfl, rfl, rfl, rfl, rfl, rfl, rfl⟩

/-- Witness for C16: the checkbox is toggled while training is on. -/
theorem trainingCheckbox_stop_witness :
    trainingCheckbox Externals.inert trainingToggled trainingWorld = World.initial
      ∧ (trainingCheckbox Externals.inert trainingToggled trainingWorld).calls = [] := by
  obtain ⟨h, hcalls, -⟩ :=
    trainingCheckbox_stop Externals.inert trainingToggled trainingWorld rfl rfl
  exact ⟨h.trans rfl, hcalls.trans rfl⟩

/-! ### The mode flags -/

theorem gridDimensionControls_keeps {α : Type} (f : SampleExample → α) (ext : Externals)
    (hext : ext.Preserves f)
    (h1 : ∀ se x y z, f { se with grid_x := x, grid_y := y, grid_z := z } = f se)
    (inp : SortingGridInput) (w : World) :
    f (gridDimensionControls ext inp w).1.se = f w.se := by
  cases hm : (gridSliders inp w.gui).2
  · rw [gridDimensionControls_still ext inp w hm]
  · cases ht : w.se.performAutomaticTraining
    · rw [gridDimensionControls_build ext inp w ht hm]
      exact (hext.1 _).trans (h1 _ _ _ _)
    · rw [gridDimensionControls_training ext inp w ht hm]

theorem panelBeforeTraining_flags (ext : Externals) (hext : ext.Preserves SampleExample.flags)
    (inp : SortingGridInput) (w : World) :
    (panelBeforeTraining ext inp w).se.flags = w.se.flags := by
  rw [panelBeforeTraining,
    randomizeButton_keeps SampleExample.flags ext hext (fun _ _ => rfl),
    visualizeControls_keeps SampleExample.flags (fun _ _ => rfl) (fun _ _ => rfl),
    pipelineControls_keeps SampleExample.flags ext hext (fun _ _ => rfl),
    learningControls_keeps SampleExample.flags (fun _ _ => rfl) (fun _ _ => rfl),
    gridDimensionControls_keeps SampleExample.flags ext hext (fun _ _ _ _ => rfl)]

theorem trainingCheckbox_flags (ext : Externals) (hext : ext.Preserves SampleExample.flags)
    (inp : SortingGridInput) (w : World) :
    (trainingCheckbox ext inp w).se.flags
      = (if inp.checkboxTraining then !w.se.performAutomaticTraining
          else w.se.performAutomaticTraining,
         w.se.activateParametertesting, w.se.useBestParameters) := by
  rw [trainingCheckbox_eq]
  cases inp.checkboxTraining
  · rfl
  · cases ht : w.se.performAutomaticTraining
    · simp only [if_true, Bool.false_eq_true, if_false, Bool.not_false]
      exact hext.2.1 _
    · simp [SampleExample.flags]

theorem inferenceCheckbox_flags (inp : SortingGridInput) (w : World) :
    (inferenceCheckbox inp w).se.flags
      = (w.se.performAutomaticTraining,
         if !w.se.performAutomaticTraining && inp.checkboxInference then
           !w.se.activateParametertesting
         else w.se.activateParametertesting,
         w.se.useBestParameters) := by
  unfold inferenceCheckbox
  cases ht : w.se.performAutomaticTraining <;> cases hc : inp.checkboxInference <;>
    simp [SampleExample.flags, ht]

theorem bestParametersCheckbox_flags (inp : SortingGridInput) (w : World) :
    (bestParametersCheckbox inp w).se.flags
      = (w.se.performAutomaticTraining, w.se.activateParametertesting,
         if !(w.se.activateParametertesting || w.se.performAutomaticTraining)
             && inp.checkboxUseBest then
           !w.se.useBestParameters
         else w.se.useBestParameters) := by
  unfold bestParametersCheckbox
  cases ht : w.se.performAutomaticTraining <;> cases hi : w.se.activateParametertesting <;>
    cases hc : inp.checkboxUseBest <;> simp [SampleExample.flags, ht, hi]

theorem checkboxes_flags (ext : Externals) (hext : ext.Preserves SampleExample.flags)
    (inp : SortingGridInput) (w : World) :
    (bestParametersCheckbox inp (inferenceCheckbox inp (trainingCheckbox ext inp w))).se.flags
      = (let t := if inp.checkboxTraining then !w.se.performAutomaticTraining
                  else w.se.performAutomaticTraining
         let i := if !t && inp.checkboxInference then !w.se.activateParametertesting
                  else w.se.activateParametertesting
         let u := if !(i || t) && inp.checkboxUseBest then !w.se.useBestParameters
                  else w.se.useBestParameters
         (t, i, u)) := by
  have h1 := trainingCheckbox_flags ext hext inp w
  have h2 := inferenceCheckbox_flags inp (trainingCheckbox ext inp w)
  have h3 := bestParametersCheckbox_flags inp (inferenceCheckbox inp (trainingCheckbox ext inp w))
  simp only [SampleExample.flags, Prod.mk.injEq] at h1 h2 h3
  obtain ⟨a1, a2, a3⟩ := h1
  obtain ⟨b1, b2, b3⟩ := h2
  obtain ⟨c1, c2, c3⟩ := h3
  simp only [SampleExample.flags, c1, c2, c3, b1, b2, b3, a1, a2, a3]

theorem twoModes_reachable : Reachable Externals.inert twoModes := by
  have hin : ∀ inp : SortingGridInput, inp.sliderGridX = none → inp.sliderGridY = none →
      inp.sliderGridZ = none → inp.sliderLearningSpeed = none →
      inp.sliderDisplayCubeSize = none → inp.slidersInRange := by
    intro inp h1 h2 h3 h4 h5
    refine ⟨?_, ?_, ?_, ?_, ?_⟩ <;> intro v hv <;> simp_all
  exact Reachable.frame _ _ (Reachable.frame _ _ Reachable.initial (hin _ rfl rfl rfl rfl rfl))
    (hin _ rfl rfl rfl rfl rfl)

/-- Counterexample for C17: from the initial state, ticking "always use best Parameters
found" in one frame and "activate Inference" in the next reaches a state in which
`activateParametertesting` and `useBestParameters` are both true; no method was invoked on
the way, so the state does not depend on the absent method bodies. -/
theorem modes_not_exclusive :
    Reachable Externals.inert twoModes
      ∧ twoModes.calls = []
      ∧ twoModes.se.activateParametertesting = true
      ∧ twoModes.se.useBestParameters = true
      ∧ ¬ twoModes.se.activeModes ≤ 1 :=
  ⟨twoModes_reachable, by decide, by decide, by decide, by decide⟩

/-- C17, amended: in every call of `guiSortingGrid` at most one of
`performAutomaticTraining`, `activateParametertesting` and `useBestParameters` is switched
from false to true, and a call that starts with all three false ends with at most one true,
provided the invoked methods leave the flags alone. -/
theorem modes_switched_on_once (ext : Externals) (hext : ext.Preserves SampleExample.flags)
    (inp : SortingGridInput) (w : World) :
    switchedOn w.se (guiSortingGrid ext inp w).1.se ≤ 1
      ∧ (w.se.activeModes = 0 → (guiSortingGrid ext inp w).1.se.activeModes ≤ 1) := by
  have hflags := checkboxes_flags ext hext inp (panelBeforeTraining ext inp w)
  rw [← guiSortingGrid_world] at hflags
  have hpre := panelBeforeTraining_flags ext hext inp w
  simp only [SampleExample.flags, Prod.mk.injEq] at hflags hpre
  obtain ⟨hp1, hp2, hp3⟩ := hpre
  rw [hp1, hp2, hp3] at hflags
  obtain ⟨h1, h2, h3⟩ := hflags
  simp only [switchedOn, SampleExample.activeModes, h1, h2, h3]
  cases inp.checkboxTraining <;> cases inp.checkboxInference <;>
    cases inp.checkboxUseBest <;> cases w.se.performAutomaticTraining <;>
    cases w.se.activateParametertesting <;> cases w.se.useBestParameters <;> decide

/-- Witness for C17, amended: ticking "activate Inference" in the state where
`useBestParameters` is already set switches one flag on and leaves two set. -/
theorem modes_switched_on_once_witness :
    switchedOn (guiSortingGrid Externals.inert bestToggled World.initial).1.se twoModes.se = 1
      ∧ twoModes.se.activeModes = 2
      ∧ switchedOn (guiSortingGrid Externals.inert bestToggled World.initial).1.se
          twoModes.se ≤ 1 :=
  ⟨by decide, by decide,
    (modes_switched_on_once Externals.inert (inert_preserves _) inferenceToggled
      (guiSortingGrid Externals.inert bestToggled World.initial).1).1⟩

/-! ### The constant learning speed -/

theorem speedToMaximum_inRange : speedToMaximum.slidersInRange := by
  refine ⟨?_, ?_, ?_, ?_, ?_⟩ <;> intro v hv <;> simp [speedToMaximum] at hv
  subst hv
  norm_num

theorem learningControls_speed (inp : SortingGridInput) (w : World) :
    (learningControls inp w).se.constantGridlearningSpeed = w.se.constantGridlearningSpeed
      ∨ inp.sliderLearningSpeed = some (learningControls inp w).se.constantGridlearningSpeed := by
  unfold learningControls
  cases inp.checkboxUseConstant <;> cases inp.sliderLearningSpeed <;> simp only [] <;>
    split_ifs <;> simp

theorem guiSortingGrid_speed (ext : Externals)
    (hext : ext.Preserves (fun se => se.constantGridlearningSpeed))
    (inp : SortingGridInput) (w : World) :
    (guiSortingGrid ext inp w).1.se.constantGridlearningSpeed = w.se.constantGridlearningSpeed
      ∨ inp.sliderLearningSpeed
          = some (guiSortingGrid ext inp w).1.se.constantGridlearningSpeed := by
  have hafter : (guiSortingGrid ext inp w).1.se.constantGridlearningSpeed
      = (learningControls inp (gridDimensionControls ext inp w).1).se.constantGridlearningSpeed := by
    rw [guiSortingGrid_world, panelBeforeTraining]
    exact (bestParametersCheckbox_keeps (fun se => se.constantGridlearningSpeed)
        (fun _ _ => rfl) inp _).trans
      ((inferenceCheckbox_keeps (fun se => se.constantGridlearningSpeed)
        (fun _ _ => rfl) inp _).trans
      ((trainingCheckbox_keeps (fun se => se.constantGridlearningSpeed) ext hext
        (fun _ _ => rfl) inp _).trans
      ((randomizeButton_keeps (fun se => se.constantGridlearningSpeed) ext hext
        (fun _ _ => rfl) inp _).trans
      ((visualizeControls_keeps (fun se => se.constantGridlearningSpeed)
        (fun _ _ => rfl) (fun _ _ => rfl) inp _).trans
      (pipelineControls_keeps (fun se => se.constantGridlearningSpeed) ext hext
        (fun _ _ => rfl) inp _)))))
  have hbefore : (gridDimensionControls ext inp w).1.se.constantGridlearningSpeed
      = w.se.constantGridlearningSpeed :=
    gridDimensionControls_keeps (fun se => se.constantGridlearningSpeed) ext hext
      (fun _ _ _ _ => rfl) inp w
  rw [hafter, ← hbefore]
  exact learningControls_speed inp _

/-- Counterexample for C18: moving the slider "Constant Learning Speed" to its maximum 1.0,
a value inside its range, makes `constantGridlearningSpeed` equal to 1, which is not below
1. -/
theorem learning_speed_reaches_one :
    Reachable Externals.inert (guiSortingGrid Externals.inert speedToMaximum World.initial).1
      ∧ (guiSortingGrid Externals.inert speedToMaximum
          World.initial).1.se.constantGridlearningSpeed = 1
      ∧ ¬ ((guiSortingGrid Externals.inert speedToMaximum
          World.initial).1.se.constantGridlearningSpeed < 1) := by
  have h : (guiSortingGrid Externals.inert speedToMaximum
      World.initial).1.se.constantGridlearningSpeed = 1 := rfl
  exact ⟨Reachable.frame _ _ Reachable.initial speedToMaximum_inRange, h, by rw [h]; norm_num⟩

/-- C18, amended: every value of `constantGridlearningSpeed` that can be reached through the
user interface (the default 0.2 and any value set by the slider "Constant Learning Speed")
lies in the closed interval from 0 to 1: `0 ≤ speed ≤ 1`. The invoked methods are assumed to
leave the speed alone. -/
theorem learning_speed_range (ext : Externals)
    (hext : ext.Preserves (fun se => se.constantGridlearningSpeed)) (w : World)
    (hw : Reachable ext w) :
    0 ≤ w.se.constantGridlearningSpeed ∧ w.se.constantGridlearningSpeed ≤ 1 := by
  induction hw with
  | initial =>
    show (0 : ℚ) ≤ 1 / 5 ∧ (1 / 5 : ℚ) ≤ 1
    norm_num
  | frame w inp _ hin ih =>
    rcases guiSortingGrid_speed ext hext inp w with h | h
    · rw [h]; exact ih
    · exact ⟨le_trans (by norm_num) (hin.2.2.2.1 _ h).1, (hin.2.2.2.1 _ h).2⟩

/-- Witness for C18, amended: after the slider was moved to 1.0 the speed is 1, inside the
closed interval. -/
theorem learning_speed_range_witness :
    (guiSortingGrid Externals.inert speedToMaximum
        World.initial).1.se.constantGridlearningSpeed = 1
      ∧ (0 ≤ (guiSortingGrid Externals.inert speedToMaximum
            World.initial).1.se.constantGridlearningSpeed
        ∧ (guiSortingGrid Externals.inert speedToMaximum
            World.initial).1.se.constantGridlearningSpeed ≤ 1) :=
  ⟨rfl, learning_speed_range Externals.inert (inert_preserves _) _
    (Reachable.frame _ _ Reachable.initial speedToMaximum_inRange)⟩

/-! ### Writes to the active sorting parameters -/

theorem rayTracingSliders_parameters (inp : RayTracingInput) (w : World) :
    (rayTracingSliders inp w).1.se.rtx = w.se.rtx := by
  unfold rayTracingSliders
  cases inp.sliderMaxDepth <;> cases inp.sliderMaxSamples <;> cases inp.sliderMaxFrames <;>
    cases inp.sliderDescaling <;> cases inp.selectionPbrMode <;> rfl

theorem rayTracingSliders_method (inp : RayTracingInput) (w : World) :
    (rayTracingSliders inp w).1.se.m_rndMethod = w.se.m_rndMethod := by
  unfold rayTracingSliders
  cases inp.sliderMaxDepth <;> cases inp.sliderMaxSamples <;> cases inp.sliderMaxFrames <;>
    cases inp.sliderDescaling <;> cases inp.selectionPbrMode <;> rfl

theorem anyHitCheckbox_parameters (ext : Externals)
    (hext : ext.Preserves (fun se => se.rtx.m_SERParameters)) (inp : RayTracingInput)
    (w : World) :
    (anyHitCheckbox ext inp w).1.se.rtx.m_SERParameters = w.se.rtx.m_SERParameters := by
  obtain ⟨-, -, -, -, -, -, -, -, hwait, -, -, hany, -⟩ := hext
  unfold anyHitCheckbox
  split_ifs
  · exact (hany _ _).trans (hwait _)
  · rfl

theorem profilingCheckbox_parameters (ext : Externals)
    (hext : ext.Preserves (fun se => se.rtx.m_SERParameters)) (inp : RayTracingInput)
    (w : World) :
    (profilingCheckbox ext inp w).1.se.rtx.m_SERParameters = w.se.rtx.m_SERParameters := by
  obtain ⟨-, -, -, -, -, -, -, -, hwait, -, -, -, hprof⟩ := hext
  unfold profilingCheckbox
  split_ifs
  · exact (hprof _ _).trans (hwait _)
  · rfl

theorem sortingModeSelection_parameters (ext : Externals)
    (hext : ext.Preserves (fun se => se.rtx.m_SERParameters)) (inp : RayTracingInput)
    (w : World) :
    (sortingModeSelection ext inp w).1.se.rtx.m_SERParameters = w.se.rtx.m_SERParameters := by
  obtain ⟨-, -, -, -, hreload, -, -, -, hwait, -, -, -, -⟩ := hext
  unfold sortingModeSelection
  cases inp.radioManual <;> cases inp.selectionSortingMode <;> simp only [] <;> split_ifs <;>
    first
      | rfl
      | exact (hreload _).trans (hwait _)

theorem coherenceBitsSlider_parameters (inp : RayTracingInput) (w : World) :
    (coherenceBitsSlider inp w).se.rtx.m_SERParameters
      = match inp.sliderCoherenceBits with
        | some v => { w.se.rtx.m_SERParameters with numCoherenceBitsTotal := v }
        | none => w.se.rtx.m_SERParameters := by
  unfold coherenceBitsSlider
  cases inp.sliderCoherenceBits <;> rfl

theorem pipelineWidgets_parameters (ext : Externals)
    (hext : ext.Preserves (fun se => se.rtx.m_SERParameters)) (inp : RayTracingInput)
    (w : World) :
    (pipelineWidgets ext inp w).1.se.rtx.m_SERParameters
      = if w.se.m_rndMethod = .eRtxPipeline then
          (match inp.sliderCoherenceBits with
            | some v => { w.se.rtx.m_SERParameters with numCoherenceBitsTotal := v }
            | none => w.se.rtx.m_SERParameters)
        else w.se.rtx.m_SERParameters := by
  unfold pipelineWidgets
  split_ifs
  · show (coherenceBitsSlider inp _).se.rtx.m_SERParameters = _
    rw [coherenceBitsSlider_parameters, sortingModeSelection_parameters ext hext,
      profilingCheckbox_parameters ext hext, anyHitCheckbox_parameters ext hext]
  · rfl

theorem profilingGroup_se (inp : RayTracingInput) (w : World) :
    (profilingGroup inp w).se = w.se := by
  unfold profilingGroup
  split_ifs <;> rfl

theorem debuggingGroup_parameters (inp : RayTracingInput) (w : World) :
    (debuggingGroup inp w).1.se.rtx = w.se.rtx := by
  unfold debuggingGroup
  cases inp.selectionDebugMode <;> cases inp.dragMinHeatmap <;> cases inp.dragMaxHeatmap <;>
    simp only [] <;> split_ifs <;> rfl

theorem reloadShadersButton_parameters (ext : Externals)
    (hext : ext.Preserves (fun se => se.rtx.m_SERParameters)) (inp : RayTracingInput)
    (w : World) :
    (reloadShadersButton ext inp w).1.se.rtx.m_SERParameters = w.se.rtx.m_SERParameters := by
  unfold reloadShadersButton
  split_ifs
  · exact hext.2.2.2.2.1 _
  · rfl

theorem guiRayTracing_parameters (ext : Externals)
    (hext : ext.Preserves (fun se => se.rtx.m_SERParameters)) (inp : RayTracingInput)
    (w : World) :
    (guiRayTracing ext inp w).1.se.rtx.m_SERParameters
      = if w.se.m_rndMethod = .eRtxPipeline then
          (match inp.sliderCoherenceBits with
            | some v => { w.se.rtx.m_SERParameters with numCoherenceBitsTotal := v }
            | none => w.se.rtx.m_SERParameters)
        else w.se.rtx.m_SERParameters := by
  show (reloadShadersButton ext inp (debuggingGroup inp (profilingGroup inp
    (pipelineWidgets ext inp (rayTracingSliders inp w).1).1)).1).1.se.rtx.m_SERParameters = _
  rw [reloadShadersButton_parameters ext hext, debuggingGroup_parameters, profilingGroup_se,
    pipelineWidgets_parameters ext hext, rayTracingSliders_method, rayTracingSliders_parameters]

theorem guiSortingGrid_parameters (ext : Externals)
    (hext : ext.Preserves (fun se => se.rtx.m_SERParameters)) (inp : SortingGridInput)
    (w : World) (hbutton : inp.buttonRandomize = false) :
    (guiSortingGrid ext inp w).1.se.rtx.m_SERParameters = w.se.rtx.m_SERParameters := by
  have hrand : ∀ v : World, (randomizeButton ext inp v).se.rtx.m_SERParameters
      = v.se.rtx.m_SERParameters := by
    intro v
    unfold randomizeButton
    rw [hbutton]
    rfl
  rw [guiSortingGrid_world, panelBeforeTraining]
  exact (bestParametersCheckbox_keeps (fun se => se.rtx.m_SERParameters)
      (fun _ _ => rfl) inp _).trans
    ((inferenceCheckbox_keeps (fun se => se.rtx.m_SERParameters) (fun _ _ => rfl) inp _).trans
    ((trainingCheckbox_keeps (fun se => se.rtx.m_SERParameters) ext hext
      (fun _ _ => rfl) inp _).trans
    ((hrand _).trans
    ((visualizeControls_keeps (fun se => se.rtx.m_SERParameters)
      (fun _ _ => rfl) (fun _ _ => rfl) inp _).trans
    ((pipelineControls_keeps (fun se => se.rtx.m_SERParameters) ext hext
      (fun _ _ => rfl) inp _).trans
    ((learningControls_keeps (fun se => se.rtx.m_SERParameters)
      (fun _ _ => rfl) (fun _ _ => rfl) inp _).trans
    (gridDimensionControls_keeps (fun se => se.rtx.m_SERParameters) ext hext
      (fun _ _ _ _ => rfl) inp w)))))))

/-- Counterexample for C19: in the initial state the slider "Number Coherence Bits" of
`guiRayTracing` is moved to 16. The active parameters change in the one field
`numCoherenceBitsTotal`, from 32 to 16, while the other eight fields keep their values, and
no new structure is created: no method is invoked. -/
theorem parameters_mutated_in_place :
    World.initial.se.rtx.m_SERParameters
        = ⟨32, false, false, true, false, false, false, false, false⟩
      ∧ (guiRayTracing Externals.inert coherenceBitsMoved World.initial).1.se.rtx.m_SERParameters
        = ⟨16, false, false, true, false, false, false, false, false⟩
      ∧ (guiRayTracing Externals.inert coherenceBitsMoved World.initial).1.calls = []
      ∧ ¬ ((guiRayTracing Externals.inert coherenceBitsMoved
              World.initial).1.se.rtx.m_SERParameters
            = World.initial.se.rtx.m_SERParameters
          ∨ Call.createSortingParameters
            ∈ (guiRayTracing Externals.inert coherenceBitsMoved World.initial).1.calls) := by
  refine ⟨rfl, rfl, rfl, ?_⟩
  decide

/-- C19, amended: the user interface writes the active `SortingParameters`
(`rtx->m_SERParameters`) in exactly two places. The button "randomize Parameters" of
`guiSortingGrid` replaces the whole structure by the result of `createSortingParameters()`;
the slider "Number Coherence Bits" of `guiRayTracing`, shown when the ray-tracing pipeline is
active, writes the field `numCoherenceBitsTotal` in place and keeps the other eight fields.
Without these two events a call of either panel leaves the parameters as they are, the
invoked methods being assumed to leave them alone. -/
theorem parameters_written_in_two_places (ext : Externals)
    (hext : ext.Preserves (fun se => se.rtx.m_SERParameters)) :
    (∀ (inp : RayTracingInput) (w : World),
        (guiRayTracing ext inp w).1.se.rtx.m_SERParameters
          = if w.se.m_rndMethod = .eRtxPipeline then
              (match inp.sliderCoherenceBits with
                | some v => { w.se.rtx.m_SERParameters with numCoherenceBitsTotal := v }
                | none => w.se.rtx.m_SERParameters)
            else w.se.rtx.m_SERParameters)
      ∧ (∀ (inp : SortingGridInput) (w : World), inp.buttonRandomize = true →
          (randomizeButton ext inp w).se.rtx.m_SERParameters
            = (ext.createSortingParameters w.se).1)
      ∧ (∀ (inp : SortingGridInput) (w : World), inp.buttonRandomize = false →
          (guiSortingGrid ext inp w).1.se.rtx.m_SERParameters = w.se.rtx.m_SERParameters) := by
  refine ⟨guiRayTracing_parameters ext hext, ?_, guiSortingGrid_parameters ext hext⟩
  intro inp w hbutton
  unfold randomizeButton
  rw [hbutton]
  exact hext.2.2.2.2.1 _

/-- Witness for C19, amended: with methods that have no effect, the slider moved to 16
changes `numCoherenceBitsTotal` alone. -/
theorem parameters_written_in_two_places_witness :
    (guiRayTracing Externals.inert coherenceBitsMoved World.initial).1.se.rtx.m_SERParameters
      = { World.initial.se.rtx.m_SERParameters with numCoherenceBitsTotal := 16 } :=
  ((parameters_written_in_two_places Externals.inert (inert_preserves _)).1
    coherenceBitsMoved World.initial).trans rfl

/-! ### Look directions and array sizes -/

/-- C21: the six training look directions match the six `CubeSide` values index by index.
`CubeUp`, `CubeDown`, `CubeLeft`, `CubeRight`, `CubeFront`, `CubeBack` have the values 0 to 5;
`lookDirections` has six entries; the entry of each side is non-zero and its component of
largest magnitude is +y, -y, -x, +x, +z, -z respectively; the six directions are pairwise
distinct. -/
theorem lookDirections_match_sides :
    [CubeSide.CubeUp, CubeSide.CubeDown, CubeSide.CubeLeft, CubeSide.CubeRight,
        CubeSide.CubeFront, CubeSide.CubeBack].map CubeSide.id = [0, 1, 2, 3, 4, 5]
      ∧ lookDirections.length = 6
      ∧ lookDirections.map dominantAxis
          = [some .posY, some .negY, some .negX, some .posX, some .posZ, some .negZ]
      ∧ (∀ s : CubeSide, ∃ v, lookDirections[s.id]? = some v ∧ v ≠ ⟨0, 0, 0⟩
          ∧ dominantAxis v
            = some (match s with
                | .CubeUp => .posY
                | .CubeDown => .negY
                | .CubeLeft => .negX
                | .CubeRight => .posX
                | .CubeFront => .posZ
                | .CubeBack => .negZ))
      ∧ lookDirections.Nodup := by
  have h0 : dominantAxis ⟨0, 1, 1 / 10⟩ = some .posY := by
    norm_num [dominantAxis, abs_of_pos]
  have h1 : dominantAxis ⟨0, -1, -(1 / 10)⟩ = some .negY := by
    norm_num [dominantAxis, abs_of_pos]
  have h2 : dominantAxis ⟨-1, 0, 0⟩ = some .negX := by
    norm_num [dominantAxis]
  have h3 : dominantAxis ⟨1, 0, 0⟩ = some .posX := by
    norm_num [dominantAxis]
  have h4 : dominantAxis ⟨0, 0, 1⟩ = some .posZ := by
    norm_num [dominantAxis]
  have h5 : dominantAxis ⟨0, 0, -1⟩ = some .negZ := by
    norm_num [dominantAxis]
  refine ⟨rfl, rfl, ?_, ?_, ?_⟩
  · simp only [lookDirections, List.map_cons, List.map_nil, h0, h1, h2, h3, h4, h5]
  · intro s
    cases s
    · exact ⟨⟨0, 1, 1 / 10⟩, rfl, by simp, h0⟩
    · exact ⟨⟨0, -1, -(1 / 10)⟩, rfl, by simp, h1⟩
    · exact ⟨⟨-1, 0, 0⟩, rfl, by simp, h2⟩
    · exact ⟨⟨1, 0, 0⟩, rfl, by simp, h3⟩
    · exact ⟨⟨0, 0, 1⟩, rfl, by simp, h4⟩
    · exact ⟨⟨0, 0, -1⟩, rfl, by simp, h5⟩
  · simp [lookDirections]
    norm_num

/-- C22: the array `bestKeys` is large enough for every valid grid. `bestKeys` has
`10 * 10 * 10 = MAXGRIDSIZE ^ 3 = 1000` entries, and for all `nx`, `ny`, `nz` with
`1 ≤ nx, ny, nz ≤ MAXGRIDSIZE` the number of cells `nx * ny * nz` is at most that length. -/
theorem bestKeys_large_enough (nx ny nz : Int)
    (hx : 1 ≤ nx ∧ nx ≤ MAXGRIDSIZE) (hy : 1 ≤ ny ∧ ny ≤ MAXGRIDSIZE)
    (hz : 1 ≤ nz ∧ nz ≤ MAXGRIDSIZE) :
    ({ grid_x := nx, grid_y := ny, grid_z := nz } : SampleExample).bestKeys.length = 1000
      ∧ MAXGRIDSIZE ^ 3 = 1000
      ∧ nx * ny * nz ≤ (({ grid_x := nx, grid_y := ny, grid_z := nz } :
          SampleExample).bestKeys.length : Int)
      ∧ ({ grid_x := nx, grid_y := ny, grid_z := nz } : SampleExample).cellCount
          ≤ ({ grid_x := nx, grid_y := ny, grid_z := nz } : SampleExample).bestKeys.length := by
  have hlen : ({ grid_x := nx, grid_y := ny, grid_z := nz } : SampleExample).bestKeys.length
      = 1000 := by
    simp only [List.length_replicate]
  unfold MAXGRIDSIZE at hx hy hz
  have hxy : nx * ny ≤ 10 * 10 := mul_le_mul hx.2 hy.2 (by omega) (by omega)
  have hxyz : nx * ny * nz ≤ 10 * 10 * 10 := mul_le_mul hxy hz.2 (by omega) (by omega)
  refine ⟨hlen, by decide, ?_, ?_⟩
  · rw [hlen]
    omega
  · rw [hlen]
    show (nx * ny * nz).toNat ≤ 1000
    omega

/-- Witness for C22: the largest grid, 10 x 10 x 10, uses all 1000 entries. -/
theorem bestKeys_large_enough_witness :
    ({ grid_x := 10, grid_y := 10, grid_z := 10 } : SampleExample).cellCount = 1000
      ∧ ({ grid_x := 10, grid_y := 10, grid_z := 10 } : SampleExample).cellCount
          ≤ ({ grid_x := 10, grid_y := 10, grid_z := 10 } : SampleExample).bestKeys.length :=
  ⟨by decide, (bestKeys_large_enough 10 10 10 (by decide) (by decide) (by decide)).2.2.2⟩

/-! ### Range of the coherence bits -/

/-- C23, evaluation of the code: the default of `m_rtxState.numCoherenceBitsTotal` is 32, but
the slider "Number Coherence Bits" has the range `0u..64u`; moved to 40, a value inside its
range, it writes 40 into `rtx->m_SERParameters.numCoherenceBitsTotal`, which exceeds the 32
that the comment on the field allows. -/
theorem coherenceBits_exceed_documented_range :
    World.initial.se.m_rtxState.numCoherenceBitsTotal = 32
      ∧ coherenceBitsHigh.slidersInRange
      ∧ (guiRayTracing Externals.inert coherenceBitsHigh
          World.initial).1.se.rtx.m_SERParameters.numCoherenceBitsTotal = 40
      ∧ ¬ (guiRayTracing Externals.inert coherenceBitsHigh
          World.initial).1.se.rtx.m_SERParameters.numCoherenceBitsTotal ≤ 32 := by
  refine ⟨rfl, ?_, rfl, by decide⟩
  refine ⟨?_, ?_, ?_, ?_, ?_, ?_, ?_⟩ <;> intro v hv <;> simp [coherenceBitsHigh] at hv
  subst hv
  decide

/-! ### Bounds of the frame history -/

/-- C27, evaluation of the code: `stored_frames` has 4 entries and `stored_timers` 5. On
frame 4 the slot written is `4 % 5 = 4`, outside `stored_frames`; on frame 0 the slot read is
`(0 - 4) % 5 = -4`, outside both arrays; on frame 8 the slot read is 4, outside
`stored_frames`. In each case `guiProfiler` performs an access outside an array. -/
theorem frame_history_out_of_bounds :
    ({} : SampleGUI).stored_frames.length = 4
      ∧ ({} : SampleGUI).stored_timers.length = 5
      ∧ profilerWriteIndex 4 = 4
      ∧ arrayStore ({} : SampleGUI).stored_frames (profilerWriteIndex 4) 4 = none
      ∧ guiProfiler {} (controllerOnFrame 4) {} = none
      ∧ profilerReadIndex 0 = -4
      ∧ guiProfiler {} (controllerOnFrame 0) {} = none
      ∧ profilerReadIndex 8 = 4
      ∧ guiProfiler {} (controllerOnFrame 8) {} = none :=
  ⟨rfl, rfl, rfl, rfl, rfl, rfl, rfl, rfl, rfl⟩

/-! ### The visualization hint -/

theorem gridSliders_visualize (inp : SortingGridInput) (gui : SampleGUI) :
    (gridSliders inp gui).1.VisualizeSortingGrid = gui.VisualizeSortingGrid := by
  unfold gridSliders
  cases inp.sliderGridX <;> cases inp.sliderGridY <;> cases inp.sliderGridZ <;> rfl

theorem gridSliders_unmoved (inp : SortingGridInput) (gui : SampleGUI)
    (h : (gridSliders inp gui).2 = false) : (gridSliders inp gui).1 = gui := by
  unfold gridSliders at h ⊢
  cases hx : inp.sliderGridX <;> cases hy : inp.sliderGridY <;> cases hz : inp.sliderGridZ <;>
    simp_all

theorem gridDimensionControls_visualize (ext : Externals) (inp : SortingGridInput) (w : World) :
    (gridDimensionControls ext inp w).1.gui.VisualizeSortingGrid
      = w.gui.VisualizeSortingGrid := by
  cases hm : (gridSliders inp w.gui).2
  · rw [gridDimensionControls_still ext inp w hm]
    exact gridSliders_visualize inp w.gui
  · cases ht : w.se.performAutomaticTraining
    · rw [gridDimensionControls_build ext inp w ht hm]
      exact gridSliders_visualize inp w.gui
    · rw [gridDimensionControls_training ext inp w ht hm]
      exact gridSliders_visualize inp w.gui

theorem visualizeControls_gui (inp : SortingGridInput) (w : World) :
    (visualizeControls inp w).1.gui.VisualizeSortingGrid
      = (if inp.checkboxVisualize then !w.gui.VisualizeSortingGrid
          else w.gui.VisualizeSortingGrid) := by
  unfold visualizeControls
  cases inp.checkboxVisualize <;> cases inp.sliderDisplayCubeSize <;> simp only [] <;>
    split_ifs <;> rfl

theorem visualizeControls_hint (inp : SortingGridInput) (w : World) :
    (visualizeControls inp w).1.se.m_rtxState.VisualizeSortingGrid
      = (if inp.checkboxVisualize then (if !w.gui.VisualizeSortingGrid then 1 else 0)
          else w.se.m_rtxState.VisualizeSortingGrid) := by
  unfold visualizeControls
  cases inp.checkboxVisualize <;> cases inp.sliderDisplayCubeSize <;> simp only [] <;>
    split_ifs <;> rfl

theorem visualizeControls_changed (inp : SortingGridInput) (w : World)
    (h : inp.checkboxVisualize = true) : (visualizeControls inp w).2 = true := by
  unfold visualizeControls
  rw [h]
  cases inp.sliderDisplayCubeSize <;> simp only [] <;> split_ifs <;> rfl

theorem guiSortingGrid_visualize (ext : Externals) (inp : SortingGridInput) (w : World) :
    (guiSortingGrid ext inp w).1.gui.VisualizeSortingGrid
      = (if inp.checkboxVisualize then !w.gui.VisualizeSortingGrid
          else w.gui.VisualizeSortingGrid) := by
  rw [guiSortingGrid_world, panelBeforeTraining, bestParametersCheckbox_gui,
    inferenceCheckbox_gui, trainingCheckbox_gui, randomizeButton_gui, visualizeControls_gui,
    pipelineControls_gui]
  show (if inp.checkboxVisualize then
      !(gridDimensionControls ext inp w).1.gui.VisualizeSortingGrid
    else (gridDimensionControls ext inp w).1.gui.VisualizeSortingGrid) = _
  rw [gridDimensionControls_visualize]

theorem guiSortingGrid_hint (ext : Externals)
    (hext : ext.Preserves (fun se => se.m_rtxState.VisualizeSortingGrid))
    (inp : SortingGridInput) (w : World) :
    (guiSortingGrid ext inp w).1.se.m_rtxState.VisualizeSortingGrid
      = (if inp.checkboxVisualize then (if !w.gui.VisualizeSortingGrid then 1 else 0)
          else w.se.m_rtxState.VisualizeSortingGrid) := by
  have hafter : (guiSortingGrid ext inp w).1.se.m_rtxState.VisualizeSortingGrid
      = (visualizeControls inp (pipelineControls ext inp
          (learningControls inp
            (gridDimensionControls ext inp w).1))).1.se.m_rtxState.VisualizeSortingGrid := by
    rw [guiSortingGrid_world, panelBeforeTraining]
    exact (bestParametersCheckbox_keeps (fun se => se.m_rtxState.VisualizeSortingGrid)
        (fun _ _ => rfl) inp _).trans
      ((inferenceCheckbox_keeps (fun se => se.m_rtxState.VisualizeSortingGrid)
        (fun _ _ => rfl) inp _).trans
      ((trainingCheckbox_keeps (fun se => se.m_rtxState.VisualizeSortingGrid) ext hext
        (fun _ _ => rfl) inp _).trans
      (randomizeButton_keeps (fun se => se.m_rtxState.VisualizeSortingGrid) ext hext
        (fun _ _ => rfl) inp _)))
  have hbefore : (pipelineControls ext inp (learningControls inp
      (gridDimensionControls ext inp w).1)).se.m_rtxState.VisualizeSortingGrid
      = w.se.m_rtxState.VisualizeSortingGrid :=
    (pipelineControls_keeps (fun se => se.m_rtxState.VisualizeSortingGrid) ext hext
        (fun _ _ => rfl) inp _).trans
      ((learningControls_keeps (fun se => se.m_rtxState.VisualizeSortingGrid)
        (fun _ _ => rfl) (fun _ _ => rfl) inp _).trans
      (gridDimensionControls_keeps (fun se => se.m_rtxState.VisualizeSortingGrid) ext hext
        (fun _ _ _ _ => rfl) inp w))
  have hgui : (pipelineControls ext inp (learningControls inp
      (gridDimensionControls ext inp w).1)).gui.VisualizeSortingGrid
      = w.gui.VisualizeSortingGrid := by
    rw [pipelineControls_gui]
    exact gridDimensionControls_visualize ext inp w
  rw [hafter, visualizeControls_hint, hbefore, hgui]

theorem guiSortingGrid_visualize_changed (ext : Externals) (inp : SortingGridInput)
    (w : World) (h : inp.checkboxVisualize = true) : (guiSortingGrid ext inp w).2 = true := by
  rw [guiSortingGrid_changed, visualizeControls_changed inp _ h, Bool.or_true]

/-- C24: in every state reachable from the initial state through calls of `guiSortingGrid`,
whatever the widgets report, the visualization hint agrees with the checkbox:
`m_rtxState.VisualizeSortingGrid` is 1 if `SampleGUI::VisualizeSortingGrid` is true and 0 if
it is false; and a call in which the checkbox is toggled flips the member and reports
`changed = true`. The invoked methods are assumed to leave the hint alone. -/
theorem visualization_hint_agrees (ext : Externals)
    (hext : ext.Preserves (fun se => se.m_rtxState.VisualizeSortingGrid))
    (w : World) (hw : ReachableAnyInput ext w) :
    w.se.m_rtxState.VisualizeSortingGrid = (if w.gui.VisualizeSortingGrid then 1 else 0)
      ∧ ∀ inp : SortingGridInput, inp.checkboxVisualize = true →
          (guiSortingGrid ext inp w).2 = true
            ∧ (guiSortingGrid ext inp w).1.gui.VisualizeSortingGrid
                = !w.gui.VisualizeSortingGrid := by
  constructor
  · induction hw with
    | initial => rfl
    | frame w inp _ ih =>
      rw [guiSortingGrid_hint ext hext, guiSortingGrid_visualize, ih]
      cases inp.checkboxVisualize <;> cases w.gui.VisualizeSortingGrid <;> rfl
  · intro inp h
    refine ⟨guiSortingGrid_visualize_changed ext inp w h, ?_⟩
    rw [guiSortingGrid_visualize, h]
    rfl

/-- Witness for C24: after one frame in which the checkbox is ticked, the member is true
and the hint is 1. -/
theorem visualization_hint_agrees_witness :
    (guiSortingGrid Externals.inert visualizeToggled World.initial).1.gui.VisualizeSortingGrid
        = true
      ∧ (guiSortingGrid Externals.inert visualizeToggled
          World.initial).1.se.m_rtxState.VisualizeSortingGrid = 1
      ∧ (guiSortingGrid Externals.inert visualizeToggled World.initial).2 = true := by
  have h := visualization_hint_agrees Externals.inert (inert_preserves _)
    (guiSortingGrid Externals.inert visualizeToggled World.initial).1
    (ReachableAnyInput.frame _ _ ReachableAnyInput.initial)
  have h0 := visualization_hint_agrees Externals.inert (inert_preserves _) World.initial
    ReachableAnyInput.initial
  have hg : (guiSortingGrid Externals.inert visualizeToggled
      World.initial).1.gui.VisualizeSortingGrid = true := (h0.2 visualizeToggled rfl).2
  refine ⟨hg, ?_, (h0.2 visualizeToggled rfl).1⟩
  rw [h.1, hg]
  rfl

/-! ### Shown dimensions and controller dimensions -/

theorem gridDimensionControls_agree (ext : Externals)
    (hext : ext.Preserves SampleExample.dimensions) (inp : SortingGridInput) (w : World)
    (h : w.gui.dimensions = w.se.dimensions) :
    (gridDimensionControls ext inp w).1.gui.dimensions
      = (gridDimensionControls ext inp w).1.se.dimensions := by
  cases hm : (gridSliders inp w.gui).2
  · rw [gridDimensionControls_still ext inp w hm]
    show (gridSliders inp w.gui).1.dimensions = w.se.dimensions
    rw [gridSliders_unmoved inp w.gui hm]
    exact h
  · cases ht : w.se.performAutomaticTraining
    · rw [gridDimensionControls_build ext inp w ht hm]
      exact (hext.1 { w.se with
        grid_x := (gridSliders inp w.gui).1.gridX,
        grid_y := (gridSliders inp w.gui).1.gridY,
        grid_z := (gridSliders inp w.gui).1.gridZ }).symm
    · rw [gridDimensionControls_training ext inp w ht hm]
      rfl

/-- C25: starting from the initial state (shown dimensions 2, 2, 2 and controller dimensions
2, 2, 2), with `grid_x`, `grid_y`, `grid_z` changed by no invoked method, in every state
reached through calls of `guiSortingGrid` the shown `(gridX, gridY, gridZ)` equals the
`(grid_x, grid_y, grid_z)` of the controller, whatever the widgets report; and each call
re-establishes the equality from any state in which it holds. -/
theorem shown_dimensions_agree (ext : Externals)
    (hext : ext.Preserves SampleExample.dimensions) (w : World)
    (hw : ReachableAnyInput ext w) :
    (w.gui.gridX = w.se.grid_x ∧ w.gui.gridY = w.se.grid_y ∧ w.gui.gridZ = w.se.grid_z)
      ∧ ∀ inp : SortingGridInput,
          (guiSortingGrid ext inp w).1.gui.gridX = (guiSortingGrid ext inp w).1.se.grid_x
            ∧ (guiSortingGrid ext inp w).1.gui.gridY = (guiSortingGrid ext inp w).1.se.grid_y
            ∧ (guiSortingGrid ext inp w).1.gui.gridZ
                = (guiSortingGrid ext inp w).1.se.grid_z := by
  have step : ∀ (w : World) (inp : SortingGridInput), w.gui.dimensions = w.se.dimensions →
      (guiSortingGrid ext inp w).1.gui.dimensions
        = (guiSortingGrid ext inp w).1.se.dimensions := by
    intro w inp h
    rw [afterGridControls_gui_dimensions, afterGridControls_dimensions ext hext]
    exact gridDimensionControls_agree ext hext inp w h
  have inv : w.gui.dimensions = w.se.dimensions := by
    induction hw with
    | initial => rfl
    | frame w inp _ ih => exact step w inp ih
  have split : ∀ v : World, v.gui.dimensions = v.se.dimensions →
      v.gui.gridX = v.se.grid_x ∧ v.gui.gridY = v.se.grid_y ∧ v.gui.gridZ = v.se.grid_z := by
    intro v hv
    simp only [SampleGUI.dimensions, SampleExample.dimensions, Prod.mk.injEq] at hv
    exact hv
  exact ⟨split w inv, fun inp => split _ (step w inp inv)⟩

/-- Witness for C25: after the slider "Grid X" was moved to 5 with training off, both the
panel and the controller have the dimensions 5, 2, 2. -/
theorem shown_dimensions_agree_witness :
    (guiSortingGrid Externals.inert gridXMoved World.initial).1.gui.dimensions = (5, 2, 2)
      ∧ (guiSortingGrid Externals.inert gridXMoved World.initial).1.se.dimensions = (5, 2, 2)
      ∧ ((guiSortingGrid Externals.inert gridXMoved World.initial).1.gui.gridX
          = (guiSortingGrid Externals.inert gridXMoved World.initial).1.se.grid_x
        ∧ (guiSortingGrid Externals.inert gridXMoved World.initial).1.gui.gridY
          = (guiSortingGrid Externals.inert gridXMoved World.initial).1.se.grid_y
        ∧ (guiSortingGrid Externals.inert gridXMoved World.initial).1.gui.gridZ
          = (guiSortingGrid Externals.inert gridXMoved World.initial).1.se.grid_z) :=
  ⟨rfl, rfl, (shown_dimensions_agree Externals.inert (inert_preserves _) World.initial
    ReachableAnyInput.initial).2 gridXMoved⟩

/-! ### Gating of the mode flags -/

theorem inferringWorld_reachable : Reachable Externals.inert inferringWorld := by
  refine Reachable.frame _ _ Reachable.initial ⟨?_, ?_, ?_, ?_, ?_⟩ <;> intro v hv <;>
    simp [inferenceToggled] at hv

/-- Counterexample for C26: in the state reached by ticking "activate Inference", a call in
which the checkboxes "activate Inference" and "always use best Parameters found" both report
a toggle changes `useBestParameters` from false to true, although `activateParametertesting`
is true after the checkbox "perform automatic training" has been handled: the guard of the
last checkbox is evaluated after the inference checkbox has cleared the flag. -/
theorem useBestParameters_changed_while_inferring :
    Reachable Externals.inert inferringWorld
      ∧ (afterTrainingCheckbox Externals.inert inferenceAndBestToggled
          inferringWorld).se.performAutomaticTraining = false
      ∧ (afterTrainingCheckbox Externals.inert inferenceAndBestToggled
          inferringWorld).se.activateParametertesting = true
      ∧ (afterTrainingCheckbox Externals.inert inferenceAndBestToggled
          inferringWorld).se.useBestParameters = false
      ∧ (guiSortingGrid Externals.inert inferenceAndBestToggled
          inferringWorld).1.se.useBestParameters = true
      ∧ ¬ ((guiSortingGrid Externals.inert inferenceAndBestToggled
              inferringWorld).1.se.useBestParameters
            ≠ (afterTrainingCheckbox Externals.inert inferenceAndBestToggled
              inferringWorld).se.useBestParameters →
          (afterTrainingCheckbox Externals.inert inferenceAndBestToggled
              inferringWorld).se.performAutomaticTraining = false
            ∧ (afterTrainingCheckbox Externals.inert inferenceAndBestToggled
              inferringWorld).se.activateParametertesting = false) :=
  ⟨inferringWorld_reachable, by decide, by decide, by decide, by decide, by decide⟩

/-- C26, amended: flag gating. After the checkbox "perform automatic training" has been
handled, a call of `guiSortingGrid` changes `activateParametertesting` only if
`performAutomaticTraining` is false at that point, and changes `useBestParameters` only if
`performAutomaticTraining` and `activateParametertesting` are both false after the checkbox
"activate Inference" has been handled, which is where the guard of its checkbox is evaluated
(`performAutomaticTraining` is then false at the earlier point too, and so is
`activateParametertesting` unless the inference checkbox was toggled in the same call);
otherwise the respective flag keeps its value. `performAutomaticTraining` is not changed any
more. When the invoked methods leave the flags alone, the values of the two flags after the
training checkbox are those at entry of the call. -/
theorem flag_gating (ext : Externals) (inp : SortingGridInput) (w : World) :
    (guiSortingGrid ext inp w).1
        = bestParametersCheckbox inp (inferenceCheckbox inp (afterTrainingCheckbox ext inp w))
      ∧ (guiSortingGrid ext inp w).1.se.performAutomaticTraining
          = (afterTrainingCheckbox ext inp w).se.performAutomaticTraining
      ∧ ((guiSortingGrid ext inp w).1.se.activateParametertesting
            ≠ (afterTrainingCheckbox ext inp w).se.activateParametertesting →
          (afterTrainingCheckbox ext inp w).se.performAutomaticTraining = false)
      ∧ ((guiSortingGrid ext inp w).1.se.useBestParameters
            ≠ (afterTrainingCheckbox ext inp w).se.useBestParameters →
          (inferenceCheckbox inp
              (afterTrainingCheckbox ext inp w)).se.performAutomaticTraining = false
            ∧ (inferenceCheckbox inp
                (afterTrainingCheckbox ext inp w)).se.activateParametertesting = false
            ∧ (afterTrainingCheckbox ext inp w).se.performAutomaticTraining = false
            ∧ (inp.checkboxInference = false →
                (afterTrainingCheckbox ext inp w).se.activateParametertesting = false))
      ∧ (ext.Preserves SampleExample.flags →
          (afterTrainingCheckbox ext inp w).se.activateParametertesting
              = w.se.activateParametertesting
            ∧ (afterTrainingCheckbox ext inp w).se.useBestParameters
              = w.se.useBestParameters) := by
  have h2 := inferenceCheckbox_flags inp (afterTrainingCheckbox ext inp w)
  have h3 := bestParametersCheckbox_flags inp
    (inferenceCheckbox inp (afterTrainingCheckbox ext inp w))
  simp only [SampleExample.flags, Prod.mk.injEq] at h2 h3
  obtain ⟨b1, b2, b3⟩ := h2
  obtain ⟨c1, c2, c3⟩ := h3
  have hfinal : (guiSortingGrid ext inp w).1
      = bestParametersCheckbox inp (inferenceCheckbox inp (afterTrainingCheckbox ext inp w)) :=
    rfl
  refine ⟨hfinal, ?_, ?_, ?_, ?_⟩
  · rw [hfinal, c1, b1]
  · rw [hfinal, c2, b2]
    cases (afterTrainingCheckbox ext inp w).se.performAutomaticTraining <;>
      cases inp.checkboxInference <;> simp
  · rw [hfinal, c3, b1, b2, b3]
    cases (afterTrainingCheckbox ext inp w).se.performAutomaticTraining <;>
      cases (afterTrainingCheckbox ext inp w).se.activateParametertesting <;>
      cases inp.checkboxInference <;> cases inp.checkboxUseBest <;> simp
  · intro hext
    have h1 := trainingCheckbox_flags ext hext inp (panelBeforeTraining ext inp w)
    have h0 := panelBeforeTraining_flags ext hext inp w
    simp only [SampleExample.flags, Prod.mk.injEq] at h0 h1
    exact ⟨h1.2.1.trans h0.2.1, h1.2.2.trans h0.2.2⟩

/-- Witness for C26, amended: in the state reached by ticking "activate Inference", a call
in which the two lower checkboxes both report a toggle changes `useBestParameters`; both
other flags are false after the inference checkbox has been handled. -/
theorem flag_gating_witness :
    (guiSortingGrid Externals.inert inferenceAndBestToggled
          inferringWorld).1.se.useBestParameters
        ≠ (afterTrainingCheckbox Externals.inert inferenceAndBestToggled
          inferringWorld).se.useBestParameters
      ∧ ((inferenceCheckbox inferenceAndBestToggled
            (afterTrainingCheckbox Externals.inert inferenceAndBestToggled
              inferringWorld)).se.performAutomaticTraining = false
          ∧ (inferenceCheckbox inferenceAndBestToggled
              (afterTrainingCheckbox Externals.inert inferenceAndBestToggled
                inferringWorld)).se.activateParametertesting = false
          ∧ (afterTrainingCheckbox Externals.inert inferenceAndBestToggled
              inferringWorld).se.performAutomaticTraining = false
          ∧ (inferenceAndBestToggled.checkboxInference = false →
              (afterTrainingCheckbox Externals.inert inferenceAndBestToggled
                inferringWorld).se.activateParametertesting = false)) :=
  ⟨by decide,
    (flag_gating Externals.inert inferenceAndBestToggled inferringWorld).2.2.2.1 (by decide)⟩

/-! ### Delayed read-back of the frame history -/

theorem guiProfiler_record (info : TimerInfo) (se : SampleExample) (gui : SampleGUI) :
    guiProfiler info se gui
      = (recordFrame info se.m_rtxState.frame gui).bind fun g =>
          (arrayLoad g.stored_frames (profilerReadIndex se.m_rtxState.frame)).map fun shown =>
            (g, { averages := profilerAverages se.latest_timeData
                  frame := max shown 0
                  frameGpu := se.latest_timeData.frame }) := by
  simp only [guiProfiler, recordFrame, Option.bind_eq_bind, Option.pure_def]
  cases h1 : arrayStore gui.stored_frames (profilerWriteIndex se.m_rtxState.frame)
      se.m_rtxState.frame with
  | none => simp
  | some frames =>
    cases h2 : arrayStore gui.stored_timers (profilerWriteIndex se.m_rtxState.frame) info with
    | none => simp
    | some timers =>
      cases h3 : arrayLoad frames (profilerReadIndex se.m_rtxState.frame) <;> simp [h3]

theorem recordFrame_declared (info : TimerInfo) (frame : Int) (gui g : SampleGUI)
    (hlen : gui.stored_frames.length = 4) (h : recordFrame info frame gui = some g) :
    0 ≤ frame.tmod 5 ∧ frame.tmod 5 < 4 ∧ g.stored_frames.length = 4 := by
  simp only [recordFrame, Option.bind_eq_bind, Option.pure_def, Option.bind_eq_some,
    Option.some.injEq] at h
  obtain ⟨frames, hfr, timers, _, rfl⟩ := h
  simp only [arrayStore, profilerWriteIndex, hlen] at hfr
  split_ifs at hfr with hidx
  simp only [Option.some.injEq] at hfr
  subst hfr
  exact ⟨hidx.1, by exact_mod_cast hidx.2, by simp [hlen]⟩

theorem frame_window_outside_history (f : Int) (hf : 4 ≤ f) (info : Int → TimerInfo)
    (gui : SampleGUI) (hlen : gui.stored_frames.length = 4) :
    ¬ ∃ g1 g2 g3 g4 g5,
        recordFrame (info (f - 4)) (f - 4) gui = some g1
          ∧ recordFrame (info (f - 3)) (f - 3) g1 = some g2
          ∧ recordFrame (info (f - 2)) (f - 2) g2 = some g3
          ∧ recordFrame (info (f - 1)) (f - 1) g3 = some g4
          ∧ recordFrame (info f) f g4 = some g5 := by
  rintro ⟨g1, g2, g3, g4, g5, r1, r2, r3, r4, r5⟩
  obtain ⟨_, b1, l1⟩ := recordFrame_declared _ _ _ _ hlen r1
  obtain ⟨_, b2, l2⟩ := recordFrame_declared _ _ _ _ l1 r2
  obtain ⟨_, b3, l3⟩ := recordFrame_declared _ _ _ _ l2 r3
  obtain ⟨_, b4, l4⟩ := recordFrame_declared _ _ _ _ l3 r4
  obtain ⟨_, b5, _⟩ := recordFrame_declared _ _ _ _ l4 r5
  rw [Int.tmod_eq_emod (by omega) (by decide)] at b1 b2 b3 b4 b5
  omega

/-- C28, evaluation of the code: with `stored_frames` as declared (4 entries), the runs of
`guiProfiler` on the frames 4 to 8 leave the array. The run on frame 4 stores at slot
`4 % 5 = 4`, outside the array. After the stores of the frames 5, 6 and 7, which fill the
slots 0, 1 and 2, the run on frame 8 reads slot `(8 - 4) % 5 = 4` for the line "Frame",
outside the array: the value printed on frame 8 is not a slot of the history. Likewise for
the frames 5 to 9: the stores of the frames 5 to 8 fill the slots 0 to 3, and the run on
frame 9 stores at slot `9 % 5 = 4`, outside the array. -/
theorem frame_display_outside_history :
    ({} : SampleGUI).stored_frames.length = 4
      ∧ profilerWriteIndex 4 = 4
      ∧ recordFrame {} 4 {} = none
      ∧ (recordFrames [5, 6, 7] {}).map SampleGUI.stored_frames = some [5, 6, 7, 0]
      ∧ profilerReadIndex 8 = 4
      ∧ (recordFrames [5, 6, 7] {}).bind
          (fun g => arrayLoad g.stored_frames (profilerReadIndex 8)) = none
      ∧ (recordFrames [5, 6, 7] {}).bind (guiProfiler {} (controllerOnFrame 8)) = none
      ∧ (recordFrames [5, 6, 7, 8] {}).map SampleGUI.stored_frames = some [5, 6, 7, 8]
      ∧ profilerWriteIndex 9 = 4
      ∧ (recordFrames [5, 6, 7, 8] {}).bind (guiProfiler {} (controllerOnFrame 9)) = none :=
  ⟨rfl, rfl, rfl, rfl, rfl, rfl, rfl, rfl, rfl, rfl⟩

end KeyInference
